import Mathlib

/-!
Verification development for the cube-search core (`src/cube.rs`) of the
algfinder repository.  The Rust `u32` face words are embedded as `Nat`
(every operation used by the source keeps values below `2 ^ 32`, and the
well-formedness invariant keeps faces below `2 ^ 27`); bitwise operators
`&`, `|`, `^`, `<<`, `>>` become `&&&`, `|||`, `^^^`, `<<<`, `>>>`; the
Rust `!mask` complement on `u32` becomes `0xFFFFFFFF ^^^ mask`.
-/

/-! ## Constants from `cube.rs` -/

def SHIFT2 : Nat := 6
def SHIFT4 : Nat := 12
def SHIFT6 : Nat := 18
def SHIFT8 : Nat := 24

def PIECE0 : Nat := 0b000000000000000000000000111
def PIECE1 : Nat := 0b000000000000000000000111000
def PIECE2 : Nat := 0b000000000000000000111000000
def PIECE3 : Nat := 0b000000000000000111000000000
def PIECE4 : Nat := 0b000000000000111000000000000
def PIECE5 : Nat := 0b000000000111000000000000000
def PIECE6 : Nat := 0b000000111000000000000000000
def PIECE7 : Nat := 0b000111000000000000000000000
def PIECE8 : Nat := 0b111000000000000000000000000

def MASK012 : Nat := PIECE0 ||| PIECE1 ||| PIECE2
def MASK036 : Nat := PIECE0 ||| PIECE3 ||| PIECE6
def MASK147 : Nat := PIECE1 ||| PIECE4 ||| PIECE7
def MASK258 : Nat := PIECE2 ||| PIECE5 ||| PIECE8
def MASK678 : Nat := PIECE6 ||| PIECE7 ||| PIECE8

/-- Rust `!m` on a `u32`: complement within 32 bits. -/
def not32 (m : Nat) : Nat := 0xFFFFFFFF ^^^ m

/-! ## Data model -/

/-- The bit-packed cube state `Cube<u32>`: six face words. -/
@[ext]
structure Cube where
  up : Nat
  down : Nat
  left : Nat
  right : Nat
  front : Nat
  back : Nat
deriving DecidableEq, Repr

/-- The `Color` enum; `Grey` is the wildcard (code 0). -/
inductive Color where
  | Grey
  | White
  | Yellow
  | Green
  | Blue
  | Red
  | Orange
deriving DecidableEq, Repr

/-- Numeric value of a color, as in the Rust discriminants 0..6. -/
def Color.val : Color → Nat
  | .Grey => 0
  | .White => 1
  | .Yellow => 2
  | .Green => 3
  | .Blue => 4
  | .Red => 5
  | .Orange => 6

/-- The `Turn` enum: the 21 moves. -/
inductive Turn where
  | U | U_ | U2
  | D | D_ | D2
  | L | L_ | L2
  | R | R_ | R2
  | F | F_ | F2
  | B | B_ | B2
  | M | M_ | M2
deriving DecidableEq, Repr, Fintype

/-- The Rust discriminant of each `Turn` (`turn as u8`). -/
def Turn.val : Turn → Nat
  | .U => 0b0
  | .U_ => 0b1
  | .U2 => 0b10
  | .D => 0b100
  | .D_ => 0b101
  | .D2 => 0b110
  | .L => 0b1000
  | .L_ => 0b1001
  | .L2 => 0b1010
  | .R => 0b10000
  | .R_ => 0b10001
  | .R2 => 0b10010
  | .F => 0b100000
  | .F_ => 0b100001
  | .F2 => 0b100010
  | .B => 0b1000000
  | .B_ => 0b1000001
  | .B2 => 0b1000010
  | .M => 0b10000000
  | .M_ => 0b10000001
  | .M2 => 0b10000010

/-- The axis class of a move as the spec assigns it: U=0, D=1, L=2, R=3,
F=4, B=5, M=6. -/
def Turn.axisIdx : Turn → Nat
  | .U | .U_ | .U2 => 0
  | .D | .D_ | .D2 => 1
  | .L | .L_ | .L2 => 2
  | .R | .R_ | .R2 => 3
  | .F | .F_ | .F2 => 4
  | .B | .B_ | .B2 => 5
  | .M | .M_ | .M2 => 6

/-- The variant of a move: 0 clockwise, 1 counter-clockwise, 2 half turn. -/
def Turn.variantIdx : Turn → Nat
  | .U | .D | .L | .R | .F | .B | .M => 0
  | .U_ | .D_ | .L_ | .R_ | .F_ | .B_ | .M_ => 1
  | .U2 | .D2 | .L2 | .R2 | .F2 | .B2 | .M2 => 2

/-- `SearchResult`: either a found algorithm or a depth marker. -/
inductive SearchResult where
  | Algorithm (alg : List Turn)
  | Depth (d : Nat)
deriving DecidableEq, Repr

/-- `Cube::solved_state`. -/
def Cube.solved_state : Cube where
  up := 0b010010010010010010010010010
  down := 0b001001001001001001001001001
  left := 0b101101101101101101101101101
  right := 0b110110110110110110110110110
  front := 0b011011011011011011011011011
  back := 0b100100100100100100100100100

/-! ## Pattern matching (`Cube::matches_face`, `Cube::matches`) -/

/-- `Cube::matches_face`: per-slot wildcard-or-equal test on face words
(`grey = Color::Grey as u32 = 0`). -/
def Cube.matches_face (face pattern : Nat) : Bool :=
  ((pattern &&& PIECE0) == 0 || (pattern &&& PIECE0 == face &&& PIECE0)) &&
  ((pattern &&& PIECE1) == 0 || (pattern &&& PIECE1 == face &&& PIECE1)) &&
  ((pattern &&& PIECE2) == 0 || (pattern &&& PIECE2 == face &&& PIECE2)) &&
  ((pattern &&& PIECE3) == 0 || (pattern &&& PIECE3 == face &&& PIECE3)) &&
  ((pattern &&& PIECE4) == 0 || (pattern &&& PIECE4 == face &&& PIECE4)) &&
  ((pattern &&& PIECE5) == 0 || (pattern &&& PIECE5 == face &&& PIECE5)) &&
  ((pattern &&& PIECE6) == 0 || (pattern &&& PIECE6 == face &&& PIECE6)) &&
  ((pattern &&& PIECE7) == 0 || (pattern &&& PIECE7 == face &&& PIECE7)) &&
  ((pattern &&& PIECE8) == 0 || (pattern &&& PIECE8 == face &&& PIECE8))

/-- `Cube::matches`. -/
def Cube.matches (s other : Cube) : Bool :=
  ((s.up &&& other.up) == other.up) && ((s.down &&& other.down) == other.down) &&
  ((s.left &&& other.left) == other.left) &&
  ((s.right &&& other.right) == other.right) &&
  ((s.front &&& other.front) == other.front) &&
  ((s.back &&& other.back) == other.back) && Cube.matches_face s.up other.up &&
  Cube.matches_face s.down other.down &&
  Cube.matches_face s.left other.left &&
  Cube.matches_face s.right other.right &&
  Cube.matches_face s.front other.front &&
  Cube.matches_face s.back other.back

/-! ## Color inventory (`Cube::colors_in_face`, `Cube::colors`,
`Cube::missing_colors`) -/

/-- One step of the counting loops in `colors_in_face`:
`if col > 0 { arr[col - 1] += 1 }`.  The Rust `[u8; 6]` array is embedded
as a total count function `Nat → Nat` (the source would panic on an
out-of-range color code; the claims about these functions assume valid
color codes, for which only indices 0..5 are ever bumped). -/
def bump (cnt : Nat → Nat) (col : Nat) : Nat → Nat :=
  if col > 0 then fun j => if j = col - 1 then cnt j + 1 else cnt j else cnt

/-- `Cube::colors_in_face`: corner counts (slots 0,2,6,8) and edge counts
(slots 1,3,4,5,7) of one face word. -/
def Cube.colors_in_face (face : Nat) : (Nat → Nat) × (Nat → Nat) :=
  (([0, 2, 6, 8] : List Nat).foldl (fun cs c => bump cs ((face >>> (3 * c)) &&& 0b111)) (fun _ => 0),
   ([1, 3, 4, 5, 7] : List Nat).foldl (fun es e => bump es ((face >>> (3 * e)) &&& 0b111)) (fun _ => 0))

/-- `Cube::faces`. -/
def Cube.faces (s : Cube) : List Nat :=
  [s.up, s.down, s.left, s.right, s.front, s.back]

/-- Pointwise addition of two count arrays (the `add` closure in
`Cube::colors`). -/
def addCounts (a b : Nat → Nat) : Nat → Nat := fun j => a j + b j

/-- `Cube::colors`: fold of the per-face inventories over all six faces. -/
def Cube.colors (s : Cube) : (Nat → Nat) × (Nat → Nat) :=
  (s.faces.map Cube.colors_in_face).foldl
    (fun p q => (addCounts p.1 q.1, addCounts p.2 q.2)) (fun _ => 0, fun _ => 0)

/-- The array `[White, Yellow, Green, Blue, Red, Orange]` iterated by
`Cube::missing_colors`. -/
def realColors : List Color :=
  [Color.White, Color.Yellow, Color.Green, Color.Blue, Color.Red, Color.Orange]

/-- `Cube::missing_colors`: real colors whose corner count or edge count in
`s` is strictly below the pattern's. -/
def Cube.missing_colors (s pattern : Cube) : List Color :=
  realColors.filter fun color =>
    decide ((Cube.colors s).1 (color.val - 1) < (Cube.colors pattern).1 (color.val - 1)) ||
    decide ((Cube.colors s).2 (color.val - 1) < (Cube.colors pattern).2 (color.val - 1))

/-! ## Face rotations and the 21 move operators -/

/-- `Cube::rotate_face` (clockwise). -/
def rotate_face (face : Nat) : Nat :=
  let part4 := face &&& PIECE4
  let part05 := (face &&& (PIECE0 ||| PIECE5)) <<< SHIFT2
  let part1 := (face &&& PIECE1) <<< SHIFT4
  let part2 := (face &&& PIECE2) <<< SHIFT6
  let part38 := (face &&& (PIECE3 ||| PIECE8)) >>> SHIFT2
  let part7 := (face &&& PIECE7) >>> SHIFT4
  let part6 := (face &&& PIECE6) >>> SHIFT6
  part4 ||| part05 ||| part1 ||| part2 ||| part38 ||| part7 ||| part6

/-- `Cube::rotate_face_` (counter-clockwise). -/
def rotate_face_ (face : Nat) : Nat :=
  let part4 := face &&& PIECE4
  let part16 := (face &&& (PIECE1 ||| PIECE6)) <<< SHIFT2
  let part3 := (face &&& PIECE3) <<< SHIFT4
  let part0 := (face &&& PIECE0) <<< SHIFT6
  let part27 := (face &&& (PIECE2 ||| PIECE7)) >>> SHIFT2
  let part5 := (face &&& PIECE5) >>> SHIFT4
  let part8 := (face &&& PIECE8) >>> SHIFT6
  part4 ||| part16 ||| part3 ||| part0 ||| part27 ||| part5 ||| part8

/-- `Cube::rotate_face2` (half turn). -/
def rotate_face2 (face : Nat) : Nat :=
  ((face &&& PIECE0) <<< SHIFT8) ||| ((face &&& PIECE1) <<< SHIFT6) |||
  ((face &&& PIECE2) <<< SHIFT4) ||| ((face &&& PIECE3) <<< SHIFT2) |||
  (face &&& PIECE4) ||| ((face &&& PIECE5) >>> SHIFT2) |||
  ((face &&& PIECE6) >>> SHIFT4) ||| ((face &&& PIECE7) >>> SHIFT6) |||
  ((face &&& PIECE8) >>> SHIFT8)

/-- `Cube::right` (the move R).  The Rust methods share names with the
struct fields; here each move is suffixed with `Turn`. -/
def Cube.rightTurn (s : Cube) : Cube where
  up := (s.up &&& not32 MASK258) ||| (s.front &&& MASK258)
  down := (s.down &&& not32 MASK258) ||| (s.back &&& MASK258)
  left := s.left
  right := rotate_face s.right
  front := (s.front &&& not32 MASK258) ||| (s.down &&& MASK258)
  back := (s.back &&& not32 MASK258) ||| (s.up &&& MASK258)

/-- `Cube::right_` (R'). -/
def Cube.rightTurn_ (s : Cube) : Cube where
  up := (s.up &&& not32 MASK258) ||| (s.back &&& MASK258)
  down := (s.down &&& not32 MASK258) ||| (s.front &&& MASK258)
  left := s.left
  right := rotate_face_ s.right
  front := (s.front &&& not32 MASK258) ||| (s.up &&& MASK258)
  back := (s.back &&& not32 MASK258) ||| (s.down &&& MASK258)

/-- `Cube::right2` (R2). -/
def Cube.rightTurn2 (s : Cube) : Cube where
  up := (s.up &&& not32 MASK258) ||| (s.down &&& MASK258)
  down := (s.down &&& not32 MASK258) ||| (s.up &&& MASK258)
  left := s.left
  right := rotate_face2 s.right
  front := (s.front &&& not32 MASK258) ||| (s.back &&& MASK258)
  back := (s.back &&& not32 MASK258) ||| (s.front &&& MASK258)

/-- `Cube::left` (L). -/
def Cube.leftTurn (s : Cube) : Cube where
  up := (s.up &&& not32 MASK036) ||| (s.back &&& MASK036)
  down := (s.down &&& not32 MASK036) ||| (s.front &&& MASK036)
  left := rotate_face s.left
  right := s.right
  front := (s.front &&& not32 MASK036) ||| (s.up &&& MASK036)
  back := (s.back &&& not32 MASK036) ||| (s.down &&& MASK036)

/-- `Cube::left_` (L'). -/
def Cube.leftTurn_ (s : Cube) : Cube where
  up := (s.up &&& not32 MASK036) ||| (s.front &&& MASK036)
  down := (s.down &&& not32 MASK036) ||| (s.back &&& MASK036)
  left := rotate_face_ s.left
  right := s.right
  front := (s.front &&& not32 MASK036) ||| (s.down &&& MASK036)
  back := (s.back &&& not32 MASK036) ||| (s.up &&& MASK036)

/-- `Cube::left2` (L2). -/
def Cube.leftTurn2 (s : Cube) : Cube where
  up := (s.up &&& not32 MASK036) ||| (s.down &&& MASK036)
  down := (s.down &&& not32 MASK036) ||| (s.up &&& MASK036)
  left := rotate_face2 s.left
  right := s.right
  front := (s.front &&& not32 MASK036) ||| (s.back &&& MASK036)
  back := (s.back &&& not32 MASK036) ||| (s.front &&& MASK036)

/-- `Cube::middle` (M). -/
def Cube.middleTurn (s : Cube) : Cube where
  up := (s.up &&& not32 MASK147) ||| (s.back &&& MASK147)
  down := (s.down &&& not32 MASK147) ||| (s.front &&& MASK147)
  left := s.left
  right := s.right
  front := (s.front &&& not32 MASK147) ||| (s.up &&& MASK147)
  back := (s.back &&& not32 MASK147) ||| (s.down &&& MASK147)

/-- `Cube::middle_` (M'). -/
def Cube.middleTurn_ (s : Cube) : Cube where
  up := (s.up &&& not32 MASK147) ||| (s.front &&& MASK147)
  down := (s.down &&& not32 MASK147) ||| (s.back &&& MASK147)
  left := s.left
  right := s.right
  front := (s.front &&& not32 MASK147) ||| (s.down &&& MASK147)
  back := (s.back &&& not32 MASK147) ||| (s.up &&& MASK147)

/-- `Cube::middle2` (M2). -/
def Cube.middleTurn2 (s : Cube) : Cube where
  up := (s.up &&& not32 MASK147) ||| (s.down &&& MASK147)
  down := (s.down &&& not32 MASK147) ||| (s.up &&& MASK147)
  left := s.left
  right := s.right
  front := (s.front &&& not32 MASK147) ||| (s.back &&& MASK147)
  back := (s.back &&& not32 MASK147) ||| (s.front &&& MASK147)

/-- `Cube::front` (F). -/
def Cube.frontTurn (s : Cube) : Cube :=
  let right_to_down := ((s.right &&& PIECE6) >>> SHIFT4) ||| ((s.right &&& PIECE7) >>> SHIFT6) |||
                       ((s.right &&& PIECE8) >>> SHIFT8)
  let down_to_left := ((s.down &&& PIECE2) <<< SHIFT4) ||| ((s.down &&& PIECE1) <<< SHIFT6) |||
                      ((s.down &&& PIECE0) <<< SHIFT8)
  { up := (s.up &&& not32 MASK678) ||| (s.left &&& MASK678)
    down := (s.down &&& not32 MASK012) ||| right_to_down
    left := (s.left &&& not32 MASK678) ||| down_to_left
    right := (s.right &&& not32 MASK678) ||| (s.up &&& MASK678)
    front := rotate_face s.front
    back := s.back }

/-- `Cube::front_` (F'). -/
def Cube.frontTurn_ (s : Cube) : Cube :=
  let left_to_down := ((s.left &&& PIECE6) >>> SHIFT4) ||| ((s.left &&& PIECE7) >>> SHIFT6) |||
                      ((s.left &&& PIECE8) >>> SHIFT8)
  let down_to_right := ((s.down &&& PIECE2) <<< SHIFT4) ||| ((s.down &&& PIECE1) <<< SHIFT6) |||
                       ((s.down &&& PIECE0) <<< SHIFT8)
  { up := (s.up &&& not32 MASK678) ||| (s.right &&& MASK678)
    down := (s.down &&& not32 MASK012) ||| left_to_down
    left := (s.left &&& not32 MASK678) ||| (s.up &&& MASK678)
    right := (s.right &&& not32 MASK678) ||| down_to_right
    front := rotate_face_ s.front
    back := s.back }

/-- `Cube::front2` (F2). -/
def Cube.frontTurn2 (s : Cube) : Cube :=
  let up_to_down := ((s.up &&& PIECE6) >>> SHIFT4) ||| ((s.up &&& PIECE7) >>> SHIFT6) |||
                    ((s.up &&& PIECE8) >>> SHIFT8)
  let down_to_up := ((s.down &&& PIECE2) <<< SHIFT4) ||| ((s.down &&& PIECE1) <<< SHIFT6) |||
                    ((s.down &&& PIECE0) <<< SHIFT8)
  { up := (s.up &&& not32 MASK678) ||| down_to_up
    down := (s.down &&& not32 MASK012) ||| up_to_down
    left := (s.left &&& not32 MASK678) ||| (s.right &&& MASK678)
    right := (s.right &&& not32 MASK678) ||| (s.left &&& MASK678)
    front := rotate_face2 s.front
    back := s.back }

/-- `Cube::back` (B). -/
def Cube.backTurn (s : Cube) : Cube :=
  let down_to_right := ((s.down &&& PIECE6) >>> SHIFT4) ||| ((s.down &&& PIECE7) >>> SHIFT6) |||
                       ((s.down &&& PIECE8) >>> SHIFT8)
  let left_to_down := ((s.left &&& PIECE2) <<< SHIFT4) ||| ((s.left &&& PIECE1) <<< SHIFT6) |||
                      ((s.left &&& PIECE0) <<< SHIFT8)
  { up := (s.up &&& not32 MASK012) ||| (s.right &&& MASK012)
    down := (s.down &&& not32 MASK678) ||| left_to_down
    left := (s.left &&& not32 MASK012) ||| (s.up &&& MASK012)
    right := (s.right &&& not32 MASK012) ||| down_to_right
    front := s.front
    back := rotate_face s.back }

/-- `Cube::back_` (B'). -/
def Cube.backTurn_ (s : Cube) : Cube :=
  let down_to_left := ((s.down &&& PIECE6) >>> SHIFT4) ||| ((s.down &&& PIECE7) >>> SHIFT6) |||
                      ((s.down &&& PIECE8) >>> SHIFT8)
  let right_to_down := ((s.right &&& PIECE2) <<< SHIFT4) ||| ((s.right &&& PIECE1) <<< SHIFT6) |||
                       ((s.right &&& PIECE0) <<< SHIFT8)
  { up := (s.up &&& not32 MASK012) ||| (s.left &&& MASK012)
    down := (s.down &&& not32 MASK678) ||| right_to_down
    left := (s.left &&& not32 MASK012) ||| down_to_left
    right := (s.right &&& not32 MASK012) ||| (s.up &&& MASK012)
    front := s.front
    back := rotate_face_ s.back }

/-- `Cube::back2` (B2). -/
def Cube.backTurn2 (s : Cube) : Cube :=
  let down_to_up := ((s.down &&& PIECE6) >>> SHIFT4) ||| ((s.down &&& PIECE7) >>> SHIFT6) |||
                    ((s.down &&& PIECE8) >>> SHIFT8)
  let up_to_down := ((s.up &&& PIECE2) <<< SHIFT4) ||| ((s.up &&& PIECE1) <<< SHIFT6) |||
                    ((s.up &&& PIECE0) <<< SHIFT8)
  { up := (s.up &&& not32 MASK012) ||| down_to_up
    down := (s.down &&& not32 MASK678) ||| up_to_down
    left := (s.left &&& not32 MASK012) ||| (s.right &&& MASK012)
    right := (s.right &&& not32 MASK012) ||| (s.left &&& MASK012)
    front := s.front
    back := rotate_face2 s.back }

/-- `Cube::up` (U). -/
def Cube.upTurn (s : Cube) : Cube :=
  let right_to_front := ((s.right &&& PIECE0) <<< SHIFT2) ||| ((s.right &&& PIECE3) >>> SHIFT2) |||
                        ((s.right &&& PIECE6) >>> SHIFT6)
  let front_to_left := ((s.front &&& PIECE2) <<< SHIFT6) ||| ((s.front &&& PIECE1) <<< SHIFT4) |||
                       ((s.front &&& PIECE0) <<< SHIFT2)
  let left_to_back := ((s.left &&& PIECE8) >>> SHIFT2) ||| ((s.left &&& PIECE5) <<< SHIFT2) |||
                      ((s.left &&& PIECE2) <<< SHIFT6)
  let back_to_right := ((s.back &&& PIECE6) >>> SHIFT6) ||| ((s.back &&& PIECE7) >>> SHIFT4) |||
                       ((s.back &&& PIECE8) >>> SHIFT2)
  { up := rotate_face s.up
    down := s.down
    left := (s.left &&& not32 MASK258) ||| front_to_left
    right := (s.right &&& not32 MASK036) ||| back_to_right
    front := (s.front &&& not32 MASK012) ||| right_to_front
    back := (s.back &&& not32 MASK678) ||| left_to_back }

/-- `Cube::up_` (U'). -/
def Cube.upTurn_ (s : Cube) : Cube :=
  let right_to_back := ((s.right &&& PIECE0) <<< SHIFT6) ||| ((s.right &&& PIECE3) <<< SHIFT4) |||
                       ((s.right &&& PIECE6) <<< SHIFT2)
  let front_to_right := ((s.front &&& PIECE2) >>> SHIFT2) ||| ((s.front &&& PIECE1) <<< SHIFT2) |||
                        ((s.front &&& PIECE0) <<< SHIFT6)
  let left_to_front := ((s.left &&& PIECE8) >>> SHIFT6) ||| ((s.left &&& PIECE5) >>> SHIFT4) |||
                       ((s.left &&& PIECE2) >>> SHIFT2)
  let back_to_left := ((s.back &&& PIECE6) <<< SHIFT2) ||| ((s.back &&& PIECE7) >>> SHIFT2) |||
                      ((s.back &&& PIECE8) >>> SHIFT6)
  { up := rotate_face_ s.up
    down := s.down
    left := (s.left &&& not32 MASK258) ||| back_to_left
    right := (s.right &&& not32 MASK036) ||| front_to_right
    front := (s.front &&& not32 MASK012) ||| left_to_front
    back := (s.back &&& not32 MASK678) ||| right_to_back }

/-- `Cube::up2` (U2). -/
def Cube.upTurn2 (s : Cube) : Cube :=
  let right_to_left := ((s.right &&& PIECE0) <<< SHIFT8) ||| ((s.right &&& PIECE3) <<< SHIFT2) |||
                       ((s.right &&& PIECE6) >>> SHIFT4)
  let front_to_back := ((s.front &&& PIECE2) <<< SHIFT4) ||| ((s.front &&& PIECE1) <<< SHIFT6) |||
                       ((s.front &&& PIECE0) <<< SHIFT8)
  let left_to_right := ((s.left &&& PIECE8) >>> SHIFT8) ||| ((s.left &&& PIECE5) >>> SHIFT2) |||
                       ((s.left &&& PIECE2) <<< SHIFT4)
  let back_to_front := ((s.back &&& PIECE6) >>> SHIFT4) ||| ((s.back &&& PIECE7) >>> SHIFT6) |||
                       ((s.back &&& PIECE8) >>> SHIFT8)
  { up := rotate_face2 s.up
    down := s.down
    left := (s.left &&& not32 MASK258) ||| right_to_left
    right := (s.right &&& not32 MASK036) ||| left_to_right
    front := (s.front &&& not32 MASK012) ||| back_to_front
    back := (s.back &&& not32 MASK678) ||| front_to_back }

/-- `Cube::down` (D). -/
def Cube.downTurn (s : Cube) : Cube :=
  let right_to_back := ((s.right &&& PIECE8) >>> SHIFT6) ||| ((s.right &&& PIECE5) >>> SHIFT4) |||
                       ((s.right &&& PIECE2) >>> SHIFT2)
  let front_to_right := ((s.front &&& PIECE6) <<< SHIFT2) ||| ((s.front &&& PIECE7) >>> SHIFT2) |||
                        ((s.front &&& PIECE8) >>> SHIFT6)
  let left_to_front := ((s.left &&& PIECE0) <<< SHIFT6) ||| ((s.left &&& PIECE3) <<< SHIFT4) |||
                       ((s.left &&& PIECE6) <<< SHIFT2)
  let back_to_left := ((s.back &&& PIECE2) >>> SHIFT2) ||| ((s.back &&& PIECE1) <<< SHIFT2) |||
                      ((s.back &&& PIECE0) <<< SHIFT6)
  { up := s.up
    down := rotate_face s.down
    left := (s.left &&& not32 MASK036) ||| back_to_left
    right := (s.right &&& not32 MASK258) ||| front_to_right
    front := (s.front &&& not32 MASK678) ||| left_to_front
    back := (s.back &&& not32 MASK012) ||| right_to_back }

/-- `Cube::down_` (D'). -/
def Cube.downTurn_ (s : Cube) : Cube :=
  let back_to_right := ((s.back &&& PIECE2) <<< SHIFT6) ||| ((s.back &&& PIECE1) <<< SHIFT4) |||
                       ((s.back &&& PIECE0) <<< SHIFT2)
  let right_to_front := ((s.right &&& PIECE8) >>> SHIFT2) ||| ((s.right &&& PIECE5) <<< SHIFT2) |||
                        ((s.right &&& PIECE2) <<< SHIFT6)
  let front_to_left := ((s.front &&& PIECE6) >>> SHIFT6) ||| ((s.front &&& PIECE7) >>> SHIFT4) |||
                       ((s.front &&& PIECE8) >>> SHIFT2)
  let left_to_back := ((s.left &&& PIECE0) <<< SHIFT2) ||| ((s.left &&& PIECE3) >>> SHIFT2) |||
                      ((s.left &&& PIECE6) >>> SHIFT6)
  { up := s.up
    down := rotate_face_ s.down
    left := (s.left &&& not32 MASK036) ||| front_to_left
    right := (s.right &&& not32 MASK258) ||| back_to_right
    front := (s.front &&& not32 MASK678) ||| right_to_front
    back := (s.back &&& not32 MASK012) ||| left_to_back }

/-- `Cube::down2` (D2). -/
def Cube.downTurn2 (s : Cube) : Cube :=
  let left_to_right := ((s.left &&& PIECE0) <<< SHIFT8) ||| ((s.left &&& PIECE3) <<< SHIFT2) |||
                       ((s.left &&& PIECE6) >>> SHIFT4)
  let back_to_front := ((s.back &&& PIECE2) <<< SHIFT4) ||| ((s.back &&& PIECE1) <<< SHIFT6) |||
                       ((s.back &&& PIECE0) <<< SHIFT8)
  let right_to_left := ((s.right &&& PIECE8) >>> SHIFT8) ||| ((s.right &&& PIECE5) >>> SHIFT2) |||
                       ((s.right &&& PIECE2) <<< SHIFT4)
  let front_to_back := ((s.front &&& PIECE6) >>> SHIFT4) ||| ((s.front &&& PIECE7) >>> SHIFT6) |||
                       ((s.front &&& PIECE8) >>> SHIFT8)
  { up := s.up
    down := rotate_face2 s.down
    left := (s.left &&& not32 MASK036) ||| right_to_left
    right := (s.right &&& not32 MASK258) ||| left_to_right
    front := (s.front &&& not32 MASK678) ||| back_to_front
    back := (s.back &&& not32 MASK012) ||| front_to_back }

/-- `Cube::turn`: dispatch of the 21 moves. -/
def Cube.turn (s : Cube) (t : Turn) : Cube :=
  match t with
  | .U => s.upTurn
  | .U_ => s.upTurn_
  | .U2 => s.upTurn2
  | .D => s.downTurn
  | .D_ => s.downTurn_
  | .D2 => s.downTurn2
  | .L => s.leftTurn
  | .L_ => s.leftTurn_
  | .L2 => s.leftTurn2
  | .R => s.rightTurn
  | .R_ => s.rightTurn_
  | .R2 => s.rightTurn2
  | .F => s.frontTurn
  | .F_ => s.frontTurn_
  | .F2 => s.frontTurn2
  | .B => s.backTurn
  | .B_ => s.backTurn_
  | .B2 => s.backTurn2
  | .M => s.middleTurn
  | .M_ => s.middleTurn_
  | .M2 => s.middleTurn2

/-! ## Search engine (`search_helper`, `search`)

The Rust worker streams results over an mpsc channel whose receiver may be
dropped at any time; from a sender's viewpoint the outcome sequence is some
number of successful sends followed by failures.  The channel is therefore
embedded as `Option Nat`: `none` never fails (the "all sends succeed"
assumption of the spec), `some k` accepts `k` more sends and then fails
every later one.  The recursion of `search_helper` is driven by the fuel
`max_depth + 1 - depth`, which mirrors the source's termination: every
recursive call increases `depth` by one and returns immediately once
`depth > max_depth`. -/

/-- Channel state: `none` = receiver never dropped, `some k` = `k` more
sends succeed, after which every send fails. -/
def send : Option Nat → Bool × Option Nat
  | none => (true, none)
  | some 0 => (false, some 0)
  | some (k + 1) => (true, some k)

/-- Result of running a piece of the search: the list of messages actually
sent, the final channel state, and the number of send attempts made. -/
def Res : Type := List SearchResult × Option Nat × Nat

/-- The `for &turn in allowed_turns.iter()` loop of `search_helper`:
`deep` is the recursive call at `depth + 1`; moves whose tag xor the last
tag is at most `0b11` are pruned. -/
def loopGo (last : Nat) (deep : Turn → Option Nat → Res) : List Turn → Option Nat → Res
  | [], ch => ([], ch, 0)
  | t :: ts, ch =>
    if t.val ^^^ last > 0b11 then
      let r := deep t ch
      let r2 := loopGo last deep ts r.2.1
      (r.1 ++ r2.1, r2.2.1, r.2.2 + r2.2.2)
    else loopGo last deep ts ch

/-- Body of `search_helper`, with fuel as the first argument.  At every
call site the fuel is `max_depth + 1 - depth`, so the fuel-0 case
coincides with the `depth > max_depth` early return. -/
def go (p : Cube) (A : List Turn) :
    Nat → Cube → Nat → Nat → Nat → List Turn → Option Nat → Res
  | 0 => fun _ _ _ _ _ ch => ([], ch, 0)
  | f + 1 => fun cube last depth max_depth hist ch =>
    if depth > max_depth then ([], ch, 0)
    else if depth == max_depth && cube.matches p then
      match send ch with
      | (true, ch') => ([SearchResult.Algorithm (hist.take depth)], ch', 1)
      | (false, ch') => ([], ch', 1)
    else
      loopGo last
        (fun t ch' => go p A f (cube.turn t) t.val (depth + 1) max_depth (hist.set depth t) ch')
        A ch

/-- `search_helper` from `cube.rs`: explore all pruned continuations of
`cube` up to `max_depth`, sending every match found at exactly
`max_depth`. -/
def search_helper (cube : Cube) (last_turn : Nat) (depth max_depth : Nat)
    (pattern : Cube) (history : List Turn) (allowed_turns : List Turn)
    (ch : Option Nat) : Res :=
  go pattern allowed_turns (max_depth + 1 - depth) cube last_turn depth max_depth history ch

/-- One iteration of the outer loop of `search` at a given `max_depth`,
under the assumption that every send succeeds (channel `none`): the depth
marker followed by the emissions of the `|A|` root workers.  The parallel
`for_each` is modelled by concatenating the workers' emissions in the
order of `allowed_turns`; per depth the multiset of emissions is exactly
the union of the workers' emissions, which is what the claims quantify
over. -/
def searchRound (cube : Cube) (pattern : Cube) (allowed_turns : List Turn)
    (max_depth : Nat) : List SearchResult :=
  SearchResult.Depth max_depth ::
    allowed_turns.flatMap fun t =>
      (search_helper (cube.turn t) t.val 1 max_depth pattern
        (List.replicate (max_depth + 1) t) allowed_turns none).1

/-- The first `n` rounds of `search` (the source loop starts at
`max_depth = 1` and increments forever; `searchTo n` is the prefix of the
stream after the round at depth `n` finishes). -/
def searchTo (cube : Cube) (pattern : Cube) (allowed_turns : List Turn) : Nat → List SearchResult
  | 0 => []
  | n + 1 => searchTo cube pattern allowed_turns n ++ searchRound cube pattern allowed_turns (n + 1)

/-! ## Slot-level view of face words

`slot f i` extracts the 3-bit color field of slot `i` from a face word,
exactly as `nth_chunk` does in the source.  The lemmas below let every
move be described as a permutation of slots. -/

/-- The 3-bit field of slot `i` in face word `f`. -/
def slot (f i : Nat) : Nat := (f >>> (3 * i)) &&& 0b111

/-- Well-formed state: each face word uses only its low 27 bits (the data
model invariant: nine 3-bit fields, upper 5 bits zero). -/
def Valid (s : Cube) : Prop :=
  s.up < 2 ^ 27 ∧ s.down < 2 ^ 27 ∧ s.left < 2 ^ 27 ∧
  s.right < 2 ^ 27 ∧ s.front < 2 ^ 27 ∧ s.back < 2 ^ 27

instance (s : Cube) : Decidable (Valid s) := by unfold Valid; infer_instance

/-- Face labels of a cube. -/
inductive Face where
  | up | down | left | right | front | back
deriving DecidableEq, Repr, Fintype

/-- The word of face `f` in state `s`. -/
def faceW (s : Cube) : Face → Nat
  | .up => s.up
  | .down => s.down
  | .left => s.left
  | .right => s.right
  | .front => s.front
  | .back => s.back

/-- A sticker location: a face together with a slot index. -/
def Loc : Type := Face × Nat

instance : DecidableEq Loc := by unfold Loc; infer_instance

/-- The sticker value at a location. -/
def slotAt (s : Cube) (l : Loc) : Nat := slot (faceW s l.1) l.2

theorem slot_le_seven (f i : Nat) : slot f i ≤ 7 := Nat.and_le_right

theorem slot_lor (a b i : Nat) : slot (a ||| b) i = slot a i ||| slot b i := by
  refine Nat.eq_of_testBit_eq fun j => ?_
  simp [slot, Nat.testBit_and, Nat.testBit_or, Nat.testBit_shiftRight, Bool.and_or_distrib_right]

theorem slot_land (a b i : Nat) : slot (a &&& b) i = slot a i &&& slot b i := by
  refine Nat.eq_of_testBit_eq fun j => ?_
  simp [slot, Nat.testBit_and, Nat.testBit_shiftRight]
  cases Nat.testBit a (3 * i + j) <;> cases Nat.testBit b (3 * i + j) <;>
    cases Nat.testBit 7 j <;> rfl

theorem slot_and_seven (a i : Nat) : slot a i &&& 7 = slot a i := by
  simp [slot, Nat.and_assoc]

theorem slot_shiftRight (a k i : Nat) : slot (a >>> (3 * k)) i = slot a (k + i) := by
  simp [slot, ← Nat.shiftRight_add, Nat.mul_add]

theorem slot_shiftLeft (a k i : Nat) :
    slot (a <<< (3 * k)) i = if k ≤ i then slot a (i - k) else 0 := by
  refine Nat.eq_of_testBit_eq fun j => ?_
  rcases le_or_lt k i with h | h
  · rw [if_pos h]
    simp only [slot, Nat.testBit_and, Nat.testBit_shiftRight, Nat.testBit_shiftLeft]
    have h3 : 3 * k ≤ 3 * i + j := by omega
    rw [decide_eq_true h3]
    have : 3 * i + j - 3 * k = 3 * (i - k) + j := by omega
    simp [this]
  · rw [if_neg (by omega)]
    simp only [slot, Nat.testBit_and, Nat.testBit_shiftRight, Nat.testBit_shiftLeft,
      Nat.zero_testBit, Bool.and_eq_false_iff]
    rcases Nat.lt_or_ge j 3 with hj | hj
    · left
      have h3 : ¬ (3 * k ≤ 3 * i + j) := by omega
      simp [h3]
    · right
      exact Nat.testBit_lt_two_pow (by calc (7 : Nat) < 2 ^ 3 := by norm_num
                                         _ ≤ 2 ^ j := Nat.pow_le_pow_right (by norm_num) hj)

theorem slot_shr2 (a i : Nat) : slot (a >>> 6) i = slot a (2 + i) := slot_shiftRight a 2 i

theorem slot_shr4 (a i : Nat) : slot (a >>> 12) i = slot a (4 + i) := slot_shiftRight a 4 i

theorem slot_shr6 (a i : Nat) : slot (a >>> 18) i = slot a (6 + i) := slot_shiftRight a 6 i

theorem slot_shr8 (a i : Nat) : slot (a >>> 24) i = slot a (8 + i) := slot_shiftRight a 8 i

theorem slot_shl2 (a i : Nat) : slot (a <<< 6) i = if 2 ≤ i then slot a (i - 2) else 0 :=
  slot_shiftLeft a 2 i

theorem slot_shl4 (a i : Nat) : slot (a <<< 12) i = if 4 ≤ i then slot a (i - 4) else 0 :=
  slot_shiftLeft a 4 i

theorem slot_shl6 (a i : Nat) : slot (a <<< 18) i = if 6 ≤ i then slot a (i - 6) else 0 :=
  slot_shiftLeft a 6 i

theorem slot_shl8 (a i : Nat) : slot (a <<< 24) i = if 8 ≤ i then slot a (i - 8) else 0 :=
  slot_shiftLeft a 8 i

theorem slot_as_div_mod (f i : Nat) : slot f i = f / 8 ^ i % 8 := by
  unfold slot
  rw [Nat.shiftRight_eq_div_pow, show (7 : Nat) = 2 ^ 3 - 1 from rfl,
    Nat.and_pow_two_sub_one_eq_mod, Nat.pow_mul]

set_option maxRecDepth 8000

/-- Two 27-bit face words with the same nine slots are equal. -/
theorem face_ext {f g : Nat} (hf : f < 2 ^ 27) (hg : g < 2 ^ 27)
    (h : ∀ i, i < 9 → slot f i = slot g i) : f = g := by
  have h0 := h 0 (by norm_num)
  have h1 := h 1 (by norm_num)
  have h2 := h 2 (by norm_num)
  have h3 := h 3 (by norm_num)
  have h4 := h 4 (by norm_num)
  have h5 := h 5 (by norm_num)
  have h6 := h 6 (by norm_num)
  have h7 := h 7 (by norm_num)
  have h8 := h 8 (by norm_num)
  simp only [slot_as_div_mod] at h0 h1 h2 h3 h4 h5 h6 h7 h8
  norm_num at h0 h1 h2 h3 h4 h5 h6 h7 h8 hf hg
  omega

/-- Two well-formed states with the same stickers everywhere are equal. -/
theorem cube_eq_of_slotAt {c d : Cube} (hc : Valid c) (hd : Valid d)
    (h : ∀ f i, i < 9 → slotAt c (f, i) = slotAt d (f, i)) : c = d := by
  obtain ⟨hc1, hc2, hc3, hc4, hc5, hc6⟩ := hc
  obtain ⟨hd1, hd2, hd3, hd4, hd5, hd6⟩ := hd
  ext
  · exact face_ext hc1 hd1 (h Face.up)
  · exact face_ext hc2 hd2 (h Face.down)
  · exact face_ext hc3 hd3 (h Face.left)
  · exact face_ext hc4 hd4 (h Face.right)
  · exact face_ext hc5 hd5 (h Face.front)
  · exact face_ext hc6 hd6 (h Face.back)

/-! ### Slot values of the mask constants -/

theorem slot_eq_zero_of_lt (m i : Nat) (hm : m < 8 ^ 9) (hi : 9 ≤ i) : slot m i = 0 := by
  rw [slot_as_div_mod,
    Nat.div_eq_of_lt (lt_of_lt_of_le hm (Nat.pow_le_pow_right (by norm_num) hi)), Nat.zero_mod]

theorem and_ite_seven (a : Nat) (c : Prop) [Decidable c] :
    a &&& (if c then 7 else 0) = if c then a &&& 7 else 0 := by
  split_ifs <;> simp

theorem slotV_M012 (i : Nat) : slot MASK012 i = if i = 0 ∨ i = 1 ∨ i = 2 then 7 else 0 := by
  rcases lt_or_ge i 9 with hi | hi
  · interval_cases i <;> decide
  · rw [if_neg (by omega)]; exact slot_eq_zero_of_lt _ _ (by decide) hi

theorem slotV_M036 (i : Nat) : slot MASK036 i = if i = 0 ∨ i = 3 ∨ i = 6 then 7 else 0 := by
  rcases lt_or_ge i 9 with hi | hi
  · interval_cases i <;> decide
  · rw [if_neg (by omega)]; exact slot_eq_zero_of_lt _ _ (by decide) hi

theorem slotV_M147 (i : Nat) : slot MASK147 i = if i = 1 ∨ i = 4 ∨ i = 7 then 7 else 0 := by
  rcases lt_or_ge i 9 with hi | hi
  · interval_cases i <;> decide
  · rw [if_neg (by omega)]; exact slot_eq_zero_of_lt _ _ (by decide) hi

theorem slotV_M258 (i : Nat) : slot MASK258 i = if i = 2 ∨ i = 5 ∨ i = 8 then 7 else 0 := by
  rcases lt_or_ge i 9 with hi | hi
  · interval_cases i <;> decide
  · rw [if_neg (by omega)]; exact slot_eq_zero_of_lt _ _ (by decide) hi

theorem slotV_M678 (i : Nat) : slot MASK678 i = if i = 6 ∨ i = 7 ∨ i = 8 then 7 else 0 := by
  rcases lt_or_ge i 9 with hi | hi
  · interval_cases i <;> decide
  · rw [if_neg (by omega)]; exact slot_eq_zero_of_lt _ _ (by decide) hi

theorem slotV_P0 (i : Nat) : slot PIECE0 i = if i = 0 then 7 else 0 := by
  rcases lt_or_ge i 9 with hi | hi
  · interval_cases i <;> decide
  · rw [if_neg (by omega)]; exact slot_eq_zero_of_lt _ _ (by decide) hi

theorem slotV_P1 (i : Nat) : slot PIECE1 i = if i = 1 then 7 else 0 := by
  rcases lt_or_ge i 9 with hi | hi
  · interval_cases i <;> decide
  · rw [if_neg (by omega)]; exact slot_eq_zero_of_lt _ _ (by decide) hi

theorem slotV_P2 (i : Nat) : slot PIECE2 i = if i = 2 then 7 else 0 := by
  rcases lt_or_ge i 9 with hi | hi
  · interval_cases i <;> decide
  · rw [if_neg (by omega)]; exact slot_eq_zero_of_lt _ _ (by decide) hi

theorem slotV_P3 (i : Nat) : slot PIECE3 i = if i = 3 then 7 else 0 := by
  rcases lt_or_ge i 9 with hi | hi
  · interval_cases i <;> decide
  · rw [if_neg (by omega)]; exact slot_eq_zero_of_lt _ _ (by decide) hi

theorem slotV_P4 (i : Nat) : slot PIECE4 i = if i = 4 then 7 else 0 := by
  rcases lt_or_ge i 9 with hi | hi
  · interval_cases i <;> decide
  · rw [if_neg (by omega)]; exact slot_eq_zero_of_lt _ _ (by decide) hi

theorem slotV_P5 (i : Nat) : slot PIECE5 i = if i = 5 then 7 else 0 := by
  rcases lt_or_ge i 9 with hi | hi
  · interval_cases i <;> decide
  · rw [if_neg (by omega)]; exact slot_eq_zero_of_lt _ _ (by decide) hi

theorem slotV_P6 (i : Nat) : slot PIECE6 i = if i = 6 then 7 else 0 := by
  rcases lt_or_ge i 9 with hi | hi
  · interval_cases i <;> decide
  · rw [if_neg (by omega)]; exact slot_eq_zero_of_lt _ _ (by decide) hi

theorem slotV_P7 (i : Nat) : slot PIECE7 i = if i = 7 then 7 else 0 := by
  rcases lt_or_ge i 9 with hi | hi
  · interval_cases i <;> decide
  · rw [if_neg (by omega)]; exact slot_eq_zero_of_lt _ _ (by decide) hi

theorem slotV_P8 (i : Nat) : slot PIECE8 i = if i = 8 then 7 else 0 := by
  rcases lt_or_ge i 9 with hi | hi
  · interval_cases i <;> decide
  · rw [if_neg (by omega)]; exact slot_eq_zero_of_lt _ _ (by decide) hi

theorem slotV_P05 (i : Nat) : slot (PIECE0 ||| PIECE5) i = if i = 0 ∨ i = 5 then 7 else 0 := by
  rcases lt_or_ge i 9 with hi | hi
  · interval_cases i <;> decide
  · rw [if_neg (by omega)]; exact slot_eq_zero_of_lt _ _ (by decide) hi

theorem slotV_P38 (i : Nat) : slot (PIECE3 ||| PIECE8) i = if i = 3 ∨ i = 8 then 7 else 0 := by
  rcases lt_or_ge i 9 with hi | hi
  · interval_cases i <;> decide
  · rw [if_neg (by omega)]; exact slot_eq_zero_of_lt _ _ (by decide) hi

theorem slotV_P16 (i : Nat) : slot (PIECE1 ||| PIECE6) i = if i = 1 ∨ i = 6 then 7 else 0 := by
  rcases lt_or_ge i 9 with hi | hi
  · interval_cases i <;> decide
  · rw [if_neg (by omega)]; exact slot_eq_zero_of_lt _ _ (by decide) hi

theorem slotV_P27 (i : Nat) : slot (PIECE2 ||| PIECE7) i = if i = 2 ∨ i = 7 then 7 else 0 := by
  rcases lt_or_ge i 9 with hi | hi
  · interval_cases i <;> decide
  · rw [if_neg (by omega)]; exact slot_eq_zero_of_lt _ _ (by decide) hi

theorem slotV_N012 (i : Nat) (hi : i < 9) :
    slot (not32 MASK012) i = if i = 0 ∨ i = 1 ∨ i = 2 then 0 else 7 := by
  interval_cases i <;> decide

theorem slotV_N036 (i : Nat) (hi : i < 9) :
    slot (not32 MASK036) i = if i = 0 ∨ i = 3 ∨ i = 6 then 0 else 7 := by
  interval_cases i <;> decide

theorem slotV_N147 (i : Nat) (hi : i < 9) :
    slot (not32 MASK147) i = if i = 1 ∨ i = 4 ∨ i = 7 then 0 else 7 := by
  interval_cases i <;> decide

theorem slotV_N258 (i : Nat) (hi : i < 9) :
    slot (not32 MASK258) i = if i = 2 ∨ i = 5 ∨ i = 8 then 0 else 7 := by
  interval_cases i <;> decide

theorem slotV_N678 (i : Nat) (hi : i < 9) :
    slot (not32 MASK678) i = if i = 6 ∨ i = 7 ∨ i = 8 then 0 else 7 := by
  interval_cases i <;> decide
/-! ### Per-move slot permutation tables and characterization lemmas -/

/-- Source location of each sticker after the move R. -/
def srcR : Loc → Loc
  | (Face.up, 2) => (Face.front, 2)
  | (Face.up, 5) => (Face.front, 5)
  | (Face.up, 8) => (Face.front, 8)
  | (Face.down, 2) => (Face.back, 2)
  | (Face.down, 5) => (Face.back, 5)
  | (Face.down, 8) => (Face.back, 8)
  | (Face.right, 0) => (Face.right, 6)
  | (Face.right, 1) => (Face.right, 3)
  | (Face.right, 2) => (Face.right, 0)
  | (Face.right, 3) => (Face.right, 7)
  | (Face.right, 5) => (Face.right, 1)
  | (Face.right, 6) => (Face.right, 8)
  | (Face.right, 7) => (Face.right, 5)
  | (Face.right, 8) => (Face.right, 2)
  | (Face.front, 2) => (Face.down, 2)
  | (Face.front, 5) => (Face.down, 5)
  | (Face.front, 8) => (Face.down, 8)
  | (Face.back, 2) => (Face.up, 2)
  | (Face.back, 5) => (Face.up, 5)
  | (Face.back, 8) => (Face.up, 8)
  | l => l

set_option maxHeartbeats 1000000 in
theorem master_conj_R (c : Cube) :
    slotAt (c.rightTurn) (Face.up, 0) = slotAt c (Face.up, 0) ∧
    slotAt (c.rightTurn) (Face.up, 1) = slotAt c (Face.up, 1) ∧
    slotAt (c.rightTurn) (Face.up, 2) = slotAt c (Face.front, 2) ∧
    slotAt (c.rightTurn) (Face.up, 3) = slotAt c (Face.up, 3) ∧
    slotAt (c.rightTurn) (Face.up, 4) = slotAt c (Face.up, 4) ∧
    slotAt (c.rightTurn) (Face.up, 5) = slotAt c (Face.front, 5) ∧
    slotAt (c.rightTurn) (Face.up, 6) = slotAt c (Face.up, 6) ∧
    slotAt (c.rightTurn) (Face.up, 7) = slotAt c (Face.up, 7) ∧
    slotAt (c.rightTurn) (Face.up, 8) = slotAt c (Face.front, 8) ∧
    slotAt (c.rightTurn) (Face.down, 0) = slotAt c (Face.down, 0) ∧
    slotAt (c.rightTurn) (Face.down, 1) = slotAt c (Face.down, 1) ∧
    slotAt (c.rightTurn) (Face.down, 2) = slotAt c (Face.back, 2) ∧
    slotAt (c.rightTurn) (Face.down, 3) = slotAt c (Face.down, 3) ∧
    slotAt (c.rightTurn) (Face.down, 4) = slotAt c (Face.down, 4) ∧
    slotAt (c.rightTurn) (Face.down, 5) = slotAt c (Face.back, 5) ∧
    slotAt (c.rightTurn) (Face.down, 6) = slotAt c (Face.down, 6) ∧
    slotAt (c.rightTurn) (Face.down, 7) = slotAt c (Face.down, 7) ∧
    slotAt (c.rightTurn) (Face.down, 8) = slotAt c (Face.back, 8) ∧
    slotAt (c.rightTurn) (Face.left, 0) = slotAt c (Face.left, 0) ∧
    slotAt (c.rightTurn) (Face.left, 1) = slotAt c (Face.left, 1) ∧
    slotAt (c.rightTurn) (Face.left, 2) = slotAt c (Face.left, 2) ∧
    slotAt (c.rightTurn) (Face.left, 3) = slotAt c (Face.left, 3) ∧
    slotAt (c.rightTurn) (Face.left, 4) = slotAt c (Face.left, 4) ∧
    slotAt (c.rightTurn) (Face.left, 5) = slotAt c (Face.left, 5) ∧
    slotAt (c.rightTurn) (Face.left, 6) = slotAt c (Face.left, 6) ∧
    slotAt (c.rightTurn) (Face.left, 7) = slotAt c (Face.left, 7) ∧
    slotAt (c.rightTurn) (Face.left, 8) = slotAt c (Face.left, 8) ∧
    slotAt (c.rightTurn) (Face.right, 0) = slotAt c (Face.right, 6) ∧
    slotAt (c.rightTurn) (Face.right, 1) = slotAt c (Face.right, 3) ∧
    slotAt (c.rightTurn) (Face.right, 2) = slotAt c (Face.right, 0) ∧
    slotAt (c.rightTurn) (Face.right, 3) = slotAt c (Face.right, 7) ∧
    slotAt (c.rightTurn) (Face.right, 4) = slotAt c (Face.right, 4) ∧
    slotAt (c.rightTurn) (Face.right, 5) = slotAt c (Face.right, 1) ∧
    slotAt (c.rightTurn) (Face.right, 6) = slotAt c (Face.right, 8) ∧
    slotAt (c.rightTurn) (Face.right, 7) = slotAt c (Face.right, 5) ∧
    slotAt (c.rightTurn) (Face.right, 8) = slotAt c (Face.right, 2) ∧
    slotAt (c.rightTurn) (Face.front, 0) = slotAt c (Face.front, 0) ∧
    slotAt (c.rightTurn) (Face.front, 1) = slotAt c (Face.front, 1) ∧
    slotAt (c.rightTurn) (Face.front, 2) = slotAt c (Face.down, 2) ∧
    slotAt (c.rightTurn) (Face.front, 3) = slotAt c (Face.front, 3) ∧
    slotAt (c.rightTurn) (Face.front, 4) = slotAt c (Face.front, 4) ∧
    slotAt (c.rightTurn) (Face.front, 5) = slotAt c (Face.down, 5) ∧
    slotAt (c.rightTurn) (Face.front, 6) = slotAt c (Face.front, 6) ∧
    slotAt (c.rightTurn) (Face.front, 7) = slotAt c (Face.front, 7) ∧
    slotAt (c.rightTurn) (Face.front, 8) = slotAt c (Face.down, 8) ∧
    slotAt (c.rightTurn) (Face.back, 0) = slotAt c (Face.back, 0) ∧
    slotAt (c.rightTurn) (Face.back, 1) = slotAt c (Face.back, 1) ∧
    slotAt (c.rightTurn) (Face.back, 2) = slotAt c (Face.up, 2) ∧
    slotAt (c.rightTurn) (Face.back, 3) = slotAt c (Face.back, 3) ∧
    slotAt (c.rightTurn) (Face.back, 4) = slotAt c (Face.back, 4) ∧
    slotAt (c.rightTurn) (Face.back, 5) = slotAt c (Face.up, 5) ∧
    slotAt (c.rightTurn) (Face.back, 6) = slotAt c (Face.back, 6) ∧
    slotAt (c.rightTurn) (Face.back, 7) = slotAt c (Face.back, 7) ∧
    slotAt (c.rightTurn) (Face.back, 8) = slotAt c (Face.up, 8) := by
  simp only [slotAt, faceW, Cube.rightTurn, rotate_face, rotate_face_, rotate_face2,
      SHIFT2, SHIFT4, SHIFT6, SHIFT8,
      slot_lor, slot_shr2, slot_shr4, slot_shr6, slot_shr8,
      slot_shl2, slot_shl4, slot_shl6, slot_shl8,
      slot_land, slotV_M012, slotV_M036, slotV_M147, slotV_M258, slotV_M678,
      slotV_N012, slotV_N036, slotV_N147, slotV_N258, slotV_N678,
      slotV_P0, slotV_P1, slotV_P2, slotV_P3, slotV_P4, slotV_P5, slotV_P6,
      slotV_P7, slotV_P8, slotV_P05, slotV_P38, slotV_P16, slotV_P27,
      slot_and_seven, Nat.reduceAdd, Nat.reduceMul, Nat.reduceSub,
      Nat.reduceEqDiff, Nat.reduceLeDiff, Nat.reduceLT, reduceIte,
      or_true, true_or, false_or, or_false,
      Nat.and_zero, Nat.zero_and, Nat.or_zero, Nat.zero_or,
      eq_self_iff_true, and_self, and_true, true_and]

theorem master_R (c : Cube) (f : Face) (i : Nat) (hi : i < 9) :
    slotAt (c.rightTurn) (f, i) = slotAt c (srcR (f, i)) := by
  obtain ⟨h0, h1, h2, h3, h4, h5, h6, h7, h8, h9, h10, h11, h12, h13, h14, h15, h16, h17, h18, h19, h20, h21, h22, h23, h24, h25, h26, h27, h28, h29, h30, h31, h32, h33, h34, h35, h36, h37, h38, h39, h40, h41, h42, h43, h44, h45, h46, h47, h48, h49, h50, h51, h52, h53⟩ := master_conj_R c
  have h9 : i = 0 ∨ i = 1 ∨ i = 2 ∨ i = 3 ∨ i = 4 ∨ i = 5 ∨ i = 6 ∨ i = 7 ∨ i = 8 := by omega
  cases f
  · rcases h9 with rfl|rfl|rfl|rfl|rfl|rfl|rfl|rfl|rfl
    · exact h0
    · exact h1
    · exact h2
    · exact h3
    · exact h4
    · exact h5
    · exact h6
    · exact h7
    · exact h8
  · rcases h9 with rfl|rfl|rfl|rfl|rfl|rfl|rfl|rfl|rfl
    · exact h9
    · exact h10
    · exact h11
    · exact h12
    · exact h13
    · exact h14
    · exact h15
    · exact h16
    · exact h17
  · rcases h9 with rfl|rfl|rfl|rfl|rfl|rfl|rfl|rfl|rfl
    · exact h18
    · exact h19
    · exact h20
    · exact h21
    · exact h22
    · exact h23
    · exact h24
    · exact h25
    · exact h26
  · rcases h9 with rfl|rfl|rfl|rfl|rfl|rfl|rfl|rfl|rfl
    · exact h27
    · exact h28
    · exact h29
    · exact h30
    · exact h31
    · exact h32
    · exact h33
    · exact h34
    · exact h35
  · rcases h9 with rfl|rfl|rfl|rfl|rfl|rfl|rfl|rfl|rfl
    · exact h36
    · exact h37
    · exact h38
    · exact h39
    · exact h40
    · exact h41
    · exact h42
    · exact h43
    · exact h44
  · rcases h9 with rfl|rfl|rfl|rfl|rfl|rfl|rfl|rfl|rfl
    · exact h45
    · exact h46
    · exact h47
    · exact h48
    · exact h49
    · exact h50
    · exact h51
    · exact h52
    · exact h53

/-- Source location of each sticker after the move R_. -/
def srcR_ : Loc → Loc
  | (Face.up, 2) => (Face.back, 2)
  | (Face.up, 5) => (Face.back, 5)
  | (Face.up, 8) => (Face.back, 8)
  | (Face.down, 2) => (Face.front, 2)
  | (Face.down, 5) => (Face.front, 5)
  | (Face.down, 8) => (Face.front, 8)
  | (Face.right, 0) => (Face.right, 2)
  | (Face.right, 1) => (Face.right, 5)
  | (Face.right, 2) => (Face.right, 8)
  | (Face.right, 3) => (Face.right, 1)
  | (Face.right, 5) => (Face.right, 7)
  | (Face.right, 6) => (Face.right, 0)
  | (Face.right, 7) => (Face.right, 3)
  | (Face.right, 8) => (Face.right, 6)
  | (Face.front, 2) => (Face.up, 2)
  | (Face.front, 5) => (Face.up, 5)
  | (Face.front, 8) => (Face.up, 8)
  | (Face.back, 2) => (Face.down, 2)
  | (Face.back, 5) => (Face.down, 5)
  | (Face.back, 8) => (Face.down, 8)
  | l => l

set_option maxHeartbeats 1000000 in
theorem master_conj_R_ (c : Cube) :
    slotAt (c.rightTurn_) (Face.up, 0) = slotAt c (Face.up, 0) ∧
    slotAt (c.rightTurn_) (Face.up, 1) = slotAt c (Face.up, 1) ∧
    slotAt (c.rightTurn_) (Face.up, 2) = slotAt c (Face.back, 2) ∧
    slotAt (c.rightTurn_) (Face.up, 3) = slotAt c (Face.up, 3) ∧
    slotAt (c.rightTurn_) (Face.up, 4) = slotAt c (Face.up, 4) ∧
    slotAt (c.rightTurn_) (Face.up, 5) = slotAt c (Face.back, 5) ∧
    slotAt (c.rightTurn_) (Face.up, 6) = slotAt c (Face.up, 6) ∧
    slotAt (c.rightTurn_) (Face.up, 7) = slotAt c (Face.up, 7) ∧
    slotAt (c.rightTurn_) (Face.up, 8) = slotAt c (Face.back, 8) ∧
    slotAt (c.rightTurn_) (Face.down, 0) = slotAt c (Face.down, 0) ∧
    slotAt (c.rightTurn_) (Face.down, 1) = slotAt c (Face.down, 1) ∧
    slotAt (c.rightTurn_) (Face.down, 2) = slotAt c (Face.front, 2) ∧
    slotAt (c.rightTurn_) (Face.down, 3) = slotAt c (Face.down, 3) ∧
    slotAt (c.rightTurn_) (Face.down, 4) = slotAt c (Face.down, 4) ∧
    slotAt (c.rightTurn_) (Face.down, 5) = slotAt c (Face.front, 5) ∧
    slotAt (c.rightTurn_) (Face.down, 6) = slotAt c (Face.down, 6) ∧
    slotAt (c.rightTurn_) (Face.down, 7) = slotAt c (Face.down, 7) ∧
    slotAt (c.rightTurn_) (Face.down, 8) = slotAt c (Face.front, 8) ∧
    slotAt (c.rightTurn_) (Face.left, 0) = slotAt c (Face.left, 0) ∧
    slotAt (c.rightTurn_) (Face.left, 1) = slotAt c (Face.left, 1) ∧
    slotAt (c.rightTurn_) (Face.left, 2) = slotAt c (Face.left, 2) ∧
    slotAt (c.rightTurn_) (Face.left, 3) = slotAt c (Face.left, 3) ∧
    slotAt (c.rightTurn_) (Face.left, 4) = slotAt c (Face.left, 4) ∧
    slotAt (c.rightTurn_) (Face.left, 5) = slotAt c (Face.left, 5) ∧
    slotAt (c.rightTurn_) (Face.left, 6) = slotAt c (Face.left, 6) ∧
    slotAt (c.rightTurn_) (Face.left, 7) = slotAt c (Face.left, 7) ∧
    slotAt (c.rightTurn_) (Face.left, 8) = slotAt c (Face.left, 8) ∧
    slotAt (c.rightTurn_) (Face.right, 0) = slotAt c (Face.right, 2) ∧
    slotAt (c.rightTurn_) (Face.right, 1) = slotAt c (Face.right, 5) ∧
    slotAt (c.rightTurn_) (Face.right, 2) = slotAt c (Face.right, 8) ∧
    slotAt (c.rightTurn_) (Face.right, 3) = slotAt c (Face.right, 1) ∧
    slotAt (c.rightTurn_) (Face.right, 4) = slotAt c (Face.right, 4) ∧
    slotAt (c.rightTurn_) (Face.right, 5) = slotAt c (Face.right, 7) ∧
    slotAt (c.rightTurn_) (Face.right, 6) = slotAt c (Face.right, 0) ∧
    slotAt (c.rightTurn_) (Face.right, 7) = slotAt c (Face.right, 3) ∧
    slotAt (c.rightTurn_) (Face.right, 8) = slotAt c (Face.right, 6) ∧
    slotAt (c.rightTurn_) (Face.front, 0) = slotAt c (Face.front, 0) ∧
    slotAt (c.rightTurn_) (Face.front, 1) = slotAt c (Face.front, 1) ∧
    slotAt (c.rightTurn_) (Face.front, 2) = slotAt c (Face.up, 2) ∧
    slotAt (c.rightTurn_) (Face.front, 3) = slotAt c (Face.front, 3) ∧
    slotAt (c.rightTurn_) (Face.front, 4) = slotAt c (Face.front, 4) ∧
    slotAt (c.rightTurn_) (Face.front, 5) = slotAt c (Face.up, 5) ∧
    slotAt (c.rightTurn_) (Face.front, 6) = slotAt c (Face.front, 6) ∧
    slotAt (c.rightTurn_) (Face.front, 7) = slotAt c (Face.front, 7) ∧
    slotAt (c.rightTurn_) (Face.front, 8) = slotAt c (Face.up, 8) ∧
    slotAt (c.rightTurn_) (Face.back, 0) = slotAt c (Face.back, 0) ∧
    slotAt (c.rightTurn_) (Face.back, 1) = slotAt c (Face.back, 1) ∧
    slotAt (c.rightTurn_) (Face.back, 2) = slotAt c (Face.down, 2) ∧
    slotAt (c.rightTurn_) (Face.back, 3) = slotAt c (Face.back, 3) ∧
    slotAt (c.rightTurn_) (Face.back, 4) = slotAt c (Face.back, 4) ∧
    slotAt (c.rightTurn_) (Face.back, 5) = slotAt c (Face.down, 5) ∧
    slotAt (c.rightTurn_) (Face.back, 6) = slotAt c (Face.back, 6) ∧
    slotAt (c.rightTurn_) (Face.back, 7) = slotAt c (Face.back, 7) ∧
    slotAt (c.rightTurn_) (Face.back, 8) = slotAt c (Face.down, 8) := by
  simp only [slotAt, faceW, Cube.rightTurn_, rotate_face, rotate_face_, rotate_face2,
      SHIFT2, SHIFT4, SHIFT6, SHIFT8,
      slot_lor, slot_shr2, slot_shr4, slot_shr6, slot_shr8,
      slot_shl2, slot_shl4, slot_shl6, slot_shl8,
      slot_land, slotV_M012, slotV_M036, slotV_M147, slotV_M258, slotV_M678,
      slotV_N012, slotV_N036, slotV_N147, slotV_N258, slotV_N678,
      slotV_P0, slotV_P1, slotV_P2, slotV_P3, slotV_P4, slotV_P5, slotV_P6,
      slotV_P7, slotV_P8, slotV_P05, slotV_P38, slotV_P16, slotV_P27,
      slot_and_seven, Nat.reduceAdd, Nat.reduceMul, Nat.reduceSub,
      Nat.reduceEqDiff, Nat.reduceLeDiff, Nat.reduceLT, reduceIte,
      or_true, true_or, false_or, or_false,
      Nat.and_zero, Nat.zero_and, Nat.or_zero, Nat.zero_or,
      eq_self_iff_true, and_self, and_true, true_and]

theorem master_R_ (c : Cube) (f : Face) (i : Nat) (hi : i < 9) :
    slotAt (c.rightTurn_) (f, i) = slotAt c (srcR_ (f, i)) := by
  obtain ⟨h0, h1, h2, h3, h4, h5, h6, h7, h8, h9, h10, h11, h12, h13, h14, h15, h16, h17, h18, h19, h20, h21, h22, h23, h24, h25, h26, h27, h28, h29, h30, h31, h32, h33, h34, h35, h36, h37, h38, h39, h40, h41, h42, h43, h44, h45, h46, h47, h48, h49, h50, h51, h52, h53⟩ := master_conj_R_ c
  have h9 : i = 0 ∨ i = 1 ∨ i = 2 ∨ i = 3 ∨ i = 4 ∨ i = 5 ∨ i = 6 ∨ i = 7 ∨ i = 8 := by omega
  cases f
  · rcases h9 with rfl|rfl|rfl|rfl|rfl|rfl|rfl|rfl|rfl
    · exact h0
    · exact h1
    · exact h2
    · exact h3
    · exact h4
    · exact h5
    · exact h6
    · exact h7
    · exact h8
  · rcases h9 with rfl|rfl|rfl|rfl|rfl|rfl|rfl|rfl|rfl
    · exact h9
    · exact h10
    · exact h11
    · exact h12
    · exact h13
    · exact h14
    · exact h15
    · exact h16
    · exact h17
  · rcases h9 with rfl|rfl|rfl|rfl|rfl|rfl|rfl|rfl|rfl
    · exact h18
    · exact h19
    · exact h20
    · exact h21
    · exact h22
    · exact h23
    · exact h24
    · exact h25
    · exact h26
  · rcases h9 with rfl|rfl|rfl|rfl|rfl|rfl|rfl|rfl|rfl
    · exact h27
    · exact h28
    · exact h29
    · exact h30
    · exact h31
    · exact h32
    · exact h33
    · exact h34
    · exact h35
  · rcases h9 with rfl|rfl|rfl|rfl|rfl|rfl|rfl|rfl|rfl
    · exact h36
    · exact h37
    · exact h38
    · exact h39
    · exact h40
    · exact h41
    · exact h42
    · exact h43
    · exact h44
  · rcases h9 with rfl|rfl|rfl|rfl|rfl|rfl|rfl|rfl|rfl
    · exact h45
    · exact h46
    · exact h47
    · exact h48
    · exact h49
    · exact h50
    · exact h51
    · exact h52
    · exact h53

/-- Source location of each sticker after the move R2. -/
def srcR2 : Loc → Loc
  | (Face.up, 2) => (Face.down, 2)
  | (Face.up, 5) => (Face.down, 5)
  | (Face.up, 8) => (Face.down, 8)
  | (Face.down, 2) => (Face.up, 2)
  | (Face.down, 5) => (Face.up, 5)
  | (Face.down, 8) => (Face.up, 8)
  | (Face.right, 0) => (Face.right, 8)
  | (Face.right, 1) => (Face.right, 7)
  | (Face.right, 2) => (Face.right, 6)
  | (Face.right, 3) => (Face.right, 5)
  | (Face.right, 5) => (Face.right, 3)
  | (Face.right, 6) => (Face.right, 2)
  | (Face.right, 7) => (Face.right, 1)
  | (Face.right, 8) => (Face.right, 0)
  | (Face.front, 2) => (Face.back, 2)
  | (Face.front, 5) => (Face.back, 5)
  | (Face.front, 8) => (Face.back, 8)
  | (Face.back, 2) => (Face.front, 2)
  | (Face.back, 5) => (Face.front, 5)
  | (Face.back, 8) => (Face.front, 8)
  | l => l

set_option maxHeartbeats 1000000 in
theorem master_conj_R2 (c : Cube) :
    slotAt (c.rightTurn2) (Face.up, 0) = slotAt c (Face.up, 0) ∧
    slotAt (c.rightTurn2) (Face.up, 1) = slotAt c (Face.up, 1) ∧
    slotAt (c.rightTurn2) (Face.up, 2) = slotAt c (Face.down, 2) ∧
    slotAt (c.rightTurn2) (Face.up, 3) = slotAt c (Face.up, 3) ∧
    slotAt (c.rightTurn2) (Face.up, 4) = slotAt c (Face.up, 4) ∧
    slotAt (c.rightTurn2) (Face.up, 5) = slotAt c (Face.down, 5) ∧
    slotAt (c.rightTurn2) (Face.up, 6) = slotAt c (Face.up, 6) ∧
    slotAt (c.rightTurn2) (Face.up, 7) = slotAt c (Face.up, 7) ∧
    slotAt (c.rightTurn2) (Face.up, 8) = slotAt c (Face.down, 8) ∧
    slotAt (c.rightTurn2) (Face.down, 0) = slotAt c (Face.down, 0) ∧
    slotAt (c.rightTurn2) (Face.down, 1) = slotAt c (Face.down, 1) ∧
    slotAt (c.rightTurn2) (Face.down, 2) = slotAt c (Face.up, 2) ∧
    slotAt (c.rightTurn2) (Face.down, 3) = slotAt c (Face.down, 3) ∧
    slotAt (c.rightTurn2) (Face.down, 4) = slotAt c (Face.down, 4) ∧
    slotAt (c.rightTurn2) (Face.down, 5) = slotAt c (Face.up, 5) ∧
    slotAt (c.rightTurn2) (Face.down, 6) = slotAt c (Face.down, 6) ∧
    slotAt (c.rightTurn2) (Face.down, 7) = slotAt c (Face.down, 7) ∧
    slotAt (c.rightTurn2) (Face.down, 8) = slotAt c (Face.up, 8) ∧
    slotAt (c.rightTurn2) (Face.left, 0) = slotAt c (Face.left, 0) ∧
    slotAt (c.rightTurn2) (Face.left, 1) = slotAt c (Face.left, 1) ∧
    slotAt (c.rightTurn2) (Face.left, 2) = slotAt c (Face.left, 2) ∧
    slotAt (c.rightTurn2) (Face.left, 3) = slotAt c (Face.left, 3) ∧
    slotAt (c.rightTurn2) (Face.left, 4) = slotAt c (Face.left, 4) ∧
    slotAt (c.rightTurn2) (Face.left, 5) = slotAt c (Face.left, 5) ∧
    slotAt (c.rightTurn2) (Face.left, 6) = slotAt c (Face.left, 6) ∧
    slotAt (c.rightTurn2) (Face.left, 7) = slotAt c (Face.left, 7) ∧
    slotAt (c.rightTurn2) (Face.left, 8) = slotAt c (Face.left, 8) ∧
    slotAt (c.rightTurn2) (Face.right, 0) = slotAt c (Face.right, 8) ∧
    slotAt (c.rightTurn2) (Face.right, 1) = slotAt c (Face.right, 7) ∧
    slotAt (c.rightTurn2) (Face.right, 2) = slotAt c (Face.right, 6) ∧
    slotAt (c.rightTurn2) (Face.right, 3) = slotAt c (Face.right, 5) ∧
    slotAt (c.rightTurn2) (Face.right, 4) = slotAt c (Face.right, 4) ∧
    slotAt (c.rightTurn2) (Face.right, 5) = slotAt c (Face.right, 3) ∧
    slotAt (c.rightTurn2) (Face.right, 6) = slotAt c (Face.right, 2) ∧
    slotAt (c.rightTurn2) (Face.right, 7) = slotAt c (Face.right, 1) ∧
    slotAt (c.rightTurn2) (Face.right, 8) = slotAt c (Face.right, 0) ∧
    slotAt (c.rightTurn2) (Face.front, 0) = slotAt c (Face.front, 0) ∧
    slotAt (c.rightTurn2) (Face.front, 1) = slotAt c (Face.front, 1) ∧
    slotAt (c.rightTurn2) (Face.front, 2) = slotAt c (Face.back, 2) ∧
    slotAt (c.rightTurn2) (Face.front, 3) = slotAt c (Face.front, 3) ∧
    slotAt (c.rightTurn2) (Face.front, 4) = slotAt c (Face.front, 4) ∧
    slotAt (c.rightTurn2) (Face.front, 5) = slotAt c (Face.back, 5) ∧
    slotAt (c.rightTurn2) (Face.front, 6) = slotAt c (Face.front, 6) ∧
    slotAt (c.rightTurn2) (Face.front, 7) = slotAt c (Face.front, 7) ∧
    slotAt (c.rightTurn2) (Face.front, 8) = slotAt c (Face.back, 8) ∧
    slotAt (c.rightTurn2) (Face.back, 0) = slotAt c (Face.back, 0) ∧
    slotAt (c.rightTurn2) (Face.back, 1) = slotAt c (Face.back, 1) ∧
    slotAt (c.rightTurn2) (Face.back, 2) = slotAt c (Face.front, 2) ∧
    slotAt (c.rightTurn2) (Face.back, 3) = slotAt c (Face.back, 3) ∧
    slotAt (c.rightTurn2) (Face.back, 4) = slotAt c (Face.back, 4) ∧
    slotAt (c.rightTurn2) (Face.back, 5) = slotAt c (Face.front, 5) ∧
    slotAt (c.rightTurn2) (Face.back, 6) = slotAt c (Face.back, 6) ∧
    slotAt (c.rightTurn2) (Face.back, 7) = slotAt c (Face.back, 7) ∧
    slotAt (c.rightTurn2) (Face.back, 8) = slotAt c (Face.front, 8) := by
  simp only [slotAt, faceW, Cube.rightTurn2, rotate_face, rotate_face_, rotate_face2,
      SHIFT2, SHIFT4, SHIFT6, SHIFT8,
      slot_lor, slot_shr2, slot_shr4, slot_shr6, slot_shr8,
      slot_shl2, slot_shl4, slot_shl6, slot_shl8,
      slot_land, slotV_M012, slotV_M036, slotV_M147, slotV_M258, slotV_M678,
      slotV_N012, slotV_N036, slotV_N147, slotV_N258, slotV_N678,
      slotV_P0, slotV_P1, slotV_P2, slotV_P3, slotV_P4, slotV_P5, slotV_P6,
      slotV_P7, slotV_P8, slotV_P05, slotV_P38, slotV_P16, slotV_P27,
      slot_and_seven, Nat.reduceAdd, Nat.reduceMul, Nat.reduceSub,
      Nat.reduceEqDiff, Nat.reduceLeDiff, Nat.reduceLT, reduceIte,
      or_true, true_or, false_or, or_false,
      Nat.and_zero, Nat.zero_and, Nat.or_zero, Nat.zero_or,
      eq_self_iff_true, and_self, and_true, true_and]

theorem master_R2 (c : Cube) (f : Face) (i : Nat) (hi : i < 9) :
    slotAt (c.rightTurn2) (f, i) = slotAt c (srcR2 (f, i)) := by
  obtain ⟨h0, h1, h2, h3, h4, h5, h6, h7, h8, h9, h10, h11, h12, h13, h14, h15, h16, h17, h18, h19, h20, h21, h22, h23, h24, h25, h26, h27, h28, h29, h30, h31, h32, h33, h34, h35, h36, h37, h38, h39, h40, h41, h42, h43, h44, h45, h46, h47, h48, h49, h50, h51, h52, h53⟩ := master_conj_R2 c
  have h9 : i = 0 ∨ i = 1 ∨ i = 2 ∨ i = 3 ∨ i = 4 ∨ i = 5 ∨ i = 6 ∨ i = 7 ∨ i = 8 := by omega
  cases f
  · rcases h9 with rfl|rfl|rfl|rfl|rfl|rfl|rfl|rfl|rfl
    · exact h0
    · exact h1
    · exact h2
    · exact h3
    · exact h4
    · exact h5
    · exact h6
    · exact h7
    · exact h8
  · rcases h9 with rfl|rfl|rfl|rfl|rfl|rfl|rfl|rfl|rfl
    · exact h9
    · exact h10
    · exact h11
    · exact h12
    · exact h13
    · exact h14
    · exact h15
    · exact h16
    · exact h17
  · rcases h9 with rfl|rfl|rfl|rfl|rfl|rfl|rfl|rfl|rfl
    · exact h18
    · exact h19
    · exact h20
    · exact h21
    · exact h22
    · exact h23
    · exact h24
    · exact h25
    · exact h26
  · rcases h9 with rfl|rfl|rfl|rfl|rfl|rfl|rfl|rfl|rfl
    · exact h27
    · exact h28
    · exact h29
    · exact h30
    · exact h31
    · exact h32
    · exact h33
    · exact h34
    · exact h35
  · rcases h9 with rfl|rfl|rfl|rfl|rfl|rfl|rfl|rfl|rfl
    · exact h36
    · exact h37
    · exact h38
    · exact h39
    · exact h40
    · exact h41
    · exact h42
    · exact h43
    · exact h44
  · rcases h9 with rfl|rfl|rfl|rfl|rfl|rfl|rfl|rfl|rfl
    · exact h45
    · exact h46
    · exact h47
    · exact h48
    · exact h49
    · exact h50
    · exact h51
    · exact h52
    · exact h53

/-- Source location of each sticker after the move L. -/
def srcL : Loc → Loc
  | (Face.up, 0) => (Face.back, 0)
  | (Face.up, 3) => (Face.back, 3)
  | (Face.up, 6) => (Face.back, 6)
  | (Face.down, 0) => (Face.front, 0)
  | (Face.down, 3) => (Face.front, 3)
  | (Face.down, 6) => (Face.front, 6)
  | (Face.left, 0) => (Face.left, 6)
  | (Face.left, 1) => (Face.left, 3)
  | (Face.left, 2) => (Face.left, 0)
  | (Face.left, 3) => (Face.left, 7)
  | (Face.left, 5) => (Face.left, 1)
  | (Face.left, 6) => (Face.left, 8)
  | (Face.left, 7) => (Face.left, 5)
  | (Face.left, 8) => (Face.left, 2)
  | (Face.front, 0) => (Face.up, 0)
  | (Face.front, 3) => (Face.up, 3)
  | (Face.front, 6) => (Face.up, 6)
  | (Face.back, 0) => (Face.down, 0)
  | (Face.back, 3) => (Face.down, 3)
  | (Face.back, 6) => (Face.down, 6)
  | l => l

set_option maxHeartbeats 1000000 in
theorem master_conj_L (c : Cube) :
    slotAt (c.leftTurn) (Face.up, 0) = slotAt c (Face.back, 0) ∧
    slotAt (c.leftTurn) (Face.up, 1) = slotAt c (Face.up, 1) ∧
    slotAt (c.leftTurn) (Face.up, 2) = slotAt c (Face.up, 2) ∧
    slotAt (c.leftTurn) (Face.up, 3) = slotAt c (Face.back, 3) ∧
    slotAt (c.leftTurn) (Face.up, 4) = slotAt c (Face.up, 4) ∧
    slotAt (c.leftTurn) (Face.up, 5) = slotAt c (Face.up, 5) ∧
    slotAt (c.leftTurn) (Face.up, 6) = slotAt c (Face.back, 6) ∧
    slotAt (c.leftTurn) (Face.up, 7) = slotAt c (Face.up, 7) ∧
    slotAt (c.leftTurn) (Face.up, 8) = slotAt c (Face.up, 8) ∧
    slotAt (c.leftTurn) (Face.down, 0) = slotAt c (Face.front, 0) ∧
    slotAt (c.leftTurn) (Face.down, 1) = slotAt c (Face.down, 1) ∧
    slotAt (c.leftTurn) (Face.down, 2) = slotAt c (Face.down, 2) ∧
    slotAt (c.leftTurn) (Face.down, 3) = slotAt c (Face.front, 3) ∧
    slotAt (c.leftTurn) (Face.down, 4) = slotAt c (Face.down, 4) ∧
    slotAt (c.leftTurn) (Face.down, 5) = slotAt c (Face.down, 5) ∧
    slotAt (c.leftTurn) (Face.down, 6) = slotAt c (Face.front, 6) ∧
    slotAt (c.leftTurn) (Face.down, 7) = slotAt c (Face.down, 7) ∧
    slotAt (c.leftTurn) (Face.down, 8) = slotAt c (Face.down, 8) ∧
    slotAt (c.leftTurn) (Face.left, 0) = slotAt c (Face.left, 6) ∧
    slotAt (c.leftTurn) (Face.left, 1) = slotAt c (Face.left, 3) ∧
    slotAt (c.leftTurn) (Face.left, 2) = slotAt c (Face.left, 0) ∧
    slotAt (c.leftTurn) (Face.left, 3) = slotAt c (Face.left, 7) ∧
    slotAt (c.leftTurn) (Face.left, 4) = slotAt c (Face.left, 4) ∧
    slotAt (c.leftTurn) (Face.left, 5) = slotAt c (Face.left, 1) ∧
    slotAt (c.leftTurn) (Face.left, 6) = slotAt c (Face.left, 8) ∧
    slotAt (c.leftTurn) (Face.left, 7) = slotAt c (Face.left, 5) ∧
    slotAt (c.leftTurn) (Face.left, 8) = slotAt c (Face.left, 2) ∧
    slotAt (c.leftTurn) (Face.right, 0) = slotAt c (Face.right, 0) ∧
    slotAt (c.leftTurn) (Face.right, 1) = slotAt c (Face.right, 1) ∧
    slotAt (c.leftTurn) (Face.right, 2) = slotAt c (Face.right, 2) ∧
    slotAt (c.leftTurn) (Face.right, 3) = slotAt c (Face.right, 3) ∧
    slotAt (c.leftTurn) (Face.right, 4) = slotAt c (Face.right, 4) ∧
    slotAt (c.leftTurn) (Face.right, 5) = slotAt c (Face.right, 5) ∧
    slotAt (c.leftTurn) (Face.right, 6) = slotAt c (Face.right, 6) ∧
    slotAt (c.leftTurn) (Face.right, 7) = slotAt c (Face.right, 7) ∧
    slotAt (c.leftTurn) (Face.right, 8) = slotAt c (Face.right, 8) ∧
    slotAt (c.leftTurn) (Face.front, 0) = slotAt c (Face.up, 0) ∧
    slotAt (c.leftTurn) (Face.front, 1) = slotAt c (Face.front, 1) ∧
    slotAt (c.leftTurn) (Face.front, 2) = slotAt c (Face.front, 2) ∧
    slotAt (c.leftTurn) (Face.front, 3) = slotAt c (Face.up, 3) ∧
    slotAt (c.leftTurn) (Face.front, 4) = slotAt c (Face.front, 4) ∧
    slotAt (c.leftTurn) (Face.front, 5) = slotAt c (Face.front, 5) ∧
    slotAt (c.leftTurn) (Face.front, 6) = slotAt c (Face.up, 6) ∧
    slotAt (c.leftTurn) (Face.front, 7) = slotAt c (Face.front, 7) ∧
    slotAt (c.leftTurn) (Face.front, 8) = slotAt c (Face.front, 8) ∧
    slotAt (c.leftTurn) (Face.back, 0) = slotAt c (Face.down, 0) ∧
    slotAt (c.leftTurn) (Face.back, 1) = slotAt c (Face.back, 1) ∧
    slotAt (c.leftTurn) (Face.back, 2) = slotAt c (Face.back, 2) ∧
    slotAt (c.leftTurn) (Face.back, 3) = slotAt c (Face.down, 3) ∧
    slotAt (c.leftTurn) (Face.back, 4) = slotAt c (Face.back, 4) ∧
    slotAt (c.leftTurn) (Face.back, 5) = slotAt c (Face.back, 5) ∧
    slotAt (c.leftTurn) (Face.back, 6) = slotAt c (Face.down, 6) ∧
    slotAt (c.leftTurn) (Face.back, 7) = slotAt c (Face.back, 7) ∧
    slotAt (c.leftTurn) (Face.back, 8) = slotAt c (Face.back, 8) := by
  simp only [slotAt, faceW, Cube.leftTurn, rotate_face, rotate_face_, rotate_face2,
      SHIFT2, SHIFT4, SHIFT6, SHIFT8,
      slot_lor, slot_shr2, slot_shr4, slot_shr6, slot_shr8,
      slot_shl2, slot_shl4, slot_shl6, slot_shl8,
      slot_land, slotV_M012, slotV_M036, slotV_M147, slotV_M258, slotV_M678,
      slotV_N012, slotV_N036, slotV_N147, slotV_N258, slotV_N678,
      slotV_P0, slotV_P1, slotV_P2, slotV_P3, slotV_P4, slotV_P5, slotV_P6,
      slotV_P7, slotV_P8, slotV_P05, slotV_P38, slotV_P16, slotV_P27,
      slot_and_seven, Nat.reduceAdd, Nat.reduceMul, Nat.reduceSub,
      Nat.reduceEqDiff, Nat.reduceLeDiff, Nat.reduceLT, reduceIte,
      or_true, true_or, false_or, or_false,
      Nat.and_zero, Nat.zero_and, Nat.or_zero, Nat.zero_or,
      eq_self_iff_true, and_self, and_true, true_and]

theorem master_L (c : Cube) (f : Face) (i : Nat) (hi : i < 9) :
    slotAt (c.leftTurn) (f, i) = slotAt c (srcL (f, i)) := by
  obtain ⟨h0, h1, h2, h3, h4, h5, h6, h7, h8, h9, h10, h11, h12, h13, h14, h15, h16, h17, h18, h19, h20, h21, h22, h23, h24, h25, h26, h27, h28, h29, h30, h31, h32, h33, h34, h35, h36, h37, h38, h39, h40, h41, h42, h43, h44, h45, h46, h47, h48, h49, h50, h51, h52, h53⟩ := master_conj_L c
  have h9 : i = 0 ∨ i = 1 ∨ i = 2 ∨ i = 3 ∨ i = 4 ∨ i = 5 ∨ i = 6 ∨ i = 7 ∨ i = 8 := by omega
  cases f
  · rcases h9 with rfl|rfl|rfl|rfl|rfl|rfl|rfl|rfl|rfl
    · exact h0
    · exact h1
    · exact h2
    · exact h3
    · exact h4
    · exact h5
    · exact h6
    · exact h7
    · exact h8
  · rcases h9 with rfl|rfl|rfl|rfl|rfl|rfl|rfl|rfl|rfl
    · exact h9
    · exact h10
    · exact h11
    · exact h12
    · exact h13
    · exact h14
    · exact h15
    · exact h16
    · exact h17
  · rcases h9 with rfl|rfl|rfl|rfl|rfl|rfl|rfl|rfl|rfl
    · exact h18
    · exact h19
    · exact h20
    · exact h21
    · exact h22
    · exact h23
    · exact h24
    · exact h25
    · exact h26
  · rcases h9 with rfl|rfl|rfl|rfl|rfl|rfl|rfl|rfl|rfl
    · exact h27
    · exact h28
    · exact h29
    · exact h30
    · exact h31
    · exact h32
    · exact h33
    · exact h34
    · exact h35
  · rcases h9 with rfl|rfl|rfl|rfl|rfl|rfl|rfl|rfl|rfl
    · exact h36
    · exact h37
    · exact h38
    · exact h39
    · exact h40
    · exact h41
    · exact h42
    · exact h43
    · exact h44
  · rcases h9 with rfl|rfl|rfl|rfl|rfl|rfl|rfl|rfl|rfl
    · exact h45
    · exact h46
    · exact h47
    · exact h48
    · exact h49
    · exact h50
    · exact h51
    · exact h52
    · exact h53

/-- Source location of each sticker after the move L_. -/
def srcL_ : Loc → Loc
  | (Face.up, 0) => (Face.front, 0)
  | (Face.up, 3) => (Face.front, 3)
  | (Face.up, 6) => (Face.front, 6)
  | (Face.down, 0) => (Face.back, 0)
  | (Face.down, 3) => (Face.back, 3)
  | (Face.down, 6) => (Face.back, 6)
  | (Face.left, 0) => (Face.left, 2)
  | (Face.left, 1) => (Face.left, 5)
  | (Face.left, 2) => (Face.left, 8)
  | (Face.left, 3) => (Face.left, 1)
  | (Face.left, 5) => (Face.left, 7)
  | (Face.left, 6) => (Face.left, 0)
  | (Face.left, 7) => (Face.left, 3)
  | (Face.left, 8) => (Face.left, 6)
  | (Face.front, 0) => (Face.down, 0)
  | (Face.front, 3) => (Face.down, 3)
  | (Face.front, 6) => (Face.down, 6)
  | (Face.back, 0) => (Face.up, 0)
  | (Face.back, 3) => (Face.up, 3)
  | (Face.back, 6) => (Face.up, 6)
  | l => l

set_option maxHeartbeats 1000000 in
theorem master_conj_L_ (c : Cube) :
    slotAt (c.leftTurn_) (Face.up, 0) = slotAt c (Face.front, 0) ∧
    slotAt (c.leftTurn_) (Face.up, 1) = slotAt c (Face.up, 1) ∧
    slotAt (c.leftTurn_) (Face.up, 2) = slotAt c (Face.up, 2) ∧
    slotAt (c.leftTurn_) (Face.up, 3) = slotAt c (Face.front, 3) ∧
    slotAt (c.leftTurn_) (Face.up, 4) = slotAt c (Face.up, 4) ∧
    slotAt (c.leftTurn_) (Face.up, 5) = slotAt c (Face.up, 5) ∧
    slotAt (c.leftTurn_) (Face.up, 6) = slotAt c (Face.front, 6) ∧
    slotAt (c.leftTurn_) (Face.up, 7) = slotAt c (Face.up, 7) ∧
    slotAt (c.leftTurn_) (Face.up, 8) = slotAt c (Face.up, 8) ∧
    slotAt (c.leftTurn_) (Face.down, 0) = slotAt c (Face.back, 0) ∧
    slotAt (c.leftTurn_) (Face.down, 1) = slotAt c (Face.down, 1) ∧
    slotAt (c.leftTurn_) (Face.down, 2) = slotAt c (Face.down, 2) ∧
    slotAt (c.leftTurn_) (Face.down, 3) = slotAt c (Face.back, 3) ∧
    slotAt (c.leftTurn_) (Face.down, 4) = slotAt c (Face.down, 4) ∧
    slotAt (c.leftTurn_) (Face.down, 5) = slotAt c (Face.down, 5) ∧
    slotAt (c.leftTurn_) (Face.down, 6) = slotAt c (Face.back, 6) ∧
    slotAt (c.leftTurn_) (Face.down, 7) = slotAt c (Face.down, 7) ∧
    slotAt (c.leftTurn_) (Face.down, 8) = slotAt c (Face.down, 8) ∧
    slotAt (c.leftTurn_) (Face.left, 0) = slotAt c (Face.left, 2) ∧
    slotAt (c.leftTurn_) (Face.left, 1) = slotAt c (Face.left, 5) ∧
    slotAt (c.leftTurn_) (Face.left, 2) = slotAt c (Face.left, 8) ∧
    slotAt (c.leftTurn_) (Face.left, 3) = slotAt c (Face.left, 1) ∧
    slotAt (c.leftTurn_) (Face.left, 4) = slotAt c (Face.left, 4) ∧
    slotAt (c.leftTurn_) (Face.left, 5) = slotAt c (Face.left, 7) ∧
    slotAt (c.leftTurn_) (Face.left, 6) = slotAt c (Face.left, 0) ∧
    slotAt (c.leftTurn_) (Face.left, 7) = slotAt c (Face.left, 3) ∧
    slotAt (c.leftTurn_) (Face.left, 8) = slotAt c (Face.left, 6) ∧
    slotAt (c.leftTurn_) (Face.right, 0) = slotAt c (Face.right, 0) ∧
    slotAt (c.leftTurn_) (Face.right, 1) = slotAt c (Face.right, 1) ∧
    slotAt (c.leftTurn_) (Face.right, 2) = slotAt c (Face.right, 2) ∧
    slotAt (c.leftTurn_) (Face.right, 3) = slotAt c (Face.right, 3) ∧
    slotAt (c.leftTurn_) (Face.right, 4) = slotAt c (Face.right, 4) ∧
    slotAt (c.leftTurn_) (Face.right, 5) = slotAt c (Face.right, 5) ∧
    slotAt (c.leftTurn_) (Face.right, 6) = slotAt c (Face.right, 6) ∧
    slotAt (c.leftTurn_) (Face.right, 7) = slotAt c (Face.right, 7) ∧
    slotAt (c.leftTurn_) (Face.right, 8) = slotAt c (Face.right, 8) ∧
    slotAt (c.leftTurn_) (Face.front, 0) = slotAt c (Face.down, 0) ∧
    slotAt (c.leftTurn_) (Face.front, 1) = slotAt c (Face.front, 1) ∧
    slotAt (c.leftTurn_) (Face.front, 2) = slotAt c (Face.front, 2) ∧
    slotAt (c.leftTurn_) (Face.front, 3) = slotAt c (Face.down, 3) ∧
    slotAt (c.leftTurn_) (Face.front, 4) = slotAt c (Face.front, 4) ∧
    slotAt (c.leftTurn_) (Face.front, 5) = slotAt c (Face.front, 5) ∧
    slotAt (c.leftTurn_) (Face.front, 6) = slotAt c (Face.down, 6) ∧
    slotAt (c.leftTurn_) (Face.front, 7) = slotAt c (Face.front, 7) ∧
    slotAt (c.leftTurn_) (Face.front, 8) = slotAt c (Face.front, 8) ∧
    slotAt (c.leftTurn_) (Face.back, 0) = slotAt c (Face.up, 0) ∧
    slotAt (c.leftTurn_) (Face.back, 1) = slotAt c (Face.back, 1) ∧
    slotAt (c.leftTurn_) (Face.back, 2) = slotAt c (Face.back, 2) ∧
    slotAt (c.leftTurn_) (Face.back, 3) = slotAt c (Face.up, 3) ∧
    slotAt (c.leftTurn_) (Face.back, 4) = slotAt c (Face.back, 4) ∧
    slotAt (c.leftTurn_) (Face.back, 5) = slotAt c (Face.back, 5) ∧
    slotAt (c.leftTurn_) (Face.back, 6) = slotAt c (Face.up, 6) ∧
    slotAt (c.leftTurn_) (Face.back, 7) = slotAt c (Face.back, 7) ∧
    slotAt (c.leftTurn_) (Face.back, 8) = slotAt c (Face.back, 8) := by
  simp only [slotAt, faceW, Cube.leftTurn_, rotate_face, rotate_face_, rotate_face2,
      SHIFT2, SHIFT4, SHIFT6, SHIFT8,
      slot_lor, slot_shr2, slot_shr4, slot_shr6, slot_shr8,
      slot_shl2, slot_shl4, slot_shl6, slot_shl8,
      slot_land, slotV_M012, slotV_M036, slotV_M147, slotV_M258, slotV_M678,
      slotV_N012, slotV_N036, slotV_N147, slotV_N258, slotV_N678,
      slotV_P0, slotV_P1, slotV_P2, slotV_P3, slotV_P4, slotV_P5, slotV_P6,
      slotV_P7, slotV_P8, slotV_P05, slotV_P38, slotV_P16, slotV_P27,
      slot_and_seven, Nat.reduceAdd, Nat.reduceMul, Nat.reduceSub,
      Nat.reduceEqDiff, Nat.reduceLeDiff, Nat.reduceLT, reduceIte,
      or_true, true_or, false_or, or_false,
      Nat.and_zero, Nat.zero_and, Nat.or_zero, Nat.zero_or,
      eq_self_iff_true, and_self, and_true, true_and]

theorem master_L_ (c : Cube) (f : Face) (i : Nat) (hi : i < 9) :
    slotAt (c.leftTurn_) (f, i) = slotAt c (srcL_ (f, i)) := by
  obtain ⟨h0, h1, h2, h3, h4, h5, h6, h7, h8, h9, h10, h11, h12, h13, h14, h15, h16, h17, h18, h19, h20, h21, h22, h23, h24, h25, h26, h27, h28, h29, h30, h31, h32, h33, h34, h35, h36, h37, h38, h39, h40, h41, h42, h43, h44, h45, h46, h47, h48, h49, h50, h51, h52, h53⟩ := master_conj_L_ c
  have h9 : i = 0 ∨ i = 1 ∨ i = 2 ∨ i = 3 ∨ i = 4 ∨ i = 5 ∨ i = 6 ∨ i = 7 ∨ i = 8 := by omega
  cases f
  · rcases h9 with rfl|rfl|rfl|rfl|rfl|rfl|rfl|rfl|rfl
    · exact h0
    · exact h1
    · exact h2
    · exact h3
    · exact h4
    · exact h5
    · exact h6
    · exact h7
    · exact h8
  · rcases h9 with rfl|rfl|rfl|rfl|rfl|rfl|rfl|rfl|rfl
    · exact h9
    · exact h10
    · exact h11
    · exact h12
    · exact h13
    · exact h14
    · exact h15
    · exact h16
    · exact h17
  · rcases h9 with rfl|rfl|rfl|rfl|rfl|rfl|rfl|rfl|rfl
    · exact h18
    · exact h19
    · exact h20
    · exact h21
    · exact h22
    · exact h23
    · exact h24
    · exact h25
    · exact h26
  · rcases h9 with rfl|rfl|rfl|rfl|rfl|rfl|rfl|rfl|rfl
    · exact h27
    · exact h28
    · exact h29
    · exact h30
    · exact h31
    · exact h32
    · exact h33
    · exact h34
    · exact h35
  · rcases h9 with rfl|rfl|rfl|rfl|rfl|rfl|rfl|rfl|rfl
    · exact h36
    · exact h37
    · exact h38
    · exact h39
    · exact h40
    · exact h41
    · exact h42
    · exact h43
    · exact h44
  · rcases h9 with rfl|rfl|rfl|rfl|rfl|rfl|rfl|rfl|rfl
    · exact h45
    · exact h46
    · exact h47
    · exact h48
    · exact h49
    · exact h50
    · exact h51
    · exact h52
    · exact h53

/-- Source location of each sticker after the move L2. -/
def srcL2 : Loc → Loc
  | (Face.up, 0) => (Face.down, 0)
  | (Face.up, 3) => (Face.down, 3)
  | (Face.up, 6) => (Face.down, 6)
  | (Face.down, 0) => (Face.up, 0)
  | (Face.down, 3) => (Face.up, 3)
  | (Face.down, 6) => (Face.up, 6)
  | (Face.left, 0) => (Face.left, 8)
  | (Face.left, 1) => (Face.left, 7)
  | (Face.left, 2) => (Face.left, 6)
  | (Face.left, 3) => (Face.left, 5)
  | (Face.left, 5) => (Face.left, 3)
  | (Face.left, 6) => (Face.left, 2)
  | (Face.left, 7) => (Face.left, 1)
  | (Face.left, 8) => (Face.left, 0)
  | (Face.front, 0) => (Face.back, 0)
  | (Face.front, 3) => (Face.back, 3)
  | (Face.front, 6) => (Face.back, 6)
  | (Face.back, 0) => (Face.front, 0)
  | (Face.back, 3) => (Face.front, 3)
  | (Face.back, 6) => (Face.front, 6)
  | l => l

set_option maxHeartbeats 1000000 in
theorem master_conj_L2 (c : Cube) :
    slotAt (c.leftTurn2) (Face.up, 0) = slotAt c (Face.down, 0) ∧
    slotAt (c.leftTurn2) (Face.up, 1) = slotAt c (Face.up, 1) ∧
    slotAt (c.leftTurn2) (Face.up, 2) = slotAt c (Face.up, 2) ∧
    slotAt (c.leftTurn2) (Face.up, 3) = slotAt c (Face.down, 3) ∧
    slotAt (c.leftTurn2) (Face.up, 4) = slotAt c (Face.up, 4) ∧
    slotAt (c.leftTurn2) (Face.up, 5) = slotAt c (Face.up, 5) ∧
    slotAt (c.leftTurn2) (Face.up, 6) = slotAt c (Face.down, 6) ∧
    slotAt (c.leftTurn2) (Face.up, 7) = slotAt c (Face.up, 7) ∧
    slotAt (c.leftTurn2) (Face.up, 8) = slotAt c (Face.up, 8) ∧
    slotAt (c.leftTurn2) (Face.down, 0) = slotAt c (Face.up, 0) ∧
    slotAt (c.leftTurn2) (Face.down, 1) = slotAt c (Face.down, 1) ∧
    slotAt (c.leftTurn2) (Face.down, 2) = slotAt c (Face.down, 2) ∧
    slotAt (c.leftTurn2) (Face.down, 3) = slotAt c (Face.up, 3) ∧
    slotAt (c.leftTurn2) (Face.down, 4) = slotAt c (Face.down, 4) ∧
    slotAt (c.leftTurn2) (Face.down, 5) = slotAt c (Face.down, 5) ∧
    slotAt (c.leftTurn2) (Face.down, 6) = slotAt c (Face.up, 6) ∧
    slotAt (c.leftTurn2) (Face.down, 7) = slotAt c (Face.down, 7) ∧
    slotAt (c.leftTurn2) (Face.down, 8) = slotAt c (Face.down, 8) ∧
    slotAt (c.leftTurn2) (Face.left, 0) = slotAt c (Face.left, 8) ∧
    slotAt (c.leftTurn2) (Face.left, 1) = slotAt c (Face.left, 7) ∧
    slotAt (c.leftTurn2) (Face.left, 2) = slotAt c (Face.left, 6) ∧
    slotAt (c.leftTurn2) (Face.left, 3) = slotAt c (Face.left, 5) ∧
    slotAt (c.leftTurn2) (Face.left, 4) = slotAt c (Face.left, 4) ∧
    slotAt (c.leftTurn2) (Face.left, 5) = slotAt c (Face.left, 3) ∧
    slotAt (c.leftTurn2) (Face.left, 6) = slotAt c (Face.left, 2) ∧
    slotAt (c.leftTurn2) (Face.left, 7) = slotAt c (Face.left, 1) ∧
    slotAt (c.leftTurn2) (Face.left, 8) = slotAt c (Face.left, 0) ∧
    slotAt (c.leftTurn2) (Face.right, 0) = slotAt c (Face.right, 0) ∧
    slotAt (c.leftTurn2) (Face.right, 1) = slotAt c (Face.right, 1) ∧
    slotAt (c.leftTurn2) (Face.right, 2) = slotAt c (Face.right, 2) ∧
    slotAt (c.leftTurn2) (Face.right, 3) = slotAt c (Face.right, 3) ∧
    slotAt (c.leftTurn2) (Face.right, 4) = slotAt c (Face.right, 4) ∧
    slotAt (c.leftTurn2) (Face.right, 5) = slotAt c (Face.right, 5) ∧
    slotAt (c.leftTurn2) (Face.right, 6) = slotAt c (Face.right, 6) ∧
    slotAt (c.leftTurn2) (Face.right, 7) = slotAt c (Face.right, 7) ∧
    slotAt (c.leftTurn2) (Face.right, 8) = slotAt c (Face.right, 8) ∧
    slotAt (c.leftTurn2) (Face.front, 0) = slotAt c (Face.back, 0) ∧
    slotAt (c.leftTurn2) (Face.front, 1) = slotAt c (Face.front, 1) ∧
    slotAt (c.leftTurn2) (Face.front, 2) = slotAt c (Face.front, 2) ∧
    slotAt (c.leftTurn2) (Face.front, 3) = slotAt c (Face.back, 3) ∧
    slotAt (c.leftTurn2) (Face.front, 4) = slotAt c (Face.front, 4) ∧
    slotAt (c.leftTurn2) (Face.front, 5) = slotAt c (Face.front, 5) ∧
    slotAt (c.leftTurn2) (Face.front, 6) = slotAt c (Face.back, 6) ∧
    slotAt (c.leftTurn2) (Face.front, 7) = slotAt c (Face.front, 7) ∧
    slotAt (c.leftTurn2) (Face.front, 8) = slotAt c (Face.front, 8) ∧
    slotAt (c.leftTurn2) (Face.back, 0) = slotAt c (Face.front, 0) ∧
    slotAt (c.leftTurn2) (Face.back, 1) = slotAt c (Face.back, 1) ∧
    slotAt (c.leftTurn2) (Face.back, 2) = slotAt c (Face.back, 2) ∧
    slotAt (c.leftTurn2) (Face.back, 3) = slotAt c (Face.front, 3) ∧
    slotAt (c.leftTurn2) (Face.back, 4) = slotAt c (Face.back, 4) ∧
    slotAt (c.leftTurn2) (Face.back, 5) = slotAt c (Face.back, 5) ∧
    slotAt (c.leftTurn2) (Face.back, 6) = slotAt c (Face.front, 6) ∧
    slotAt (c.leftTurn2) (Face.back, 7) = slotAt c (Face.back, 7) ∧
    slotAt (c.leftTurn2) (Face.back, 8) = slotAt c (Face.back, 8) := by
  simp only [slotAt, faceW, Cube.leftTurn2, rotate_face, rotate_face_, rotate_face2,
      SHIFT2, SHIFT4, SHIFT6, SHIFT8,
      slot_lor, slot_shr2, slot_shr4, slot_shr6, slot_shr8,
      slot_shl2, slot_shl4, slot_shl6, slot_shl8,
      slot_land, slotV_M012, slotV_M036, slotV_M147, slotV_M258, slotV_M678,
      slotV_N012, slotV_N036, slotV_N147, slotV_N258, slotV_N678,
      slotV_P0, slotV_P1, slotV_P2, slotV_P3, slotV_P4, slotV_P5, slotV_P6,
      slotV_P7, slotV_P8, slotV_P05, slotV_P38, slotV_P16, slotV_P27,
      slot_and_seven, Nat.reduceAdd, Nat.reduceMul, Nat.reduceSub,
      Nat.reduceEqDiff, Nat.reduceLeDiff, Nat.reduceLT, reduceIte,
      or_true, true_or, false_or, or_false,
      Nat.and_zero, Nat.zero_and, Nat.or_zero, Nat.zero_or,
      eq_self_iff_true, and_self, and_true, true_and]

theorem master_L2 (c : Cube) (f : Face) (i : Nat) (hi : i < 9) :
    slotAt (c.leftTurn2) (f, i) = slotAt c (srcL2 (f, i)) := by
  obtain ⟨h0, h1, h2, h3, h4, h5, h6, h7, h8, h9, h10, h11, h12, h13, h14, h15, h16, h17, h18, h19, h20, h21, h22, h23, h24, h25, h26, h27, h28, h29, h30, h31, h32, h33, h34, h35, h36, h37, h38, h39, h40, h41, h42, h43, h44, h45, h46, h47, h48, h49, h50, h51, h52, h53⟩ := master_conj_L2 c
  have h9 : i = 0 ∨ i = 1 ∨ i = 2 ∨ i = 3 ∨ i = 4 ∨ i = 5 ∨ i = 6 ∨ i = 7 ∨ i = 8 := by omega
  cases f
  · rcases h9 with rfl|rfl|rfl|rfl|rfl|rfl|rfl|rfl|rfl
    · exact h0
    · exact h1
    · exact h2
    · exact h3
    · exact h4
    · exact h5
    · exact h6
    · exact h7
    · exact h8
  · rcases h9 with rfl|rfl|rfl|rfl|rfl|rfl|rfl|rfl|rfl
    · exact h9
    · exact h10
    · exact h11
    · exact h12
    · exact h13
    · exact h14
    · exact h15
    · exact h16
    · exact h17
  · rcases h9 with rfl|rfl|rfl|rfl|rfl|rfl|rfl|rfl|rfl
    · exact h18
    · exact h19
    · exact h20
    · exact h21
    · exact h22
    · exact h23
    · exact h24
    · exact h25
    · exact h26
  · rcases h9 with rfl|rfl|rfl|rfl|rfl|rfl|rfl|rfl|rfl
    · exact h27
    · exact h28
    · exact h29
    · exact h30
    · exact h31
    · exact h32
    · exact h33
    · exact h34
    · exact h35
  · rcases h9 with rfl|rfl|rfl|rfl|rfl|rfl|rfl|rfl|rfl
    · exact h36
    · exact h37
    · exact h38
    · exact h39
    · exact h40
    · exact h41
    · exact h42
    · exact h43
    · exact h44
  · rcases h9 with rfl|rfl|rfl|rfl|rfl|rfl|rfl|rfl|rfl
    · exact h45
    · exact h46
    · exact h47
    · exact h48
    · exact h49
    · exact h50
    · exact h51
    · exact h52
    · exact h53

/-- Source location of each sticker after the move M. -/
def srcM : Loc → Loc
  | (Face.up, 1) => (Face.back, 1)
  | (Face.up, 4) => (Face.back, 4)
  | (Face.up, 7) => (Face.back, 7)
  | (Face.down, 1) => (Face.front, 1)
  | (Face.down, 4) => (Face.front, 4)
  | (Face.down, 7) => (Face.front, 7)
  | (Face.front, 1) => (Face.up, 1)
  | (Face.front, 4) => (Face.up, 4)
  | (Face.front, 7) => (Face.up, 7)
  | (Face.back, 1) => (Face.down, 1)
  | (Face.back, 4) => (Face.down, 4)
  | (Face.back, 7) => (Face.down, 7)
  | l => l

set_option maxHeartbeats 1000000 in
theorem master_conj_M (c : Cube) :
    slotAt (c.middleTurn) (Face.up, 0) = slotAt c (Face.up, 0) ∧
    slotAt (c.middleTurn) (Face.up, 1) = slotAt c (Face.back, 1) ∧
    slotAt (c.middleTurn) (Face.up, 2) = slotAt c (Face.up, 2) ∧
    slotAt (c.middleTurn) (Face.up, 3) = slotAt c (Face.up, 3) ∧
    slotAt (c.middleTurn) (Face.up, 4) = slotAt c (Face.back, 4) ∧
    slotAt (c.middleTurn) (Face.up, 5) = slotAt c (Face.up, 5) ∧
    slotAt (c.middleTurn) (Face.up, 6) = slotAt c (Face.up, 6) ∧
    slotAt (c.middleTurn) (Face.up, 7) = slotAt c (Face.back, 7) ∧
    slotAt (c.middleTurn) (Face.up, 8) = slotAt c (Face.up, 8) ∧
    slotAt (c.middleTurn) (Face.down, 0) = slotAt c (Face.down, 0) ∧
    slotAt (c.middleTurn) (Face.down, 1) = slotAt c (Face.front, 1) ∧
    slotAt (c.middleTurn) (Face.down, 2) = slotAt c (Face.down, 2) ∧
    slotAt (c.middleTurn) (Face.down, 3) = slotAt c (Face.down, 3) ∧
    slotAt (c.middleTurn) (Face.down, 4) = slotAt c (Face.front, 4) ∧
    slotAt (c.middleTurn) (Face.down, 5) = slotAt c (Face.down, 5) ∧
    slotAt (c.middleTurn) (Face.down, 6) = slotAt c (Face.down, 6) ∧
    slotAt (c.middleTurn) (Face.down, 7) = slotAt c (Face.front, 7) ∧
    slotAt (c.middleTurn) (Face.down, 8) = slotAt c (Face.down, 8) ∧
    slotAt (c.middleTurn) (Face.left, 0) = slotAt c (Face.left, 0) ∧
    slotAt (c.middleTurn) (Face.left, 1) = slotAt c (Face.left, 1) ∧
    slotAt (c.middleTurn) (Face.left, 2) = slotAt c (Face.left, 2) ∧
    slotAt (c.middleTurn) (Face.left, 3) = slotAt c (Face.left, 3) ∧
    slotAt (c.middleTurn) (Face.left, 4) = slotAt c (Face.left, 4) ∧
    slotAt (c.middleTurn) (Face.left, 5) = slotAt c (Face.left, 5) ∧
    slotAt (c.middleTurn) (Face.left, 6) = slotAt c (Face.left, 6) ∧
    slotAt (c.middleTurn) (Face.left, 7) = slotAt c (Face.left, 7) ∧
    slotAt (c.middleTurn) (Face.left, 8) = slotAt c (Face.left, 8) ∧
    slotAt (c.middleTurn) (Face.right, 0) = slotAt c (Face.right, 0) ∧
    slotAt (c.middleTurn) (Face.right, 1) = slotAt c (Face.right, 1) ∧
    slotAt (c.middleTurn) (Face.right, 2) = slotAt c (Face.right, 2) ∧
    slotAt (c.middleTurn) (Face.right, 3) = slotAt c (Face.right, 3) ∧
    slotAt (c.middleTurn) (Face.right, 4) = slotAt c (Face.right, 4) ∧
    slotAt (c.middleTurn) (Face.right, 5) = slotAt c (Face.right, 5) ∧
    slotAt (c.middleTurn) (Face.right, 6) = slotAt c (Face.right, 6) ∧
    slotAt (c.middleTurn) (Face.right, 7) = slotAt c (Face.right, 7) ∧
    slotAt (c.middleTurn) (Face.right, 8) = slotAt c (Face.right, 8) ∧
    slotAt (c.middleTurn) (Face.front, 0) = slotAt c (Face.front, 0) ∧
    slotAt (c.middleTurn) (Face.front, 1) = slotAt c (Face.up, 1) ∧
    slotAt (c.middleTurn) (Face.front, 2) = slotAt c (Face.front, 2) ∧
    slotAt (c.middleTurn) (Face.front, 3) = slotAt c (Face.front, 3) ∧
    slotAt (c.middleTurn) (Face.front, 4) = slotAt c (Face.up, 4) ∧
    slotAt (c.middleTurn) (Face.front, 5) = slotAt c (Face.front, 5) ∧
    slotAt (c.middleTurn) (Face.front, 6) = slotAt c (Face.front, 6) ∧
    slotAt (c.middleTurn) (Face.front, 7) = slotAt c (Face.up, 7) ∧
    slotAt (c.middleTurn) (Face.front, 8) = slotAt c (Face.front, 8) ∧
    slotAt (c.middleTurn) (Face.back, 0) = slotAt c (Face.back, 0) ∧
    slotAt (c.middleTurn) (Face.back, 1) = slotAt c (Face.down, 1) ∧
    slotAt (c.middleTurn) (Face.back, 2) = slotAt c (Face.back, 2) ∧
    slotAt (c.middleTurn) (Face.back, 3) = slotAt c (Face.back, 3) ∧
    slotAt (c.middleTurn) (Face.back, 4) = slotAt c (Face.down, 4) ∧
    slotAt (c.middleTurn) (Face.back, 5) = slotAt c (Face.back, 5) ∧
    slotAt (c.middleTurn) (Face.back, 6) = slotAt c (Face.back, 6) ∧
    slotAt (c.middleTurn) (Face.back, 7) = slotAt c (Face.down, 7) ∧
    slotAt (c.middleTurn) (Face.back, 8) = slotAt c (Face.back, 8) := by
  simp only [slotAt, faceW, Cube.middleTurn, rotate_face, rotate_face_, rotate_face2,
      SHIFT2, SHIFT4, SHIFT6, SHIFT8,
      slot_lor, slot_shr2, slot_shr4, slot_shr6, slot_shr8,
      slot_shl2, slot_shl4, slot_shl6, slot_shl8,
      slot_land, slotV_M012, slotV_M036, slotV_M147, slotV_M258, slotV_M678,
      slotV_N012, slotV_N036, slotV_N147, slotV_N258, slotV_N678,
      slotV_P0, slotV_P1, slotV_P2, slotV_P3, slotV_P4, slotV_P5, slotV_P6,
      slotV_P7, slotV_P8, slotV_P05, slotV_P38, slotV_P16, slotV_P27,
      slot_and_seven, Nat.reduceAdd, Nat.reduceMul, Nat.reduceSub,
      Nat.reduceEqDiff, Nat.reduceLeDiff, Nat.reduceLT, reduceIte,
      or_true, true_or, false_or, or_false,
      Nat.and_zero, Nat.zero_and, Nat.or_zero, Nat.zero_or,
      eq_self_iff_true, and_self, and_true, true_and]

theorem master_M (c : Cube) (f : Face) (i : Nat) (hi : i < 9) :
    slotAt (c.middleTurn) (f, i) = slotAt c (srcM (f, i)) := by
  obtain ⟨h0, h1, h2, h3, h4, h5, h6, h7, h8, h9, h10, h11, h12, h13, h14, h15, h16, h17, h18, h19, h20, h21, h22, h23, h24, h25, h26, h27, h28, h29, h30, h31, h32, h33, h34, h35, h36, h37, h38, h39, h40, h41, h42, h43, h44, h45, h46, h47, h48, h49, h50, h51, h52, h53⟩ := master_conj_M c
  have h9 : i = 0 ∨ i = 1 ∨ i = 2 ∨ i = 3 ∨ i = 4 ∨ i = 5 ∨ i = 6 ∨ i = 7 ∨ i = 8 := by omega
  cases f
  · rcases h9 with rfl|rfl|rfl|rfl|rfl|rfl|rfl|rfl|rfl
    · exact h0
    · exact h1
    · exact h2
    · exact h3
    · exact h4
    · exact h5
    · exact h6
    · exact h7
    · exact h8
  · rcases h9 with rfl|rfl|rfl|rfl|rfl|rfl|rfl|rfl|rfl
    · exact h9
    · exact h10
    · exact h11
    · exact h12
    · exact h13
    · exact h14
    · exact h15
    · exact h16
    · exact h17
  · rcases h9 with rfl|rfl|rfl|rfl|rfl|rfl|rfl|rfl|rfl
    · exact h18
    · exact h19
    · exact h20
    · exact h21
    · exact h22
    · exact h23
    · exact h24
    · exact h25
    · exact h26
  · rcases h9 with rfl|rfl|rfl|rfl|rfl|rfl|rfl|rfl|rfl
    · exact h27
    · exact h28
    · exact h29
    · exact h30
    · exact h31
    · exact h32
    · exact h33
    · exact h34
    · exact h35
  · rcases h9 with rfl|rfl|rfl|rfl|rfl|rfl|rfl|rfl|rfl
    · exact h36
    · exact h37
    · exact h38
    · exact h39
    · exact h40
    · exact h41
    · exact h42
    · exact h43
    · exact h44
  · rcases h9 with rfl|rfl|rfl|rfl|rfl|rfl|rfl|rfl|rfl
    · exact h45
    · exact h46
    · exact h47
    · exact h48
    · exact h49
    · exact h50
    · exact h51
    · exact h52
    · exact h53

/-- Source location of each sticker after the move M_. -/
def srcM_ : Loc → Loc
  | (Face.up, 1) => (Face.front, 1)
  | (Face.up, 4) => (Face.front, 4)
  | (Face.up, 7) => (Face.front, 7)
  | (Face.down, 1) => (Face.back, 1)
  | (Face.down, 4) => (Face.back, 4)
  | (Face.down, 7) => (Face.back, 7)
  | (Face.front, 1) => (Face.down, 1)
  | (Face.front, 4) => (Face.down, 4)
  | (Face.front, 7) => (Face.down, 7)
  | (Face.back, 1) => (Face.up, 1)
  | (Face.back, 4) => (Face.up, 4)
  | (Face.back, 7) => (Face.up, 7)
  | l => l

set_option maxHeartbeats 1000000 in
theorem master_conj_M_ (c : Cube) :
    slotAt (c.middleTurn_) (Face.up, 0) = slotAt c (Face.up, 0) ∧
    slotAt (c.middleTurn_) (Face.up, 1) = slotAt c (Face.front, 1) ∧
    slotAt (c.middleTurn_) (Face.up, 2) = slotAt c (Face.up, 2) ∧
    slotAt (c.middleTurn_) (Face.up, 3) = slotAt c (Face.up, 3) ∧
    slotAt (c.middleTurn_) (Face.up, 4) = slotAt c (Face.front, 4) ∧
    slotAt (c.middleTurn_) (Face.up, 5) = slotAt c (Face.up, 5) ∧
    slotAt (c.middleTurn_) (Face.up, 6) = slotAt c (Face.up, 6) ∧
    slotAt (c.middleTurn_) (Face.up, 7) = slotAt c (Face.front, 7) ∧
    slotAt (c.middleTurn_) (Face.up, 8) = slotAt c (Face.up, 8) ∧
    slotAt (c.middleTurn_) (Face.down, 0) = slotAt c (Face.down, 0) ∧
    slotAt (c.middleTurn_) (Face.down, 1) = slotAt c (Face.back, 1) ∧
    slotAt (c.middleTurn_) (Face.down, 2) = slotAt c (Face.down, 2) ∧
    slotAt (c.middleTurn_) (Face.down, 3) = slotAt c (Face.down, 3) ∧
    slotAt (c.middleTurn_) (Face.down, 4) = slotAt c (Face.back, 4) ∧
    slotAt (c.middleTurn_) (Face.down, 5) = slotAt c (Face.down, 5) ∧
    slotAt (c.middleTurn_) (Face.down, 6) = slotAt c (Face.down, 6) ∧
    slotAt (c.middleTurn_) (Face.down, 7) = slotAt c (Face.back, 7) ∧
    slotAt (c.middleTurn_) (Face.down, 8) = slotAt c (Face.down, 8) ∧
    slotAt (c.middleTurn_) (Face.left, 0) = slotAt c (Face.left, 0) ∧
    slotAt (c.middleTurn_) (Face.left, 1) = slotAt c (Face.left, 1) ∧
    slotAt (c.middleTurn_) (Face.left, 2) = slotAt c (Face.left, 2) ∧
    slotAt (c.middleTurn_) (Face.left, 3) = slotAt c (Face.left, 3) ∧
    slotAt (c.middleTurn_) (Face.left, 4) = slotAt c (Face.left, 4) ∧
    slotAt (c.middleTurn_) (Face.left, 5) = slotAt c (Face.left, 5) ∧
    slotAt (c.middleTurn_) (Face.left, 6) = slotAt c (Face.left, 6) ∧
    slotAt (c.middleTurn_) (Face.left, 7) = slotAt c (Face.left, 7) ∧
    slotAt (c.middleTurn_) (Face.left, 8) = slotAt c (Face.left, 8) ∧
    slotAt (c.middleTurn_) (Face.right, 0) = slotAt c (Face.right, 0) ∧
    slotAt (c.middleTurn_) (Face.right, 1) = slotAt c (Face.right, 1) ∧
    slotAt (c.middleTurn_) (Face.right, 2) = slotAt c (Face.right, 2) ∧
    slotAt (c.middleTurn_) (Face.right, 3) = slotAt c (Face.right, 3) ∧
    slotAt (c.middleTurn_) (Face.right, 4) = slotAt c (Face.right, 4) ∧
    slotAt (c.middleTurn_) (Face.right, 5) = slotAt c (Face.right, 5) ∧
    slotAt (c.middleTurn_) (Face.right, 6) = slotAt c (Face.right, 6) ∧
    slotAt (c.middleTurn_) (Face.right, 7) = slotAt c (Face.right, 7) ∧
    slotAt (c.middleTurn_) (Face.right, 8) = slotAt c (Face.right, 8) ∧
    slotAt (c.middleTurn_) (Face.front, 0) = slotAt c (Face.front, 0) ∧
    slotAt (c.middleTurn_) (Face.front, 1) = slotAt c (Face.down, 1) ∧
    slotAt (c.middleTurn_) (Face.front, 2) = slotAt c (Face.front, 2) ∧
    slotAt (c.middleTurn_) (Face.front, 3) = slotAt c (Face.front, 3) ∧
    slotAt (c.middleTurn_) (Face.front, 4) = slotAt c (Face.down, 4) ∧
    slotAt (c.middleTurn_) (Face.front, 5) = slotAt c (Face.front, 5) ∧
    slotAt (c.middleTurn_) (Face.front, 6) = slotAt c (Face.front, 6) ∧
    slotAt (c.middleTurn_) (Face.front, 7) = slotAt c (Face.down, 7) ∧
    slotAt (c.middleTurn_) (Face.front, 8) = slotAt c (Face.front, 8) ∧
    slotAt (c.middleTurn_) (Face.back, 0) = slotAt c (Face.back, 0) ∧
    slotAt (c.middleTurn_) (Face.back, 1) = slotAt c (Face.up, 1) ∧
    slotAt (c.middleTurn_) (Face.back, 2) = slotAt c (Face.back, 2) ∧
    slotAt (c.middleTurn_) (Face.back, 3) = slotAt c (Face.back, 3) ∧
    slotAt (c.middleTurn_) (Face.back, 4) = slotAt c (Face.up, 4) ∧
    slotAt (c.middleTurn_) (Face.back, 5) = slotAt c (Face.back, 5) ∧
    slotAt (c.middleTurn_) (Face.back, 6) = slotAt c (Face.back, 6) ∧
    slotAt (c.middleTurn_) (Face.back, 7) = slotAt c (Face.up, 7) ∧
    slotAt (c.middleTurn_) (Face.back, 8) = slotAt c (Face.back, 8) := by
  simp only [slotAt, faceW, Cube.middleTurn_, rotate_face, rotate_face_, rotate_face2,
      SHIFT2, SHIFT4, SHIFT6, SHIFT8,
      slot_lor, slot_shr2, slot_shr4, slot_shr6, slot_shr8,
      slot_shl2, slot_shl4, slot_shl6, slot_shl8,
      slot_land, slotV_M012, slotV_M036, slotV_M147, slotV_M258, slotV_M678,
      slotV_N012, slotV_N036, slotV_N147, slotV_N258, slotV_N678,
      slotV_P0, slotV_P1, slotV_P2, slotV_P3, slotV_P4, slotV_P5, slotV_P6,
      slotV_P7, slotV_P8, slotV_P05, slotV_P38, slotV_P16, slotV_P27,
      slot_and_seven, Nat.reduceAdd, Nat.reduceMul, Nat.reduceSub,
      Nat.reduceEqDiff, Nat.reduceLeDiff, Nat.reduceLT, reduceIte,
      or_true, true_or, false_or, or_false,
      Nat.and_zero, Nat.zero_and, Nat.or_zero, Nat.zero_or,
      eq_self_iff_true, and_self, and_true, true_and]

theorem master_M_ (c : Cube) (f : Face) (i : Nat) (hi : i < 9) :
    slotAt (c.middleTurn_) (f, i) = slotAt c (srcM_ (f, i)) := by
  obtain ⟨h0, h1, h2, h3, h4, h5, h6, h7, h8, h9, h10, h11, h12, h13, h14, h15, h16, h17, h18, h19, h20, h21, h22, h23, h24, h25, h26, h27, h28, h29, h30, h31, h32, h33, h34, h35, h36, h37, h38, h39, h40, h41, h42, h43, h44, h45, h46, h47, h48, h49, h50, h51, h52, h53⟩ := master_conj_M_ c
  have h9 : i = 0 ∨ i = 1 ∨ i = 2 ∨ i = 3 ∨ i = 4 ∨ i = 5 ∨ i = 6 ∨ i = 7 ∨ i = 8 := by omega
  cases f
  · rcases h9 with rfl|rfl|rfl|rfl|rfl|rfl|rfl|rfl|rfl
    · exact h0
    · exact h1
    · exact h2
    · exact h3
    · exact h4
    · exact h5
    · exact h6
    · exact h7
    · exact h8
  · rcases h9 with rfl|rfl|rfl|rfl|rfl|rfl|rfl|rfl|rfl
    · exact h9
    · exact h10
    · exact h11
    · exact h12
    · exact h13
    · exact h14
    · exact h15
    · exact h16
    · exact h17
  · rcases h9 with rfl|rfl|rfl|rfl|rfl|rfl|rfl|rfl|rfl
    · exact h18
    · exact h19
    · exact h20
    · exact h21
    · exact h22
    · exact h23
    · exact h24
    · exact h25
    · exact h26
  · rcases h9 with rfl|rfl|rfl|rfl|rfl|rfl|rfl|rfl|rfl
    · exact h27
    · exact h28
    · exact h29
    · exact h30
    · exact h31
    · exact h32
    · exact h33
    · exact h34
    · exact h35
  · rcases h9 with rfl|rfl|rfl|rfl|rfl|rfl|rfl|rfl|rfl
    · exact h36
    · exact h37
    · exact h38
    · exact h39
    · exact h40
    · exact h41
    · exact h42
    · exact h43
    · exact h44
  · rcases h9 with rfl|rfl|rfl|rfl|rfl|rfl|rfl|rfl|rfl
    · exact h45
    · exact h46
    · exact h47
    · exact h48
    · exact h49
    · exact h50
    · exact h51
    · exact h52
    · exact h53

/-- Source location of each sticker after the move M2. -/
def srcM2 : Loc → Loc
  | (Face.up, 1) => (Face.down, 1)
  | (Face.up, 4) => (Face.down, 4)
  | (Face.up, 7) => (Face.down, 7)
  | (Face.down, 1) => (Face.up, 1)
  | (Face.down, 4) => (Face.up, 4)
  | (Face.down, 7) => (Face.up, 7)
  | (Face.front, 1) => (Face.back, 1)
  | (Face.front, 4) => (Face.back, 4)
  | (Face.front, 7) => (Face.back, 7)
  | (Face.back, 1) => (Face.front, 1)
  | (Face.back, 4) => (Face.front, 4)
  | (Face.back, 7) => (Face.front, 7)
  | l => l

set_option maxHeartbeats 1000000 in
theorem master_conj_M2 (c : Cube) :
    slotAt (c.middleTurn2) (Face.up, 0) = slotAt c (Face.up, 0) ∧
    slotAt (c.middleTurn2) (Face.up, 1) = slotAt c (Face.down, 1) ∧
    slotAt (c.middleTurn2) (Face.up, 2) = slotAt c (Face.up, 2) ∧
    slotAt (c.middleTurn2) (Face.up, 3) = slotAt c (Face.up, 3) ∧
    slotAt (c.middleTurn2) (Face.up, 4) = slotAt c (Face.down, 4) ∧
    slotAt (c.middleTurn2) (Face.up, 5) = slotAt c (Face.up, 5) ∧
    slotAt (c.middleTurn2) (Face.up, 6) = slotAt c (Face.up, 6) ∧
    slotAt (c.middleTurn2) (Face.up, 7) = slotAt c (Face.down, 7) ∧
    slotAt (c.middleTurn2) (Face.up, 8) = slotAt c (Face.up, 8) ∧
    slotAt (c.middleTurn2) (Face.down, 0) = slotAt c (Face.down, 0) ∧
    slotAt (c.middleTurn2) (Face.down, 1) = slotAt c (Face.up, 1) ∧
    slotAt (c.middleTurn2) (Face.down, 2) = slotAt c (Face.down, 2) ∧
    slotAt (c.middleTurn2) (Face.down, 3) = slotAt c (Face.down, 3) ∧
    slotAt (c.middleTurn2) (Face.down, 4) = slotAt c (Face.up, 4) ∧
    slotAt (c.middleTurn2) (Face.down, 5) = slotAt c (Face.down, 5) ∧
    slotAt (c.middleTurn2) (Face.down, 6) = slotAt c (Face.down, 6) ∧
    slotAt (c.middleTurn2) (Face.down, 7) = slotAt c (Face.up, 7) ∧
    slotAt (c.middleTurn2) (Face.down, 8) = slotAt c (Face.down, 8) ∧
    slotAt (c.middleTurn2) (Face.left, 0) = slotAt c (Face.left, 0) ∧
    slotAt (c.middleTurn2) (Face.left, 1) = slotAt c (Face.left, 1) ∧
    slotAt (c.middleTurn2) (Face.left, 2) = slotAt c (Face.left, 2) ∧
    slotAt (c.middleTurn2) (Face.left, 3) = slotAt c (Face.left, 3) ∧
    slotAt (c.middleTurn2) (Face.left, 4) = slotAt c (Face.left, 4) ∧
    slotAt (c.middleTurn2) (Face.left, 5) = slotAt c (Face.left, 5) ∧
    slotAt (c.middleTurn2) (Face.left, 6) = slotAt c (Face.left, 6) ∧
    slotAt (c.middleTurn2) (Face.left, 7) = slotAt c (Face.left, 7) ∧
    slotAt (c.middleTurn2) (Face.left, 8) = slotAt c (Face.left, 8) ∧
    slotAt (c.middleTurn2) (Face.right, 0) = slotAt c (Face.right, 0) ∧
    slotAt (c.middleTurn2) (Face.right, 1) = slotAt c (Face.right, 1) ∧
    slotAt (c.middleTurn2) (Face.right, 2) = slotAt c (Face.right, 2) ∧
    slotAt (c.middleTurn2) (Face.right, 3) = slotAt c (Face.right, 3) ∧
    slotAt (c.middleTurn2) (Face.right, 4) = slotAt c (Face.right, 4) ∧
    slotAt (c.middleTurn2) (Face.right, 5) = slotAt c (Face.right, 5) ∧
    slotAt (c.middleTurn2) (Face.right, 6) = slotAt c (Face.right, 6) ∧
    slotAt (c.middleTurn2) (Face.right, 7) = slotAt c (Face.right, 7) ∧
    slotAt (c.middleTurn2) (Face.right, 8) = slotAt c (Face.right, 8) ∧
    slotAt (c.middleTurn2) (Face.front, 0) = slotAt c (Face.front, 0) ∧
    slotAt (c.middleTurn2) (Face.front, 1) = slotAt c (Face.back, 1) ∧
    slotAt (c.middleTurn2) (Face.front, 2) = slotAt c (Face.front, 2) ∧
    slotAt (c.middleTurn2) (Face.front, 3) = slotAt c (Face.front, 3) ∧
    slotAt (c.middleTurn2) (Face.front, 4) = slotAt c (Face.back, 4) ∧
    slotAt (c.middleTurn2) (Face.front, 5) = slotAt c (Face.front, 5) ∧
    slotAt (c.middleTurn2) (Face.front, 6) = slotAt c (Face.front, 6) ∧
    slotAt (c.middleTurn2) (Face.front, 7) = slotAt c (Face.back, 7) ∧
    slotAt (c.middleTurn2) (Face.front, 8) = slotAt c (Face.front, 8) ∧
    slotAt (c.middleTurn2) (Face.back, 0) = slotAt c (Face.back, 0) ∧
    slotAt (c.middleTurn2) (Face.back, 1) = slotAt c (Face.front, 1) ∧
    slotAt (c.middleTurn2) (Face.back, 2) = slotAt c (Face.back, 2) ∧
    slotAt (c.middleTurn2) (Face.back, 3) = slotAt c (Face.back, 3) ∧
    slotAt (c.middleTurn2) (Face.back, 4) = slotAt c (Face.front, 4) ∧
    slotAt (c.middleTurn2) (Face.back, 5) = slotAt c (Face.back, 5) ∧
    slotAt (c.middleTurn2) (Face.back, 6) = slotAt c (Face.back, 6) ∧
    slotAt (c.middleTurn2) (Face.back, 7) = slotAt c (Face.front, 7) ∧
    slotAt (c.middleTurn2) (Face.back, 8) = slotAt c (Face.back, 8) := by
  simp only [slotAt, faceW, Cube.middleTurn2, rotate_face, rotate_face_, rotate_face2,
      SHIFT2, SHIFT4, SHIFT6, SHIFT8,
      slot_lor, slot_shr2, slot_shr4, slot_shr6, slot_shr8,
      slot_shl2, slot_shl4, slot_shl6, slot_shl8,
      slot_land, slotV_M012, slotV_M036, slotV_M147, slotV_M258, slotV_M678,
      slotV_N012, slotV_N036, slotV_N147, slotV_N258, slotV_N678,
      slotV_P0, slotV_P1, slotV_P2, slotV_P3, slotV_P4, slotV_P5, slotV_P6,
      slotV_P7, slotV_P8, slotV_P05, slotV_P38, slotV_P16, slotV_P27,
      slot_and_seven, Nat.reduceAdd, Nat.reduceMul, Nat.reduceSub,
      Nat.reduceEqDiff, Nat.reduceLeDiff, Nat.reduceLT, reduceIte,
      or_true, true_or, false_or, or_false,
      Nat.and_zero, Nat.zero_and, Nat.or_zero, Nat.zero_or,
      eq_self_iff_true, and_self, and_true, true_and]

theorem master_M2 (c : Cube) (f : Face) (i : Nat) (hi : i < 9) :
    slotAt (c.middleTurn2) (f, i) = slotAt c (srcM2 (f, i)) := by
  obtain ⟨h0, h1, h2, h3, h4, h5, h6, h7, h8, h9, h10, h11, h12, h13, h14, h15, h16, h17, h18, h19, h20, h21, h22, h23, h24, h25, h26, h27, h28, h29, h30, h31, h32, h33, h34, h35, h36, h37, h38, h39, h40, h41, h42, h43, h44, h45, h46, h47, h48, h49, h50, h51, h52, h53⟩ := master_conj_M2 c
  have h9 : i = 0 ∨ i = 1 ∨ i = 2 ∨ i = 3 ∨ i = 4 ∨ i = 5 ∨ i = 6 ∨ i = 7 ∨ i = 8 := by omega
  cases f
  · rcases h9 with rfl|rfl|rfl|rfl|rfl|rfl|rfl|rfl|rfl
    · exact h0
    · exact h1
    · exact h2
    · exact h3
    · exact h4
    · exact h5
    · exact h6
    · exact h7
    · exact h8
  · rcases h9 with rfl|rfl|rfl|rfl|rfl|rfl|rfl|rfl|rfl
    · exact h9
    · exact h10
    · exact h11
    · exact h12
    · exact h13
    · exact h14
    · exact h15
    · exact h16
    · exact h17
  · rcases h9 with rfl|rfl|rfl|rfl|rfl|rfl|rfl|rfl|rfl
    · exact h18
    · exact h19
    · exact h20
    · exact h21
    · exact h22
    · exact h23
    · exact h24
    · exact h25
    · exact h26
  · rcases h9 with rfl|rfl|rfl|rfl|rfl|rfl|rfl|rfl|rfl
    · exact h27
    · exact h28
    · exact h29
    · exact h30
    · exact h31
    · exact h32
    · exact h33
    · exact h34
    · exact h35
  · rcases h9 with rfl|rfl|rfl|rfl|rfl|rfl|rfl|rfl|rfl
    · exact h36
    · exact h37
    · exact h38
    · exact h39
    · exact h40
    · exact h41
    · exact h42
    · exact h43
    · exact h44
  · rcases h9 with rfl|rfl|rfl|rfl|rfl|rfl|rfl|rfl|rfl
    · exact h45
    · exact h46
    · exact h47
    · exact h48
    · exact h49
    · exact h50
    · exact h51
    · exact h52
    · exact h53

/-- Source location of each sticker after the move F. -/
def srcF : Loc → Loc
  | (Face.up, 6) => (Face.left, 6)
  | (Face.up, 7) => (Face.left, 7)
  | (Face.up, 8) => (Face.left, 8)
  | (Face.down, 0) => (Face.right, 8)
  | (Face.down, 1) => (Face.right, 7)
  | (Face.down, 2) => (Face.right, 6)
  | (Face.left, 6) => (Face.down, 2)
  | (Face.left, 7) => (Face.down, 1)
  | (Face.left, 8) => (Face.down, 0)
  | (Face.right, 6) => (Face.up, 6)
  | (Face.right, 7) => (Face.up, 7)
  | (Face.right, 8) => (Face.up, 8)
  | (Face.front, 0) => (Face.front, 6)
  | (Face.front, 1) => (Face.front, 3)
  | (Face.front, 2) => (Face.front, 0)
  | (Face.front, 3) => (Face.front, 7)
  | (Face.front, 5) => (Face.front, 1)
  | (Face.front, 6) => (Face.front, 8)
  | (Face.front, 7) => (Face.front, 5)
  | (Face.front, 8) => (Face.front, 2)
  | l => l

set_option maxHeartbeats 1000000 in
theorem master_conj_F (c : Cube) :
    slotAt (c.frontTurn) (Face.up, 0) = slotAt c (Face.up, 0) ∧
    slotAt (c.frontTurn) (Face.up, 1) = slotAt c (Face.up, 1) ∧
    slotAt (c.frontTurn) (Face.up, 2) = slotAt c (Face.up, 2) ∧
    slotAt (c.frontTurn) (Face.up, 3) = slotAt c (Face.up, 3) ∧
    slotAt (c.frontTurn) (Face.up, 4) = slotAt c (Face.up, 4) ∧
    slotAt (c.frontTurn) (Face.up, 5) = slotAt c (Face.up, 5) ∧
    slotAt (c.frontTurn) (Face.up, 6) = slotAt c (Face.left, 6) ∧
    slotAt (c.frontTurn) (Face.up, 7) = slotAt c (Face.left, 7) ∧
    slotAt (c.frontTurn) (Face.up, 8) = slotAt c (Face.left, 8) ∧
    slotAt (c.frontTurn) (Face.down, 0) = slotAt c (Face.right, 8) ∧
    slotAt (c.frontTurn) (Face.down, 1) = slotAt c (Face.right, 7) ∧
    slotAt (c.frontTurn) (Face.down, 2) = slotAt c (Face.right, 6) ∧
    slotAt (c.frontTurn) (Face.down, 3) = slotAt c (Face.down, 3) ∧
    slotAt (c.frontTurn) (Face.down, 4) = slotAt c (Face.down, 4) ∧
    slotAt (c.frontTurn) (Face.down, 5) = slotAt c (Face.down, 5) ∧
    slotAt (c.frontTurn) (Face.down, 6) = slotAt c (Face.down, 6) ∧
    slotAt (c.frontTurn) (Face.down, 7) = slotAt c (Face.down, 7) ∧
    slotAt (c.frontTurn) (Face.down, 8) = slotAt c (Face.down, 8) ∧
    slotAt (c.frontTurn) (Face.left, 0) = slotAt c (Face.left, 0) ∧
    slotAt (c.frontTurn) (Face.left, 1) = slotAt c (Face.left, 1) ∧
    slotAt (c.frontTurn) (Face.left, 2) = slotAt c (Face.left, 2) ∧
    slotAt (c.frontTurn) (Face.left, 3) = slotAt c (Face.left, 3) ∧
    slotAt (c.frontTurn) (Face.left, 4) = slotAt c (Face.left, 4) ∧
    slotAt (c.frontTurn) (Face.left, 5) = slotAt c (Face.left, 5) ∧
    slotAt (c.frontTurn) (Face.left, 6) = slotAt c (Face.down, 2) ∧
    slotAt (c.frontTurn) (Face.left, 7) = slotAt c (Face.down, 1) ∧
    slotAt (c.frontTurn) (Face.left, 8) = slotAt c (Face.down, 0) ∧
    slotAt (c.frontTurn) (Face.right, 0) = slotAt c (Face.right, 0) ∧
    slotAt (c.frontTurn) (Face.right, 1) = slotAt c (Face.right, 1) ∧
    slotAt (c.frontTurn) (Face.right, 2) = slotAt c (Face.right, 2) ∧
    slotAt (c.frontTurn) (Face.right, 3) = slotAt c (Face.right, 3) ∧
    slotAt (c.frontTurn) (Face.right, 4) = slotAt c (Face.right, 4) ∧
    slotAt (c.frontTurn) (Face.right, 5) = slotAt c (Face.right, 5) ∧
    slotAt (c.frontTurn) (Face.right, 6) = slotAt c (Face.up, 6) ∧
    slotAt (c.frontTurn) (Face.right, 7) = slotAt c (Face.up, 7) ∧
    slotAt (c.frontTurn) (Face.right, 8) = slotAt c (Face.up, 8) ∧
    slotAt (c.frontTurn) (Face.front, 0) = slotAt c (Face.front, 6) ∧
    slotAt (c.frontTurn) (Face.front, 1) = slotAt c (Face.front, 3) ∧
    slotAt (c.frontTurn) (Face.front, 2) = slotAt c (Face.front, 0) ∧
    slotAt (c.frontTurn) (Face.front, 3) = slotAt c (Face.front, 7) ∧
    slotAt (c.frontTurn) (Face.front, 4) = slotAt c (Face.front, 4) ∧
    slotAt (c.frontTurn) (Face.front, 5) = slotAt c (Face.front, 1) ∧
    slotAt (c.frontTurn) (Face.front, 6) = slotAt c (Face.front, 8) ∧
    slotAt (c.frontTurn) (Face.front, 7) = slotAt c (Face.front, 5) ∧
    slotAt (c.frontTurn) (Face.front, 8) = slotAt c (Face.front, 2) ∧
    slotAt (c.frontTurn) (Face.back, 0) = slotAt c (Face.back, 0) ∧
    slotAt (c.frontTurn) (Face.back, 1) = slotAt c (Face.back, 1) ∧
    slotAt (c.frontTurn) (Face.back, 2) = slotAt c (Face.back, 2) ∧
    slotAt (c.frontTurn) (Face.back, 3) = slotAt c (Face.back, 3) ∧
    slotAt (c.frontTurn) (Face.back, 4) = slotAt c (Face.back, 4) ∧
    slotAt (c.frontTurn) (Face.back, 5) = slotAt c (Face.back, 5) ∧
    slotAt (c.frontTurn) (Face.back, 6) = slotAt c (Face.back, 6) ∧
    slotAt (c.frontTurn) (Face.back, 7) = slotAt c (Face.back, 7) ∧
    slotAt (c.frontTurn) (Face.back, 8) = slotAt c (Face.back, 8) := by
  simp only [slotAt, faceW, Cube.frontTurn, rotate_face, rotate_face_, rotate_face2,
      SHIFT2, SHIFT4, SHIFT6, SHIFT8,
      slot_lor, slot_shr2, slot_shr4, slot_shr6, slot_shr8,
      slot_shl2, slot_shl4, slot_shl6, slot_shl8,
      slot_land, slotV_M012, slotV_M036, slotV_M147, slotV_M258, slotV_M678,
      slotV_N012, slotV_N036, slotV_N147, slotV_N258, slotV_N678,
      slotV_P0, slotV_P1, slotV_P2, slotV_P3, slotV_P4, slotV_P5, slotV_P6,
      slotV_P7, slotV_P8, slotV_P05, slotV_P38, slotV_P16, slotV_P27,
      slot_and_seven, Nat.reduceAdd, Nat.reduceMul, Nat.reduceSub,
      Nat.reduceEqDiff, Nat.reduceLeDiff, Nat.reduceLT, reduceIte,
      or_true, true_or, false_or, or_false,
      Nat.and_zero, Nat.zero_and, Nat.or_zero, Nat.zero_or,
      eq_self_iff_true, and_self, and_true, true_and]

theorem master_F (c : Cube) (f : Face) (i : Nat) (hi : i < 9) :
    slotAt (c.frontTurn) (f, i) = slotAt c (srcF (f, i)) := by
  obtain ⟨h0, h1, h2, h3, h4, h5, h6, h7, h8, h9, h10, h11, h12, h13, h14, h15, h16, h17, h18, h19, h20, h21, h22, h23, h24, h25, h26, h27, h28, h29, h30, h31, h32, h33, h34, h35, h36, h37, h38, h39, h40, h41, h42, h43, h44, h45, h46, h47, h48, h49, h50, h51, h52, h53⟩ := master_conj_F c
  have h9 : i = 0 ∨ i = 1 ∨ i = 2 ∨ i = 3 ∨ i = 4 ∨ i = 5 ∨ i = 6 ∨ i = 7 ∨ i = 8 := by omega
  cases f
  · rcases h9 with rfl|rfl|rfl|rfl|rfl|rfl|rfl|rfl|rfl
    · exact h0
    · exact h1
    · exact h2
    · exact h3
    · exact h4
    · exact h5
    · exact h6
    · exact h7
    · exact h8
  · rcases h9 with rfl|rfl|rfl|rfl|rfl|rfl|rfl|rfl|rfl
    · exact h9
    · exact h10
    · exact h11
    · exact h12
    · exact h13
    · exact h14
    · exact h15
    · exact h16
    · exact h17
  · rcases h9 with rfl|rfl|rfl|rfl|rfl|rfl|rfl|rfl|rfl
    · exact h18
    · exact h19
    · exact h20
    · exact h21
    · exact h22
    · exact h23
    · exact h24
    · exact h25
    · exact h26
  · rcases h9 with rfl|rfl|rfl|rfl|rfl|rfl|rfl|rfl|rfl
    · exact h27
    · exact h28
    · exact h29
    · exact h30
    · exact h31
    · exact h32
    · exact h33
    · exact h34
    · exact h35
  · rcases h9 with rfl|rfl|rfl|rfl|rfl|rfl|rfl|rfl|rfl
    · exact h36
    · exact h37
    · exact h38
    · exact h39
    · exact h40
    · exact h41
    · exact h42
    · exact h43
    · exact h44
  · rcases h9 with rfl|rfl|rfl|rfl|rfl|rfl|rfl|rfl|rfl
    · exact h45
    · exact h46
    · exact h47
    · exact h48
    · exact h49
    · exact h50
    · exact h51
    · exact h52
    · exact h53

/-- Source location of each sticker after the move F_. -/
def srcF_ : Loc → Loc
  | (Face.up, 6) => (Face.right, 6)
  | (Face.up, 7) => (Face.right, 7)
  | (Face.up, 8) => (Face.right, 8)
  | (Face.down, 0) => (Face.left, 8)
  | (Face.down, 1) => (Face.left, 7)
  | (Face.down, 2) => (Face.left, 6)
  | (Face.left, 6) => (Face.up, 6)
  | (Face.left, 7) => (Face.up, 7)
  | (Face.left, 8) => (Face.up, 8)
  | (Face.right, 6) => (Face.down, 2)
  | (Face.right, 7) => (Face.down, 1)
  | (Face.right, 8) => (Face.down, 0)
  | (Face.front, 0) => (Face.front, 2)
  | (Face.front, 1) => (Face.front, 5)
  | (Face.front, 2) => (Face.front, 8)
  | (Face.front, 3) => (Face.front, 1)
  | (Face.front, 5) => (Face.front, 7)
  | (Face.front, 6) => (Face.front, 0)
  | (Face.front, 7) => (Face.front, 3)
  | (Face.front, 8) => (Face.front, 6)
  | l => l

set_option maxHeartbeats 1000000 in
theorem master_conj_F_ (c : Cube) :
    slotAt (c.frontTurn_) (Face.up, 0) = slotAt c (Face.up, 0) ∧
    slotAt (c.frontTurn_) (Face.up, 1) = slotAt c (Face.up, 1) ∧
    slotAt (c.frontTurn_) (Face.up, 2) = slotAt c (Face.up, 2) ∧
    slotAt (c.frontTurn_) (Face.up, 3) = slotAt c (Face.up, 3) ∧
    slotAt (c.frontTurn_) (Face.up, 4) = slotAt c (Face.up, 4) ∧
    slotAt (c.frontTurn_) (Face.up, 5) = slotAt c (Face.up, 5) ∧
    slotAt (c.frontTurn_) (Face.up, 6) = slotAt c (Face.right, 6) ∧
    slotAt (c.frontTurn_) (Face.up, 7) = slotAt c (Face.right, 7) ∧
    slotAt (c.frontTurn_) (Face.up, 8) = slotAt c (Face.right, 8) ∧
    slotAt (c.frontTurn_) (Face.down, 0) = slotAt c (Face.left, 8) ∧
    slotAt (c.frontTurn_) (Face.down, 1) = slotAt c (Face.left, 7) ∧
    slotAt (c.frontTurn_) (Face.down, 2) = slotAt c (Face.left, 6) ∧
    slotAt (c.frontTurn_) (Face.down, 3) = slotAt c (Face.down, 3) ∧
    slotAt (c.frontTurn_) (Face.down, 4) = slotAt c (Face.down, 4) ∧
    slotAt (c.frontTurn_) (Face.down, 5) = slotAt c (Face.down, 5) ∧
    slotAt (c.frontTurn_) (Face.down, 6) = slotAt c (Face.down, 6) ∧
    slotAt (c.frontTurn_) (Face.down, 7) = slotAt c (Face.down, 7) ∧
    slotAt (c.frontTurn_) (Face.down, 8) = slotAt c (Face.down, 8) ∧
    slotAt (c.frontTurn_) (Face.left, 0) = slotAt c (Face.left, 0) ∧
    slotAt (c.frontTurn_) (Face.left, 1) = slotAt c (Face.left, 1) ∧
    slotAt (c.frontTurn_) (Face.left, 2) = slotAt c (Face.left, 2) ∧
    slotAt (c.frontTurn_) (Face.left, 3) = slotAt c (Face.left, 3) ∧
    slotAt (c.frontTurn_) (Face.left, 4) = slotAt c (Face.left, 4) ∧
    slotAt (c.frontTurn_) (Face.left, 5) = slotAt c (Face.left, 5) ∧
    slotAt (c.frontTurn_) (Face.left, 6) = slotAt c (Face.up, 6) ∧
    slotAt (c.frontTurn_) (Face.left, 7) = slotAt c (Face.up, 7) ∧
    slotAt (c.frontTurn_) (Face.left, 8) = slotAt c (Face.up, 8) ∧
    slotAt (c.frontTurn_) (Face.right, 0) = slotAt c (Face.right, 0) ∧
    slotAt (c.frontTurn_) (Face.right, 1) = slotAt c (Face.right, 1) ∧
    slotAt (c.frontTurn_) (Face.right, 2) = slotAt c (Face.right, 2) ∧
    slotAt (c.frontTurn_) (Face.right, 3) = slotAt c (Face.right, 3) ∧
    slotAt (c.frontTurn_) (Face.right, 4) = slotAt c (Face.right, 4) ∧
    slotAt (c.frontTurn_) (Face.right, 5) = slotAt c (Face.right, 5) ∧
    slotAt (c.frontTurn_) (Face.right, 6) = slotAt c (Face.down, 2) ∧
    slotAt (c.frontTurn_) (Face.right, 7) = slotAt c (Face.down, 1) ∧
    slotAt (c.frontTurn_) (Face.right, 8) = slotAt c (Face.down, 0) ∧
    slotAt (c.frontTurn_) (Face.front, 0) = slotAt c (Face.front, 2) ∧
    slotAt (c.frontTurn_) (Face.front, 1) = slotAt c (Face.front, 5) ∧
    slotAt (c.frontTurn_) (Face.front, 2) = slotAt c (Face.front, 8) ∧
    slotAt (c.frontTurn_) (Face.front, 3) = slotAt c (Face.front, 1) ∧
    slotAt (c.frontTurn_) (Face.front, 4) = slotAt c (Face.front, 4) ∧
    slotAt (c.frontTurn_) (Face.front, 5) = slotAt c (Face.front, 7) ∧
    slotAt (c.frontTurn_) (Face.front, 6) = slotAt c (Face.front, 0) ∧
    slotAt (c.frontTurn_) (Face.front, 7) = slotAt c (Face.front, 3) ∧
    slotAt (c.frontTurn_) (Face.front, 8) = slotAt c (Face.front, 6) ∧
    slotAt (c.frontTurn_) (Face.back, 0) = slotAt c (Face.back, 0) ∧
    slotAt (c.frontTurn_) (Face.back, 1) = slotAt c (Face.back, 1) ∧
    slotAt (c.frontTurn_) (Face.back, 2) = slotAt c (Face.back, 2) ∧
    slotAt (c.frontTurn_) (Face.back, 3) = slotAt c (Face.back, 3) ∧
    slotAt (c.frontTurn_) (Face.back, 4) = slotAt c (Face.back, 4) ∧
    slotAt (c.frontTurn_) (Face.back, 5) = slotAt c (Face.back, 5) ∧
    slotAt (c.frontTurn_) (Face.back, 6) = slotAt c (Face.back, 6) ∧
    slotAt (c.frontTurn_) (Face.back, 7) = slotAt c (Face.back, 7) ∧
    slotAt (c.frontTurn_) (Face.back, 8) = slotAt c (Face.back, 8) := by
  simp only [slotAt, faceW, Cube.frontTurn_, rotate_face, rotate_face_, rotate_face2,
      SHIFT2, SHIFT4, SHIFT6, SHIFT8,
      slot_lor, slot_shr2, slot_shr4, slot_shr6, slot_shr8,
      slot_shl2, slot_shl4, slot_shl6, slot_shl8,
      slot_land, slotV_M012, slotV_M036, slotV_M147, slotV_M258, slotV_M678,
      slotV_N012, slotV_N036, slotV_N147, slotV_N258, slotV_N678,
      slotV_P0, slotV_P1, slotV_P2, slotV_P3, slotV_P4, slotV_P5, slotV_P6,
      slotV_P7, slotV_P8, slotV_P05, slotV_P38, slotV_P16, slotV_P27,
      slot_and_seven, Nat.reduceAdd, Nat.reduceMul, Nat.reduceSub,
      Nat.reduceEqDiff, Nat.reduceLeDiff, Nat.reduceLT, reduceIte,
      or_true, true_or, false_or, or_false,
      Nat.and_zero, Nat.zero_and, Nat.or_zero, Nat.zero_or,
      eq_self_iff_true, and_self, and_true, true_and]

theorem master_F_ (c : Cube) (f : Face) (i : Nat) (hi : i < 9) :
    slotAt (c.frontTurn_) (f, i) = slotAt c (srcF_ (f, i)) := by
  obtain ⟨h0, h1, h2, h3, h4, h5, h6, h7, h8, h9, h10, h11, h12, h13, h14, h15, h16, h17, h18, h19, h20, h21, h22, h23, h24, h25, h26, h27, h28, h29, h30, h31, h32, h33, h34, h35, h36, h37, h38, h39, h40, h41, h42, h43, h44, h45, h46, h47, h48, h49, h50, h51, h52, h53⟩ := master_conj_F_ c
  have h9 : i = 0 ∨ i = 1 ∨ i = 2 ∨ i = 3 ∨ i = 4 ∨ i = 5 ∨ i = 6 ∨ i = 7 ∨ i = 8 := by omega
  cases f
  · rcases h9 with rfl|rfl|rfl|rfl|rfl|rfl|rfl|rfl|rfl
    · exact h0
    · exact h1
    · exact h2
    · exact h3
    · exact h4
    · exact h5
    · exact h6
    · exact h7
    · exact h8
  · rcases h9 with rfl|rfl|rfl|rfl|rfl|rfl|rfl|rfl|rfl
    · exact h9
    · exact h10
    · exact h11
    · exact h12
    · exact h13
    · exact h14
    · exact h15
    · exact h16
    · exact h17
  · rcases h9 with rfl|rfl|rfl|rfl|rfl|rfl|rfl|rfl|rfl
    · exact h18
    · exact h19
    · exact h20
    · exact h21
    · exact h22
    · exact h23
    · exact h24
    · exact h25
    · exact h26
  · rcases h9 with rfl|rfl|rfl|rfl|rfl|rfl|rfl|rfl|rfl
    · exact h27
    · exact h28
    · exact h29
    · exact h30
    · exact h31
    · exact h32
    · exact h33
    · exact h34
    · exact h35
  · rcases h9 with rfl|rfl|rfl|rfl|rfl|rfl|rfl|rfl|rfl
    · exact h36
    · exact h37
    · exact h38
    · exact h39
    · exact h40
    · exact h41
    · exact h42
    · exact h43
    · exact h44
  · rcases h9 with rfl|rfl|rfl|rfl|rfl|rfl|rfl|rfl|rfl
    · exact h45
    · exact h46
    · exact h47
    · exact h48
    · exact h49
    · exact h50
    · exact h51
    · exact h52
    · exact h53

/-- Source location of each sticker after the move F2. -/
def srcF2 : Loc → Loc
  | (Face.up, 6) => (Face.down, 2)
  | (Face.up, 7) => (Face.down, 1)
  | (Face.up, 8) => (Face.down, 0)
  | (Face.down, 0) => (Face.up, 8)
  | (Face.down, 1) => (Face.up, 7)
  | (Face.down, 2) => (Face.up, 6)
  | (Face.left, 6) => (Face.right, 6)
  | (Face.left, 7) => (Face.right, 7)
  | (Face.left, 8) => (Face.right, 8)
  | (Face.right, 6) => (Face.left, 6)
  | (Face.right, 7) => (Face.left, 7)
  | (Face.right, 8) => (Face.left, 8)
  | (Face.front, 0) => (Face.front, 8)
  | (Face.front, 1) => (Face.front, 7)
  | (Face.front, 2) => (Face.front, 6)
  | (Face.front, 3) => (Face.front, 5)
  | (Face.front, 5) => (Face.front, 3)
  | (Face.front, 6) => (Face.front, 2)
  | (Face.front, 7) => (Face.front, 1)
  | (Face.front, 8) => (Face.front, 0)
  | l => l

set_option maxHeartbeats 1000000 in
theorem master_conj_F2 (c : Cube) :
    slotAt (c.frontTurn2) (Face.up, 0) = slotAt c (Face.up, 0) ∧
    slotAt (c.frontTurn2) (Face.up, 1) = slotAt c (Face.up, 1) ∧
    slotAt (c.frontTurn2) (Face.up, 2) = slotAt c (Face.up, 2) ∧
    slotAt (c.frontTurn2) (Face.up, 3) = slotAt c (Face.up, 3) ∧
    slotAt (c.frontTurn2) (Face.up, 4) = slotAt c (Face.up, 4) ∧
    slotAt (c.frontTurn2) (Face.up, 5) = slotAt c (Face.up, 5) ∧
    slotAt (c.frontTurn2) (Face.up, 6) = slotAt c (Face.down, 2) ∧
    slotAt (c.frontTurn2) (Face.up, 7) = slotAt c (Face.down, 1) ∧
    slotAt (c.frontTurn2) (Face.up, 8) = slotAt c (Face.down, 0) ∧
    slotAt (c.frontTurn2) (Face.down, 0) = slotAt c (Face.up, 8) ∧
    slotAt (c.frontTurn2) (Face.down, 1) = slotAt c (Face.up, 7) ∧
    slotAt (c.frontTurn2) (Face.down, 2) = slotAt c (Face.up, 6) ∧
    slotAt (c.frontTurn2) (Face.down, 3) = slotAt c (Face.down, 3) ∧
    slotAt (c.frontTurn2) (Face.down, 4) = slotAt c (Face.down, 4) ∧
    slotAt (c.frontTurn2) (Face.down, 5) = slotAt c (Face.down, 5) ∧
    slotAt (c.frontTurn2) (Face.down, 6) = slotAt c (Face.down, 6) ∧
    slotAt (c.frontTurn2) (Face.down, 7) = slotAt c (Face.down, 7) ∧
    slotAt (c.frontTurn2) (Face.down, 8) = slotAt c (Face.down, 8) ∧
    slotAt (c.frontTurn2) (Face.left, 0) = slotAt c (Face.left, 0) ∧
    slotAt (c.frontTurn2) (Face.left, 1) = slotAt c (Face.left, 1) ∧
    slotAt (c.frontTurn2) (Face.left, 2) = slotAt c (Face.left, 2) ∧
    slotAt (c.frontTurn2) (Face.left, 3) = slotAt c (Face.left, 3) ∧
    slotAt (c.frontTurn2) (Face.left, 4) = slotAt c (Face.left, 4) ∧
    slotAt (c.frontTurn2) (Face.left, 5) = slotAt c (Face.left, 5) ∧
    slotAt (c.frontTurn2) (Face.left, 6) = slotAt c (Face.right, 6) ∧
    slotAt (c.frontTurn2) (Face.left, 7) = slotAt c (Face.right, 7) ∧
    slotAt (c.frontTurn2) (Face.left, 8) = slotAt c (Face.right, 8) ∧
    slotAt (c.frontTurn2) (Face.right, 0) = slotAt c (Face.right, 0) ∧
    slotAt (c.frontTurn2) (Face.right, 1) = slotAt c (Face.right, 1) ∧
    slotAt (c.frontTurn2) (Face.right, 2) = slotAt c (Face.right, 2) ∧
    slotAt (c.frontTurn2) (Face.right, 3) = slotAt c (Face.right, 3) ∧
    slotAt (c.frontTurn2) (Face.right, 4) = slotAt c (Face.right, 4) ∧
    slotAt (c.frontTurn2) (Face.right, 5) = slotAt c (Face.right, 5) ∧
    slotAt (c.frontTurn2) (Face.right, 6) = slotAt c (Face.left, 6) ∧
    slotAt (c.frontTurn2) (Face.right, 7) = slotAt c (Face.left, 7) ∧
    slotAt (c.frontTurn2) (Face.right, 8) = slotAt c (Face.left, 8) ∧
    slotAt (c.frontTurn2) (Face.front, 0) = slotAt c (Face.front, 8) ∧
    slotAt (c.frontTurn2) (Face.front, 1) = slotAt c (Face.front, 7) ∧
    slotAt (c.frontTurn2) (Face.front, 2) = slotAt c (Face.front, 6) ∧
    slotAt (c.frontTurn2) (Face.front, 3) = slotAt c (Face.front, 5) ∧
    slotAt (c.frontTurn2) (Face.front, 4) = slotAt c (Face.front, 4) ∧
    slotAt (c.frontTurn2) (Face.front, 5) = slotAt c (Face.front, 3) ∧
    slotAt (c.frontTurn2) (Face.front, 6) = slotAt c (Face.front, 2) ∧
    slotAt (c.frontTurn2) (Face.front, 7) = slotAt c (Face.front, 1) ∧
    slotAt (c.frontTurn2) (Face.front, 8) = slotAt c (Face.front, 0) ∧
    slotAt (c.frontTurn2) (Face.back, 0) = slotAt c (Face.back, 0) ∧
    slotAt (c.frontTurn2) (Face.back, 1) = slotAt c (Face.back, 1) ∧
    slotAt (c.frontTurn2) (Face.back, 2) = slotAt c (Face.back, 2) ∧
    slotAt (c.frontTurn2) (Face.back, 3) = slotAt c (Face.back, 3) ∧
    slotAt (c.frontTurn2) (Face.back, 4) = slotAt c (Face.back, 4) ∧
    slotAt (c.frontTurn2) (Face.back, 5) = slotAt c (Face.back, 5) ∧
    slotAt (c.frontTurn2) (Face.back, 6) = slotAt c (Face.back, 6) ∧
    slotAt (c.frontTurn2) (Face.back, 7) = slotAt c (Face.back, 7) ∧
    slotAt (c.frontTurn2) (Face.back, 8) = slotAt c (Face.back, 8) := by
  simp only [slotAt, faceW, Cube.frontTurn2, rotate_face, rotate_face_, rotate_face2,
      SHIFT2, SHIFT4, SHIFT6, SHIFT8,
      slot_lor, slot_shr2, slot_shr4, slot_shr6, slot_shr8,
      slot_shl2, slot_shl4, slot_shl6, slot_shl8,
      slot_land, slotV_M012, slotV_M036, slotV_M147, slotV_M258, slotV_M678,
      slotV_N012, slotV_N036, slotV_N147, slotV_N258, slotV_N678,
      slotV_P0, slotV_P1, slotV_P2, slotV_P3, slotV_P4, slotV_P5, slotV_P6,
      slotV_P7, slotV_P8, slotV_P05, slotV_P38, slotV_P16, slotV_P27,
      slot_and_seven, Nat.reduceAdd, Nat.reduceMul, Nat.reduceSub,
      Nat.reduceEqDiff, Nat.reduceLeDiff, Nat.reduceLT, reduceIte,
      or_true, true_or, false_or, or_false,
      Nat.and_zero, Nat.zero_and, Nat.or_zero, Nat.zero_or,
      eq_self_iff_true, and_self, and_true, true_and]

theorem master_F2 (c : Cube) (f : Face) (i : Nat) (hi : i < 9) :
    slotAt (c.frontTurn2) (f, i) = slotAt c (srcF2 (f, i)) := by
  obtain ⟨h0, h1, h2, h3, h4, h5, h6, h7, h8, h9, h10, h11, h12, h13, h14, h15, h16, h17, h18, h19, h20, h21, h22, h23, h24, h25, h26, h27, h28, h29, h30, h31, h32, h33, h34, h35, h36, h37, h38, h39, h40, h41, h42, h43, h44, h45, h46, h47, h48, h49, h50, h51, h52, h53⟩ := master_conj_F2 c
  have h9 : i = 0 ∨ i = 1 ∨ i = 2 ∨ i = 3 ∨ i = 4 ∨ i = 5 ∨ i = 6 ∨ i = 7 ∨ i = 8 := by omega
  cases f
  · rcases h9 with rfl|rfl|rfl|rfl|rfl|rfl|rfl|rfl|rfl
    · exact h0
    · exact h1
    · exact h2
    · exact h3
    · exact h4
    · exact h5
    · exact h6
    · exact h7
    · exact h8
  · rcases h9 with rfl|rfl|rfl|rfl|rfl|rfl|rfl|rfl|rfl
    · exact h9
    · exact h10
    · exact h11
    · exact h12
    · exact h13
    · exact h14
    · exact h15
    · exact h16
    · exact h17
  · rcases h9 with rfl|rfl|rfl|rfl|rfl|rfl|rfl|rfl|rfl
    · exact h18
    · exact h19
    · exact h20
    · exact h21
    · exact h22
    · exact h23
    · exact h24
    · exact h25
    · exact h26
  · rcases h9 with rfl|rfl|rfl|rfl|rfl|rfl|rfl|rfl|rfl
    · exact h27
    · exact h28
    · exact h29
    · exact h30
    · exact h31
    · exact h32
    · exact h33
    · exact h34
    · exact h35
  · rcases h9 with rfl|rfl|rfl|rfl|rfl|rfl|rfl|rfl|rfl
    · exact h36
    · exact h37
    · exact h38
    · exact h39
    · exact h40
    · exact h41
    · exact h42
    · exact h43
    · exact h44
  · rcases h9 with rfl|rfl|rfl|rfl|rfl|rfl|rfl|rfl|rfl
    · exact h45
    · exact h46
    · exact h47
    · exact h48
    · exact h49
    · exact h50
    · exact h51
    · exact h52
    · exact h53

/-- Source location of each sticker after the move B. -/
def srcB : Loc → Loc
  | (Face.up, 0) => (Face.right, 0)
  | (Face.up, 1) => (Face.right, 1)
  | (Face.up, 2) => (Face.right, 2)
  | (Face.down, 6) => (Face.left, 2)
  | (Face.down, 7) => (Face.left, 1)
  | (Face.down, 8) => (Face.left, 0)
  | (Face.left, 0) => (Face.up, 0)
  | (Face.left, 1) => (Face.up, 1)
  | (Face.left, 2) => (Face.up, 2)
  | (Face.right, 0) => (Face.down, 8)
  | (Face.right, 1) => (Face.down, 7)
  | (Face.right, 2) => (Face.down, 6)
  | (Face.back, 0) => (Face.back, 6)
  | (Face.back, 1) => (Face.back, 3)
  | (Face.back, 2) => (Face.back, 0)
  | (Face.back, 3) => (Face.back, 7)
  | (Face.back, 5) => (Face.back, 1)
  | (Face.back, 6) => (Face.back, 8)
  | (Face.back, 7) => (Face.back, 5)
  | (Face.back, 8) => (Face.back, 2)
  | l => l

set_option maxHeartbeats 1000000 in
theorem master_conj_B (c : Cube) :
    slotAt (c.backTurn) (Face.up, 0) = slotAt c (Face.right, 0) ∧
    slotAt (c.backTurn) (Face.up, 1) = slotAt c (Face.right, 1) ∧
    slotAt (c.backTurn) (Face.up, 2) = slotAt c (Face.right, 2) ∧
    slotAt (c.backTurn) (Face.up, 3) = slotAt c (Face.up, 3) ∧
    slotAt (c.backTurn) (Face.up, 4) = slotAt c (Face.up, 4) ∧
    slotAt (c.backTurn) (Face.up, 5) = slotAt c (Face.up, 5) ∧
    slotAt (c.backTurn) (Face.up, 6) = slotAt c (Face.up, 6) ∧
    slotAt (c.backTurn) (Face.up, 7) = slotAt c (Face.up, 7) ∧
    slotAt (c.backTurn) (Face.up, 8) = slotAt c (Face.up, 8) ∧
    slotAt (c.backTurn) (Face.down, 0) = slotAt c (Face.down, 0) ∧
    slotAt (c.backTurn) (Face.down, 1) = slotAt c (Face.down, 1) ∧
    slotAt (c.backTurn) (Face.down, 2) = slotAt c (Face.down, 2) ∧
    slotAt (c.backTurn) (Face.down, 3) = slotAt c (Face.down, 3) ∧
    slotAt (c.backTurn) (Face.down, 4) = slotAt c (Face.down, 4) ∧
    slotAt (c.backTurn) (Face.down, 5) = slotAt c (Face.down, 5) ∧
    slotAt (c.backTurn) (Face.down, 6) = slotAt c (Face.left, 2) ∧
    slotAt (c.backTurn) (Face.down, 7) = slotAt c (Face.left, 1) ∧
    slotAt (c.backTurn) (Face.down, 8) = slotAt c (Face.left, 0) ∧
    slotAt (c.backTurn) (Face.left, 0) = slotAt c (Face.up, 0) ∧
    slotAt (c.backTurn) (Face.left, 1) = slotAt c (Face.up, 1) ∧
    slotAt (c.backTurn) (Face.left, 2) = slotAt c (Face.up, 2) ∧
    slotAt (c.backTurn) (Face.left, 3) = slotAt c (Face.left, 3) ∧
    slotAt (c.backTurn) (Face.left, 4) = slotAt c (Face.left, 4) ∧
    slotAt (c.backTurn) (Face.left, 5) = slotAt c (Face.left, 5) ∧
    slotAt (c.backTurn) (Face.left, 6) = slotAt c (Face.left, 6) ∧
    slotAt (c.backTurn) (Face.left, 7) = slotAt c (Face.left, 7) ∧
    slotAt (c.backTurn) (Face.left, 8) = slotAt c (Face.left, 8) ∧
    slotAt (c.backTurn) (Face.right, 0) = slotAt c (Face.down, 8) ∧
    slotAt (c.backTurn) (Face.right, 1) = slotAt c (Face.down, 7) ∧
    slotAt (c.backTurn) (Face.right, 2) = slotAt c (Face.down, 6) ∧
    slotAt (c.backTurn) (Face.right, 3) = slotAt c (Face.right, 3) ∧
    slotAt (c.backTurn) (Face.right, 4) = slotAt c (Face.right, 4) ∧
    slotAt (c.backTurn) (Face.right, 5) = slotAt c (Face.right, 5) ∧
    slotAt (c.backTurn) (Face.right, 6) = slotAt c (Face.right, 6) ∧
    slotAt (c.backTurn) (Face.right, 7) = slotAt c (Face.right, 7) ∧
    slotAt (c.backTurn) (Face.right, 8) = slotAt c (Face.right, 8) ∧
    slotAt (c.backTurn) (Face.front, 0) = slotAt c (Face.front, 0) ∧
    slotAt (c.backTurn) (Face.front, 1) = slotAt c (Face.front, 1) ∧
    slotAt (c.backTurn) (Face.front, 2) = slotAt c (Face.front, 2) ∧
    slotAt (c.backTurn) (Face.front, 3) = slotAt c (Face.front, 3) ∧
    slotAt (c.backTurn) (Face.front, 4) = slotAt c (Face.front, 4) ∧
    slotAt (c.backTurn) (Face.front, 5) = slotAt c (Face.front, 5) ∧
    slotAt (c.backTurn) (Face.front, 6) = slotAt c (Face.front, 6) ∧
    slotAt (c.backTurn) (Face.front, 7) = slotAt c (Face.front, 7) ∧
    slotAt (c.backTurn) (Face.front, 8) = slotAt c (Face.front, 8) ∧
    slotAt (c.backTurn) (Face.back, 0) = slotAt c (Face.back, 6) ∧
    slotAt (c.backTurn) (Face.back, 1) = slotAt c (Face.back, 3) ∧
    slotAt (c.backTurn) (Face.back, 2) = slotAt c (Face.back, 0) ∧
    slotAt (c.backTurn) (Face.back, 3) = slotAt c (Face.back, 7) ∧
    slotAt (c.backTurn) (Face.back, 4) = slotAt c (Face.back, 4) ∧
    slotAt (c.backTurn) (Face.back, 5) = slotAt c (Face.back, 1) ∧
    slotAt (c.backTurn) (Face.back, 6) = slotAt c (Face.back, 8) ∧
    slotAt (c.backTurn) (Face.back, 7) = slotAt c (Face.back, 5) ∧
    slotAt (c.backTurn) (Face.back, 8) = slotAt c (Face.back, 2) := by
  simp only [slotAt, faceW, Cube.backTurn, rotate_face, rotate_face_, rotate_face2,
      SHIFT2, SHIFT4, SHIFT6, SHIFT8,
      slot_lor, slot_shr2, slot_shr4, slot_shr6, slot_shr8,
      slot_shl2, slot_shl4, slot_shl6, slot_shl8,
      slot_land, slotV_M012, slotV_M036, slotV_M147, slotV_M258, slotV_M678,
      slotV_N012, slotV_N036, slotV_N147, slotV_N258, slotV_N678,
      slotV_P0, slotV_P1, slotV_P2, slotV_P3, slotV_P4, slotV_P5, slotV_P6,
      slotV_P7, slotV_P8, slotV_P05, slotV_P38, slotV_P16, slotV_P27,
      slot_and_seven, Nat.reduceAdd, Nat.reduceMul, Nat.reduceSub,
      Nat.reduceEqDiff, Nat.reduceLeDiff, Nat.reduceLT, reduceIte,
      or_true, true_or, false_or, or_false,
      Nat.and_zero, Nat.zero_and, Nat.or_zero, Nat.zero_or,
      eq_self_iff_true, and_self, and_true, true_and]

theorem master_B (c : Cube) (f : Face) (i : Nat) (hi : i < 9) :
    slotAt (c.backTurn) (f, i) = slotAt c (srcB (f, i)) := by
  obtain ⟨h0, h1, h2, h3, h4, h5, h6, h7, h8, h9, h10, h11, h12, h13, h14, h15, h16, h17, h18, h19, h20, h21, h22, h23, h24, h25, h26, h27, h28, h29, h30, h31, h32, h33, h34, h35, h36, h37, h38, h39, h40, h41, h42, h43, h44, h45, h46, h47, h48, h49, h50, h51, h52, h53⟩ := master_conj_B c
  have h9 : i = 0 ∨ i = 1 ∨ i = 2 ∨ i = 3 ∨ i = 4 ∨ i = 5 ∨ i = 6 ∨ i = 7 ∨ i = 8 := by omega
  cases f
  · rcases h9 with rfl|rfl|rfl|rfl|rfl|rfl|rfl|rfl|rfl
    · exact h0
    · exact h1
    · exact h2
    · exact h3
    · exact h4
    · exact h5
    · exact h6
    · exact h7
    · exact h8
  · rcases h9 with rfl|rfl|rfl|rfl|rfl|rfl|rfl|rfl|rfl
    · exact h9
    · exact h10
    · exact h11
    · exact h12
    · exact h13
    · exact h14
    · exact h15
    · exact h16
    · exact h17
  · rcases h9 with rfl|rfl|rfl|rfl|rfl|rfl|rfl|rfl|rfl
    · exact h18
    · exact h19
    · exact h20
    · exact h21
    · exact h22
    · exact h23
    · exact h24
    · exact h25
    · exact h26
  · rcases h9 with rfl|rfl|rfl|rfl|rfl|rfl|rfl|rfl|rfl
    · exact h27
    · exact h28
    · exact h29
    · exact h30
    · exact h31
    · exact h32
    · exact h33
    · exact h34
    · exact h35
  · rcases h9 with rfl|rfl|rfl|rfl|rfl|rfl|rfl|rfl|rfl
    · exact h36
    · exact h37
    · exact h38
    · exact h39
    · exact h40
    · exact h41
    · exact h42
    · exact h43
    · exact h44
  · rcases h9 with rfl|rfl|rfl|rfl|rfl|rfl|rfl|rfl|rfl
    · exact h45
    · exact h46
    · exact h47
    · exact h48
    · exact h49
    · exact h50
    · exact h51
    · exact h52
    · exact h53

/-- Source location of each sticker after the move B_. -/
def srcB_ : Loc → Loc
  | (Face.up, 0) => (Face.left, 0)
  | (Face.up, 1) => (Face.left, 1)
  | (Face.up, 2) => (Face.left, 2)
  | (Face.down, 6) => (Face.right, 2)
  | (Face.down, 7) => (Face.right, 1)
  | (Face.down, 8) => (Face.right, 0)
  | (Face.left, 0) => (Face.down, 8)
  | (Face.left, 1) => (Face.down, 7)
  | (Face.left, 2) => (Face.down, 6)
  | (Face.right, 0) => (Face.up, 0)
  | (Face.right, 1) => (Face.up, 1)
  | (Face.right, 2) => (Face.up, 2)
  | (Face.back, 0) => (Face.back, 2)
  | (Face.back, 1) => (Face.back, 5)
  | (Face.back, 2) => (Face.back, 8)
  | (Face.back, 3) => (Face.back, 1)
  | (Face.back, 5) => (Face.back, 7)
  | (Face.back, 6) => (Face.back, 0)
  | (Face.back, 7) => (Face.back, 3)
  | (Face.back, 8) => (Face.back, 6)
  | l => l

set_option maxHeartbeats 1000000 in
theorem master_conj_B_ (c : Cube) :
    slotAt (c.backTurn_) (Face.up, 0) = slotAt c (Face.left, 0) ∧
    slotAt (c.backTurn_) (Face.up, 1) = slotAt c (Face.left, 1) ∧
    slotAt (c.backTurn_) (Face.up, 2) = slotAt c (Face.left, 2) ∧
    slotAt (c.backTurn_) (Face.up, 3) = slotAt c (Face.up, 3) ∧
    slotAt (c.backTurn_) (Face.up, 4) = slotAt c (Face.up, 4) ∧
    slotAt (c.backTurn_) (Face.up, 5) = slotAt c (Face.up, 5) ∧
    slotAt (c.backTurn_) (Face.up, 6) = slotAt c (Face.up, 6) ∧
    slotAt (c.backTurn_) (Face.up, 7) = slotAt c (Face.up, 7) ∧
    slotAt (c.backTurn_) (Face.up, 8) = slotAt c (Face.up, 8) ∧
    slotAt (c.backTurn_) (Face.down, 0) = slotAt c (Face.down, 0) ∧
    slotAt (c.backTurn_) (Face.down, 1) = slotAt c (Face.down, 1) ∧
    slotAt (c.backTurn_) (Face.down, 2) = slotAt c (Face.down, 2) ∧
    slotAt (c.backTurn_) (Face.down, 3) = slotAt c (Face.down, 3) ∧
    slotAt (c.backTurn_) (Face.down, 4) = slotAt c (Face.down, 4) ∧
    slotAt (c.backTurn_) (Face.down, 5) = slotAt c (Face.down, 5) ∧
    slotAt (c.backTurn_) (Face.down, 6) = slotAt c (Face.right, 2) ∧
    slotAt (c.backTurn_) (Face.down, 7) = slotAt c (Face.right, 1) ∧
    slotAt (c.backTurn_) (Face.down, 8) = slotAt c (Face.right, 0) ∧
    slotAt (c.backTurn_) (Face.left, 0) = slotAt c (Face.down, 8) ∧
    slotAt (c.backTurn_) (Face.left, 1) = slotAt c (Face.down, 7) ∧
    slotAt (c.backTurn_) (Face.left, 2) = slotAt c (Face.down, 6) ∧
    slotAt (c.backTurn_) (Face.left, 3) = slotAt c (Face.left, 3) ∧
    slotAt (c.backTurn_) (Face.left, 4) = slotAt c (Face.left, 4) ∧
    slotAt (c.backTurn_) (Face.left, 5) = slotAt c (Face.left, 5) ∧
    slotAt (c.backTurn_) (Face.left, 6) = slotAt c (Face.left, 6) ∧
    slotAt (c.backTurn_) (Face.left, 7) = slotAt c (Face.left, 7) ∧
    slotAt (c.backTurn_) (Face.left, 8) = slotAt c (Face.left, 8) ∧
    slotAt (c.backTurn_) (Face.right, 0) = slotAt c (Face.up, 0) ∧
    slotAt (c.backTurn_) (Face.right, 1) = slotAt c (Face.up, 1) ∧
    slotAt (c.backTurn_) (Face.right, 2) = slotAt c (Face.up, 2) ∧
    slotAt (c.backTurn_) (Face.right, 3) = slotAt c (Face.right, 3) ∧
    slotAt (c.backTurn_) (Face.right, 4) = slotAt c (Face.right, 4) ∧
    slotAt (c.backTurn_) (Face.right, 5) = slotAt c (Face.right, 5) ∧
    slotAt (c.backTurn_) (Face.right, 6) = slotAt c (Face.right, 6) ∧
    slotAt (c.backTurn_) (Face.right, 7) = slotAt c (Face.right, 7) ∧
    slotAt (c.backTurn_) (Face.right, 8) = slotAt c (Face.right, 8) ∧
    slotAt (c.backTurn_) (Face.front, 0) = slotAt c (Face.front, 0) ∧
    slotAt (c.backTurn_) (Face.front, 1) = slotAt c (Face.front, 1) ∧
    slotAt (c.backTurn_) (Face.front, 2) = slotAt c (Face.front, 2) ∧
    slotAt (c.backTurn_) (Face.front, 3) = slotAt c (Face.front, 3) ∧
    slotAt (c.backTurn_) (Face.front, 4) = slotAt c (Face.front, 4) ∧
    slotAt (c.backTurn_) (Face.front, 5) = slotAt c (Face.front, 5) ∧
    slotAt (c.backTurn_) (Face.front, 6) = slotAt c (Face.front, 6) ∧
    slotAt (c.backTurn_) (Face.front, 7) = slotAt c (Face.front, 7) ∧
    slotAt (c.backTurn_) (Face.front, 8) = slotAt c (Face.front, 8) ∧
    slotAt (c.backTurn_) (Face.back, 0) = slotAt c (Face.back, 2) ∧
    slotAt (c.backTurn_) (Face.back, 1) = slotAt c (Face.back, 5) ∧
    slotAt (c.backTurn_) (Face.back, 2) = slotAt c (Face.back, 8) ∧
    slotAt (c.backTurn_) (Face.back, 3) = slotAt c (Face.back, 1) ∧
    slotAt (c.backTurn_) (Face.back, 4) = slotAt c (Face.back, 4) ∧
    slotAt (c.backTurn_) (Face.back, 5) = slotAt c (Face.back, 7) ∧
    slotAt (c.backTurn_) (Face.back, 6) = slotAt c (Face.back, 0) ∧
    slotAt (c.backTurn_) (Face.back, 7) = slotAt c (Face.back, 3) ∧
    slotAt (c.backTurn_) (Face.back, 8) = slotAt c (Face.back, 6) := by
  simp only [slotAt, faceW, Cube.backTurn_, rotate_face, rotate_face_, rotate_face2,
      SHIFT2, SHIFT4, SHIFT6, SHIFT8,
      slot_lor, slot_shr2, slot_shr4, slot_shr6, slot_shr8,
      slot_shl2, slot_shl4, slot_shl6, slot_shl8,
      slot_land, slotV_M012, slotV_M036, slotV_M147, slotV_M258, slotV_M678,
      slotV_N012, slotV_N036, slotV_N147, slotV_N258, slotV_N678,
      slotV_P0, slotV_P1, slotV_P2, slotV_P3, slotV_P4, slotV_P5, slotV_P6,
      slotV_P7, slotV_P8, slotV_P05, slotV_P38, slotV_P16, slotV_P27,
      slot_and_seven, Nat.reduceAdd, Nat.reduceMul, Nat.reduceSub,
      Nat.reduceEqDiff, Nat.reduceLeDiff, Nat.reduceLT, reduceIte,
      or_true, true_or, false_or, or_false,
      Nat.and_zero, Nat.zero_and, Nat.or_zero, Nat.zero_or,
      eq_self_iff_true, and_self, and_true, true_and]

theorem master_B_ (c : Cube) (f : Face) (i : Nat) (hi : i < 9) :
    slotAt (c.backTurn_) (f, i) = slotAt c (srcB_ (f, i)) := by
  obtain ⟨h0, h1, h2, h3, h4, h5, h6, h7, h8, h9, h10, h11, h12, h13, h14, h15, h16, h17, h18, h19, h20, h21, h22, h23, h24, h25, h26, h27, h28, h29, h30, h31, h32, h33, h34, h35, h36, h37, h38, h39, h40, h41, h42, h43, h44, h45, h46, h47, h48, h49, h50, h51, h52, h53⟩ := master_conj_B_ c
  have h9 : i = 0 ∨ i = 1 ∨ i = 2 ∨ i = 3 ∨ i = 4 ∨ i = 5 ∨ i = 6 ∨ i = 7 ∨ i = 8 := by omega
  cases f
  · rcases h9 with rfl|rfl|rfl|rfl|rfl|rfl|rfl|rfl|rfl
    · exact h0
    · exact h1
    · exact h2
    · exact h3
    · exact h4
    · exact h5
    · exact h6
    · exact h7
    · exact h8
  · rcases h9 with rfl|rfl|rfl|rfl|rfl|rfl|rfl|rfl|rfl
    · exact h9
    · exact h10
    · exact h11
    · exact h12
    · exact h13
    · exact h14
    · exact h15
    · exact h16
    · exact h17
  · rcases h9 with rfl|rfl|rfl|rfl|rfl|rfl|rfl|rfl|rfl
    · exact h18
    · exact h19
    · exact h20
    · exact h21
    · exact h22
    · exact h23
    · exact h24
    · exact h25
    · exact h26
  · rcases h9 with rfl|rfl|rfl|rfl|rfl|rfl|rfl|rfl|rfl
    · exact h27
    · exact h28
    · exact h29
    · exact h30
    · exact h31
    · exact h32
    · exact h33
    · exact h34
    · exact h35
  · rcases h9 with rfl|rfl|rfl|rfl|rfl|rfl|rfl|rfl|rfl
    · exact h36
    · exact h37
    · exact h38
    · exact h39
    · exact h40
    · exact h41
    · exact h42
    · exact h43
    · exact h44
  · rcases h9 with rfl|rfl|rfl|rfl|rfl|rfl|rfl|rfl|rfl
    · exact h45
    · exact h46
    · exact h47
    · exact h48
    · exact h49
    · exact h50
    · exact h51
    · exact h52
    · exact h53

/-- Source location of each sticker after the move B2. -/
def srcB2 : Loc → Loc
  | (Face.up, 0) => (Face.down, 8)
  | (Face.up, 1) => (Face.down, 7)
  | (Face.up, 2) => (Face.down, 6)
  | (Face.down, 6) => (Face.up, 2)
  | (Face.down, 7) => (Face.up, 1)
  | (Face.down, 8) => (Face.up, 0)
  | (Face.left, 0) => (Face.right, 0)
  | (Face.left, 1) => (Face.right, 1)
  | (Face.left, 2) => (Face.right, 2)
  | (Face.right, 0) => (Face.left, 0)
  | (Face.right, 1) => (Face.left, 1)
  | (Face.right, 2) => (Face.left, 2)
  | (Face.back, 0) => (Face.back, 8)
  | (Face.back, 1) => (Face.back, 7)
  | (Face.back, 2) => (Face.back, 6)
  | (Face.back, 3) => (Face.back, 5)
  | (Face.back, 5) => (Face.back, 3)
  | (Face.back, 6) => (Face.back, 2)
  | (Face.back, 7) => (Face.back, 1)
  | (Face.back, 8) => (Face.back, 0)
  | l => l

set_option maxHeartbeats 1000000 in
theorem master_conj_B2 (c : Cube) :
    slotAt (c.backTurn2) (Face.up, 0) = slotAt c (Face.down, 8) ∧
    slotAt (c.backTurn2) (Face.up, 1) = slotAt c (Face.down, 7) ∧
    slotAt (c.backTurn2) (Face.up, 2) = slotAt c (Face.down, 6) ∧
    slotAt (c.backTurn2) (Face.up, 3) = slotAt c (Face.up, 3) ∧
    slotAt (c.backTurn2) (Face.up, 4) = slotAt c (Face.up, 4) ∧
    slotAt (c.backTurn2) (Face.up, 5) = slotAt c (Face.up, 5) ∧
    slotAt (c.backTurn2) (Face.up, 6) = slotAt c (Face.up, 6) ∧
    slotAt (c.backTurn2) (Face.up, 7) = slotAt c (Face.up, 7) ∧
    slotAt (c.backTurn2) (Face.up, 8) = slotAt c (Face.up, 8) ∧
    slotAt (c.backTurn2) (Face.down, 0) = slotAt c (Face.down, 0) ∧
    slotAt (c.backTurn2) (Face.down, 1) = slotAt c (Face.down, 1) ∧
    slotAt (c.backTurn2) (Face.down, 2) = slotAt c (Face.down, 2) ∧
    slotAt (c.backTurn2) (Face.down, 3) = slotAt c (Face.down, 3) ∧
    slotAt (c.backTurn2) (Face.down, 4) = slotAt c (Face.down, 4) ∧
    slotAt (c.backTurn2) (Face.down, 5) = slotAt c (Face.down, 5) ∧
    slotAt (c.backTurn2) (Face.down, 6) = slotAt c (Face.up, 2) ∧
    slotAt (c.backTurn2) (Face.down, 7) = slotAt c (Face.up, 1) ∧
    slotAt (c.backTurn2) (Face.down, 8) = slotAt c (Face.up, 0) ∧
    slotAt (c.backTurn2) (Face.left, 0) = slotAt c (Face.right, 0) ∧
    slotAt (c.backTurn2) (Face.left, 1) = slotAt c (Face.right, 1) ∧
    slotAt (c.backTurn2) (Face.left, 2) = slotAt c (Face.right, 2) ∧
    slotAt (c.backTurn2) (Face.left, 3) = slotAt c (Face.left, 3) ∧
    slotAt (c.backTurn2) (Face.left, 4) = slotAt c (Face.left, 4) ∧
    slotAt (c.backTurn2) (Face.left, 5) = slotAt c (Face.left, 5) ∧
    slotAt (c.backTurn2) (Face.left, 6) = slotAt c (Face.left, 6) ∧
    slotAt (c.backTurn2) (Face.left, 7) = slotAt c (Face.left, 7) ∧
    slotAt (c.backTurn2) (Face.left, 8) = slotAt c (Face.left, 8) ∧
    slotAt (c.backTurn2) (Face.right, 0) = slotAt c (Face.left, 0) ∧
    slotAt (c.backTurn2) (Face.right, 1) = slotAt c (Face.left, 1) ∧
    slotAt (c.backTurn2) (Face.right, 2) = slotAt c (Face.left, 2) ∧
    slotAt (c.backTurn2) (Face.right, 3) = slotAt c (Face.right, 3) ∧
    slotAt (c.backTurn2) (Face.right, 4) = slotAt c (Face.right, 4) ∧
    slotAt (c.backTurn2) (Face.right, 5) = slotAt c (Face.right, 5) ∧
    slotAt (c.backTurn2) (Face.right, 6) = slotAt c (Face.right, 6) ∧
    slotAt (c.backTurn2) (Face.right, 7) = slotAt c (Face.right, 7) ∧
    slotAt (c.backTurn2) (Face.right, 8) = slotAt c (Face.right, 8) ∧
    slotAt (c.backTurn2) (Face.front, 0) = slotAt c (Face.front, 0) ∧
    slotAt (c.backTurn2) (Face.front, 1) = slotAt c (Face.front, 1) ∧
    slotAt (c.backTurn2) (Face.front, 2) = slotAt c (Face.front, 2) ∧
    slotAt (c.backTurn2) (Face.front, 3) = slotAt c (Face.front, 3) ∧
    slotAt (c.backTurn2) (Face.front, 4) = slotAt c (Face.front, 4) ∧
    slotAt (c.backTurn2) (Face.front, 5) = slotAt c (Face.front, 5) ∧
    slotAt (c.backTurn2) (Face.front, 6) = slotAt c (Face.front, 6) ∧
    slotAt (c.backTurn2) (Face.front, 7) = slotAt c (Face.front, 7) ∧
    slotAt (c.backTurn2) (Face.front, 8) = slotAt c (Face.front, 8) ∧
    slotAt (c.backTurn2) (Face.back, 0) = slotAt c (Face.back, 8) ∧
    slotAt (c.backTurn2) (Face.back, 1) = slotAt c (Face.back, 7) ∧
    slotAt (c.backTurn2) (Face.back, 2) = slotAt c (Face.back, 6) ∧
    slotAt (c.backTurn2) (Face.back, 3) = slotAt c (Face.back, 5) ∧
    slotAt (c.backTurn2) (Face.back, 4) = slotAt c (Face.back, 4) ∧
    slotAt (c.backTurn2) (Face.back, 5) = slotAt c (Face.back, 3) ∧
    slotAt (c.backTurn2) (Face.back, 6) = slotAt c (Face.back, 2) ∧
    slotAt (c.backTurn2) (Face.back, 7) = slotAt c (Face.back, 1) ∧
    slotAt (c.backTurn2) (Face.back, 8) = slotAt c (Face.back, 0) := by
  simp only [slotAt, faceW, Cube.backTurn2, rotate_face, rotate_face_, rotate_face2,
      SHIFT2, SHIFT4, SHIFT6, SHIFT8,
      slot_lor, slot_shr2, slot_shr4, slot_shr6, slot_shr8,
      slot_shl2, slot_shl4, slot_shl6, slot_shl8,
      slot_land, slotV_M012, slotV_M036, slotV_M147, slotV_M258, slotV_M678,
      slotV_N012, slotV_N036, slotV_N147, slotV_N258, slotV_N678,
      slotV_P0, slotV_P1, slotV_P2, slotV_P3, slotV_P4, slotV_P5, slotV_P6,
      slotV_P7, slotV_P8, slotV_P05, slotV_P38, slotV_P16, slotV_P27,
      slot_and_seven, Nat.reduceAdd, Nat.reduceMul, Nat.reduceSub,
      Nat.reduceEqDiff, Nat.reduceLeDiff, Nat.reduceLT, reduceIte,
      or_true, true_or, false_or, or_false,
      Nat.and_zero, Nat.zero_and, Nat.or_zero, Nat.zero_or,
      eq_self_iff_true, and_self, and_true, true_and]

theorem master_B2 (c : Cube) (f : Face) (i : Nat) (hi : i < 9) :
    slotAt (c.backTurn2) (f, i) = slotAt c (srcB2 (f, i)) := by
  obtain ⟨h0, h1, h2, h3, h4, h5, h6, h7, h8, h9, h10, h11, h12, h13, h14, h15, h16, h17, h18, h19, h20, h21, h22, h23, h24, h25, h26, h27, h28, h29, h30, h31, h32, h33, h34, h35, h36, h37, h38, h39, h40, h41, h42, h43, h44, h45, h46, h47, h48, h49, h50, h51, h52, h53⟩ := master_conj_B2 c
  have h9 : i = 0 ∨ i = 1 ∨ i = 2 ∨ i = 3 ∨ i = 4 ∨ i = 5 ∨ i = 6 ∨ i = 7 ∨ i = 8 := by omega
  cases f
  · rcases h9 with rfl|rfl|rfl|rfl|rfl|rfl|rfl|rfl|rfl
    · exact h0
    · exact h1
    · exact h2
    · exact h3
    · exact h4
    · exact h5
    · exact h6
    · exact h7
    · exact h8
  · rcases h9 with rfl|rfl|rfl|rfl|rfl|rfl|rfl|rfl|rfl
    · exact h9
    · exact h10
    · exact h11
    · exact h12
    · exact h13
    · exact h14
    · exact h15
    · exact h16
    · exact h17
  · rcases h9 with rfl|rfl|rfl|rfl|rfl|rfl|rfl|rfl|rfl
    · exact h18
    · exact h19
    · exact h20
    · exact h21
    · exact h22
    · exact h23
    · exact h24
    · exact h25
    · exact h26
  · rcases h9 with rfl|rfl|rfl|rfl|rfl|rfl|rfl|rfl|rfl
    · exact h27
    · exact h28
    · exact h29
    · exact h30
    · exact h31
    · exact h32
    · exact h33
    · exact h34
    · exact h35
  · rcases h9 with rfl|rfl|rfl|rfl|rfl|rfl|rfl|rfl|rfl
    · exact h36
    · exact h37
    · exact h38
    · exact h39
    · exact h40
    · exact h41
    · exact h42
    · exact h43
    · exact h44
  · rcases h9 with rfl|rfl|rfl|rfl|rfl|rfl|rfl|rfl|rfl
    · exact h45
    · exact h46
    · exact h47
    · exact h48
    · exact h49
    · exact h50
    · exact h51
    · exact h52
    · exact h53

/-- Source location of each sticker after the move U. -/
def srcU : Loc → Loc
  | (Face.up, 0) => (Face.up, 6)
  | (Face.up, 1) => (Face.up, 3)
  | (Face.up, 2) => (Face.up, 0)
  | (Face.up, 3) => (Face.up, 7)
  | (Face.up, 5) => (Face.up, 1)
  | (Face.up, 6) => (Face.up, 8)
  | (Face.up, 7) => (Face.up, 5)
  | (Face.up, 8) => (Face.up, 2)
  | (Face.left, 2) => (Face.front, 0)
  | (Face.left, 5) => (Face.front, 1)
  | (Face.left, 8) => (Face.front, 2)
  | (Face.right, 0) => (Face.back, 6)
  | (Face.right, 3) => (Face.back, 7)
  | (Face.right, 6) => (Face.back, 8)
  | (Face.front, 0) => (Face.right, 6)
  | (Face.front, 1) => (Face.right, 3)
  | (Face.front, 2) => (Face.right, 0)
  | (Face.back, 6) => (Face.left, 8)
  | (Face.back, 7) => (Face.left, 5)
  | (Face.back, 8) => (Face.left, 2)
  | l => l

set_option maxHeartbeats 1000000 in
theorem master_conj_U (c : Cube) :
    slotAt (c.upTurn) (Face.up, 0) = slotAt c (Face.up, 6) ∧
    slotAt (c.upTurn) (Face.up, 1) = slotAt c (Face.up, 3) ∧
    slotAt (c.upTurn) (Face.up, 2) = slotAt c (Face.up, 0) ∧
    slotAt (c.upTurn) (Face.up, 3) = slotAt c (Face.up, 7) ∧
    slotAt (c.upTurn) (Face.up, 4) = slotAt c (Face.up, 4) ∧
    slotAt (c.upTurn) (Face.up, 5) = slotAt c (Face.up, 1) ∧
    slotAt (c.upTurn) (Face.up, 6) = slotAt c (Face.up, 8) ∧
    slotAt (c.upTurn) (Face.up, 7) = slotAt c (Face.up, 5) ∧
    slotAt (c.upTurn) (Face.up, 8) = slotAt c (Face.up, 2) ∧
    slotAt (c.upTurn) (Face.down, 0) = slotAt c (Face.down, 0) ∧
    slotAt (c.upTurn) (Face.down, 1) = slotAt c (Face.down, 1) ∧
    slotAt (c.upTurn) (Face.down, 2) = slotAt c (Face.down, 2) ∧
    slotAt (c.upTurn) (Face.down, 3) = slotAt c (Face.down, 3) ∧
    slotAt (c.upTurn) (Face.down, 4) = slotAt c (Face.down, 4) ∧
    slotAt (c.upTurn) (Face.down, 5) = slotAt c (Face.down, 5) ∧
    slotAt (c.upTurn) (Face.down, 6) = slotAt c (Face.down, 6) ∧
    slotAt (c.upTurn) (Face.down, 7) = slotAt c (Face.down, 7) ∧
    slotAt (c.upTurn) (Face.down, 8) = slotAt c (Face.down, 8) ∧
    slotAt (c.upTurn) (Face.left, 0) = slotAt c (Face.left, 0) ∧
    slotAt (c.upTurn) (Face.left, 1) = slotAt c (Face.left, 1) ∧
    slotAt (c.upTurn) (Face.left, 2) = slotAt c (Face.front, 0) ∧
    slotAt (c.upTurn) (Face.left, 3) = slotAt c (Face.left, 3) ∧
    slotAt (c.upTurn) (Face.left, 4) = slotAt c (Face.left, 4) ∧
    slotAt (c.upTurn) (Face.left, 5) = slotAt c (Face.front, 1) ∧
    slotAt (c.upTurn) (Face.left, 6) = slotAt c (Face.left, 6) ∧
    slotAt (c.upTurn) (Face.left, 7) = slotAt c (Face.left, 7) ∧
    slotAt (c.upTurn) (Face.left, 8) = slotAt c (Face.front, 2) ∧
    slotAt (c.upTurn) (Face.right, 0) = slotAt c (Face.back, 6) ∧
    slotAt (c.upTurn) (Face.right, 1) = slotAt c (Face.right, 1) ∧
    slotAt (c.upTurn) (Face.right, 2) = slotAt c (Face.right, 2) ∧
    slotAt (c.upTurn) (Face.right, 3) = slotAt c (Face.back, 7) ∧
    slotAt (c.upTurn) (Face.right, 4) = slotAt c (Face.right, 4) ∧
    slotAt (c.upTurn) (Face.right, 5) = slotAt c (Face.right, 5) ∧
    slotAt (c.upTurn) (Face.right, 6) = slotAt c (Face.back, 8) ∧
    slotAt (c.upTurn) (Face.right, 7) = slotAt c (Face.right, 7) ∧
    slotAt (c.upTurn) (Face.right, 8) = slotAt c (Face.right, 8) ∧
    slotAt (c.upTurn) (Face.front, 0) = slotAt c (Face.right, 6) ∧
    slotAt (c.upTurn) (Face.front, 1) = slotAt c (Face.right, 3) ∧
    slotAt (c.upTurn) (Face.front, 2) = slotAt c (Face.right, 0) ∧
    slotAt (c.upTurn) (Face.front, 3) = slotAt c (Face.front, 3) ∧
    slotAt (c.upTurn) (Face.front, 4) = slotAt c (Face.front, 4) ∧
    slotAt (c.upTurn) (Face.front, 5) = slotAt c (Face.front, 5) ∧
    slotAt (c.upTurn) (Face.front, 6) = slotAt c (Face.front, 6) ∧
    slotAt (c.upTurn) (Face.front, 7) = slotAt c (Face.front, 7) ∧
    slotAt (c.upTurn) (Face.front, 8) = slotAt c (Face.front, 8) ∧
    slotAt (c.upTurn) (Face.back, 0) = slotAt c (Face.back, 0) ∧
    slotAt (c.upTurn) (Face.back, 1) = slotAt c (Face.back, 1) ∧
    slotAt (c.upTurn) (Face.back, 2) = slotAt c (Face.back, 2) ∧
    slotAt (c.upTurn) (Face.back, 3) = slotAt c (Face.back, 3) ∧
    slotAt (c.upTurn) (Face.back, 4) = slotAt c (Face.back, 4) ∧
    slotAt (c.upTurn) (Face.back, 5) = slotAt c (Face.back, 5) ∧
    slotAt (c.upTurn) (Face.back, 6) = slotAt c (Face.left, 8) ∧
    slotAt (c.upTurn) (Face.back, 7) = slotAt c (Face.left, 5) ∧
    slotAt (c.upTurn) (Face.back, 8) = slotAt c (Face.left, 2) := by
  simp only [slotAt, faceW, Cube.upTurn, rotate_face, rotate_face_, rotate_face2,
      SHIFT2, SHIFT4, SHIFT6, SHIFT8,
      slot_lor, slot_shr2, slot_shr4, slot_shr6, slot_shr8,
      slot_shl2, slot_shl4, slot_shl6, slot_shl8,
      slot_land, slotV_M012, slotV_M036, slotV_M147, slotV_M258, slotV_M678,
      slotV_N012, slotV_N036, slotV_N147, slotV_N258, slotV_N678,
      slotV_P0, slotV_P1, slotV_P2, slotV_P3, slotV_P4, slotV_P5, slotV_P6,
      slotV_P7, slotV_P8, slotV_P05, slotV_P38, slotV_P16, slotV_P27,
      slot_and_seven, Nat.reduceAdd, Nat.reduceMul, Nat.reduceSub,
      Nat.reduceEqDiff, Nat.reduceLeDiff, Nat.reduceLT, reduceIte,
      or_true, true_or, false_or, or_false,
      Nat.and_zero, Nat.zero_and, Nat.or_zero, Nat.zero_or,
      eq_self_iff_true, and_self, and_true, true_and]

theorem master_U (c : Cube) (f : Face) (i : Nat) (hi : i < 9) :
    slotAt (c.upTurn) (f, i) = slotAt c (srcU (f, i)) := by
  obtain ⟨h0, h1, h2, h3, h4, h5, h6, h7, h8, h9, h10, h11, h12, h13, h14, h15, h16, h17, h18, h19, h20, h21, h22, h23, h24, h25, h26, h27, h28, h29, h30, h31, h32, h33, h34, h35, h36, h37, h38, h39, h40, h41, h42, h43, h44, h45, h46, h47, h48, h49, h50, h51, h52, h53⟩ := master_conj_U c
  have h9 : i = 0 ∨ i = 1 ∨ i = 2 ∨ i = 3 ∨ i = 4 ∨ i = 5 ∨ i = 6 ∨ i = 7 ∨ i = 8 := by omega
  cases f
  · rcases h9 with rfl|rfl|rfl|rfl|rfl|rfl|rfl|rfl|rfl
    · exact h0
    · exact h1
    · exact h2
    · exact h3
    · exact h4
    · exact h5
    · exact h6
    · exact h7
    · exact h8
  · rcases h9 with rfl|rfl|rfl|rfl|rfl|rfl|rfl|rfl|rfl
    · exact h9
    · exact h10
    · exact h11
    · exact h12
    · exact h13
    · exact h14
    · exact h15
    · exact h16
    · exact h17
  · rcases h9 with rfl|rfl|rfl|rfl|rfl|rfl|rfl|rfl|rfl
    · exact h18
    · exact h19
    · exact h20
    · exact h21
    · exact h22
    · exact h23
    · exact h24
    · exact h25
    · exact h26
  · rcases h9 with rfl|rfl|rfl|rfl|rfl|rfl|rfl|rfl|rfl
    · exact h27
    · exact h28
    · exact h29
    · exact h30
    · exact h31
    · exact h32
    · exact h33
    · exact h34
    · exact h35
  · rcases h9 with rfl|rfl|rfl|rfl|rfl|rfl|rfl|rfl|rfl
    · exact h36
    · exact h37
    · exact h38
    · exact h39
    · exact h40
    · exact h41
    · exact h42
    · exact h43
    · exact h44
  · rcases h9 with rfl|rfl|rfl|rfl|rfl|rfl|rfl|rfl|rfl
    · exact h45
    · exact h46
    · exact h47
    · exact h48
    · exact h49
    · exact h50
    · exact h51
    · exact h52
    · exact h53

/-- Source location of each sticker after the move U_. -/
def srcU_ : Loc → Loc
  | (Face.up, 0) => (Face.up, 2)
  | (Face.up, 1) => (Face.up, 5)
  | (Face.up, 2) => (Face.up, 8)
  | (Face.up, 3) => (Face.up, 1)
  | (Face.up, 5) => (Face.up, 7)
  | (Face.up, 6) => (Face.up, 0)
  | (Face.up, 7) => (Face.up, 3)
  | (Face.up, 8) => (Face.up, 6)
  | (Face.left, 2) => (Face.back, 8)
  | (Face.left, 5) => (Face.back, 7)
  | (Face.left, 8) => (Face.back, 6)
  | (Face.right, 0) => (Face.front, 2)
  | (Face.right, 3) => (Face.front, 1)
  | (Face.right, 6) => (Face.front, 0)
  | (Face.front, 0) => (Face.left, 2)
  | (Face.front, 1) => (Face.left, 5)
  | (Face.front, 2) => (Face.left, 8)
  | (Face.back, 6) => (Face.right, 0)
  | (Face.back, 7) => (Face.right, 3)
  | (Face.back, 8) => (Face.right, 6)
  | l => l

set_option maxHeartbeats 1000000 in
theorem master_conj_U_ (c : Cube) :
    slotAt (c.upTurn_) (Face.up, 0) = slotAt c (Face.up, 2) ∧
    slotAt (c.upTurn_) (Face.up, 1) = slotAt c (Face.up, 5) ∧
    slotAt (c.upTurn_) (Face.up, 2) = slotAt c (Face.up, 8) ∧
    slotAt (c.upTurn_) (Face.up, 3) = slotAt c (Face.up, 1) ∧
    slotAt (c.upTurn_) (Face.up, 4) = slotAt c (Face.up, 4) ∧
    slotAt (c.upTurn_) (Face.up, 5) = slotAt c (Face.up, 7) ∧
    slotAt (c.upTurn_) (Face.up, 6) = slotAt c (Face.up, 0) ∧
    slotAt (c.upTurn_) (Face.up, 7) = slotAt c (Face.up, 3) ∧
    slotAt (c.upTurn_) (Face.up, 8) = slotAt c (Face.up, 6) ∧
    slotAt (c.upTurn_) (Face.down, 0) = slotAt c (Face.down, 0) ∧
    slotAt (c.upTurn_) (Face.down, 1) = slotAt c (Face.down, 1) ∧
    slotAt (c.upTurn_) (Face.down, 2) = slotAt c (Face.down, 2) ∧
    slotAt (c.upTurn_) (Face.down, 3) = slotAt c (Face.down, 3) ∧
    slotAt (c.upTurn_) (Face.down, 4) = slotAt c (Face.down, 4) ∧
    slotAt (c.upTurn_) (Face.down, 5) = slotAt c (Face.down, 5) ∧
    slotAt (c.upTurn_) (Face.down, 6) = slotAt c (Face.down, 6) ∧
    slotAt (c.upTurn_) (Face.down, 7) = slotAt c (Face.down, 7) ∧
    slotAt (c.upTurn_) (Face.down, 8) = slotAt c (Face.down, 8) ∧
    slotAt (c.upTurn_) (Face.left, 0) = slotAt c (Face.left, 0) ∧
    slotAt (c.upTurn_) (Face.left, 1) = slotAt c (Face.left, 1) ∧
    slotAt (c.upTurn_) (Face.left, 2) = slotAt c (Face.back, 8) ∧
    slotAt (c.upTurn_) (Face.left, 3) = slotAt c (Face.left, 3) ∧
    slotAt (c.upTurn_) (Face.left, 4) = slotAt c (Face.left, 4) ∧
    slotAt (c.upTurn_) (Face.left, 5) = slotAt c (Face.back, 7) ∧
    slotAt (c.upTurn_) (Face.left, 6) = slotAt c (Face.left, 6) ∧
    slotAt (c.upTurn_) (Face.left, 7) = slotAt c (Face.left, 7) ∧
    slotAt (c.upTurn_) (Face.left, 8) = slotAt c (Face.back, 6) ∧
    slotAt (c.upTurn_) (Face.right, 0) = slotAt c (Face.front, 2) ∧
    slotAt (c.upTurn_) (Face.right, 1) = slotAt c (Face.right, 1) ∧
    slotAt (c.upTurn_) (Face.right, 2) = slotAt c (Face.right, 2) ∧
    slotAt (c.upTurn_) (Face.right, 3) = slotAt c (Face.front, 1) ∧
    slotAt (c.upTurn_) (Face.right, 4) = slotAt c (Face.right, 4) ∧
    slotAt (c.upTurn_) (Face.right, 5) = slotAt c (Face.right, 5) ∧
    slotAt (c.upTurn_) (Face.right, 6) = slotAt c (Face.front, 0) ∧
    slotAt (c.upTurn_) (Face.right, 7) = slotAt c (Face.right, 7) ∧
    slotAt (c.upTurn_) (Face.right, 8) = slotAt c (Face.right, 8) ∧
    slotAt (c.upTurn_) (Face.front, 0) = slotAt c (Face.left, 2) ∧
    slotAt (c.upTurn_) (Face.front, 1) = slotAt c (Face.left, 5) ∧
    slotAt (c.upTurn_) (Face.front, 2) = slotAt c (Face.left, 8) ∧
    slotAt (c.upTurn_) (Face.front, 3) = slotAt c (Face.front, 3) ∧
    slotAt (c.upTurn_) (Face.front, 4) = slotAt c (Face.front, 4) ∧
    slotAt (c.upTurn_) (Face.front, 5) = slotAt c (Face.front, 5) ∧
    slotAt (c.upTurn_) (Face.front, 6) = slotAt c (Face.front, 6) ∧
    slotAt (c.upTurn_) (Face.front, 7) = slotAt c (Face.front, 7) ∧
    slotAt (c.upTurn_) (Face.front, 8) = slotAt c (Face.front, 8) ∧
    slotAt (c.upTurn_) (Face.back, 0) = slotAt c (Face.back, 0) ∧
    slotAt (c.upTurn_) (Face.back, 1) = slotAt c (Face.back, 1) ∧
    slotAt (c.upTurn_) (Face.back, 2) = slotAt c (Face.back, 2) ∧
    slotAt (c.upTurn_) (Face.back, 3) = slotAt c (Face.back, 3) ∧
    slotAt (c.upTurn_) (Face.back, 4) = slotAt c (Face.back, 4) ∧
    slotAt (c.upTurn_) (Face.back, 5) = slotAt c (Face.back, 5) ∧
    slotAt (c.upTurn_) (Face.back, 6) = slotAt c (Face.right, 0) ∧
    slotAt (c.upTurn_) (Face.back, 7) = slotAt c (Face.right, 3) ∧
    slotAt (c.upTurn_) (Face.back, 8) = slotAt c (Face.right, 6) := by
  simp only [slotAt, faceW, Cube.upTurn_, rotate_face, rotate_face_, rotate_face2,
      SHIFT2, SHIFT4, SHIFT6, SHIFT8,
      slot_lor, slot_shr2, slot_shr4, slot_shr6, slot_shr8,
      slot_shl2, slot_shl4, slot_shl6, slot_shl8,
      slot_land, slotV_M012, slotV_M036, slotV_M147, slotV_M258, slotV_M678,
      slotV_N012, slotV_N036, slotV_N147, slotV_N258, slotV_N678,
      slotV_P0, slotV_P1, slotV_P2, slotV_P3, slotV_P4, slotV_P5, slotV_P6,
      slotV_P7, slotV_P8, slotV_P05, slotV_P38, slotV_P16, slotV_P27,
      slot_and_seven, Nat.reduceAdd, Nat.reduceMul, Nat.reduceSub,
      Nat.reduceEqDiff, Nat.reduceLeDiff, Nat.reduceLT, reduceIte,
      or_true, true_or, false_or, or_false,
      Nat.and_zero, Nat.zero_and, Nat.or_zero, Nat.zero_or,
      eq_self_iff_true, and_self, and_true, true_and]

theorem master_U_ (c : Cube) (f : Face) (i : Nat) (hi : i < 9) :
    slotAt (c.upTurn_) (f, i) = slotAt c (srcU_ (f, i)) := by
  obtain ⟨h0, h1, h2, h3, h4, h5, h6, h7, h8, h9, h10, h11, h12, h13, h14, h15, h16, h17, h18, h19, h20, h21, h22, h23, h24, h25, h26, h27, h28, h29, h30, h31, h32, h33, h34, h35, h36, h37, h38, h39, h40, h41, h42, h43, h44, h45, h46, h47, h48, h49, h50, h51, h52, h53⟩ := master_conj_U_ c
  have h9 : i = 0 ∨ i = 1 ∨ i = 2 ∨ i = 3 ∨ i = 4 ∨ i = 5 ∨ i = 6 ∨ i = 7 ∨ i = 8 := by omega
  cases f
  · rcases h9 with rfl|rfl|rfl|rfl|rfl|rfl|rfl|rfl|rfl
    · exact h0
    · exact h1
    · exact h2
    · exact h3
    · exact h4
    · exact h5
    · exact h6
    · exact h7
    · exact h8
  · rcases h9 with rfl|rfl|rfl|rfl|rfl|rfl|rfl|rfl|rfl
    · exact h9
    · exact h10
    · exact h11
    · exact h12
    · exact h13
    · exact h14
    · exact h15
    · exact h16
    · exact h17
  · rcases h9 with rfl|rfl|rfl|rfl|rfl|rfl|rfl|rfl|rfl
    · exact h18
    · exact h19
    · exact h20
    · exact h21
    · exact h22
    · exact h23
    · exact h24
    · exact h25
    · exact h26
  · rcases h9 with rfl|rfl|rfl|rfl|rfl|rfl|rfl|rfl|rfl
    · exact h27
    · exact h28
    · exact h29
    · exact h30
    · exact h31
    · exact h32
    · exact h33
    · exact h34
    · exact h35
  · rcases h9 with rfl|rfl|rfl|rfl|rfl|rfl|rfl|rfl|rfl
    · exact h36
    · exact h37
    · exact h38
    · exact h39
    · exact h40
    · exact h41
    · exact h42
    · exact h43
    · exact h44
  · rcases h9 with rfl|rfl|rfl|rfl|rfl|rfl|rfl|rfl|rfl
    · exact h45
    · exact h46
    · exact h47
    · exact h48
    · exact h49
    · exact h50
    · exact h51
    · exact h52
    · exact h53

/-- Source location of each sticker after the move U2. -/
def srcU2 : Loc → Loc
  | (Face.up, 0) => (Face.up, 8)
  | (Face.up, 1) => (Face.up, 7)
  | (Face.up, 2) => (Face.up, 6)
  | (Face.up, 3) => (Face.up, 5)
  | (Face.up, 5) => (Face.up, 3)
  | (Face.up, 6) => (Face.up, 2)
  | (Face.up, 7) => (Face.up, 1)
  | (Face.up, 8) => (Face.up, 0)
  | (Face.left, 2) => (Face.right, 6)
  | (Face.left, 5) => (Face.right, 3)
  | (Face.left, 8) => (Face.right, 0)
  | (Face.right, 0) => (Face.left, 8)
  | (Face.right, 3) => (Face.left, 5)
  | (Face.right, 6) => (Face.left, 2)
  | (Face.front, 0) => (Face.back, 8)
  | (Face.front, 1) => (Face.back, 7)
  | (Face.front, 2) => (Face.back, 6)
  | (Face.back, 6) => (Face.front, 2)
  | (Face.back, 7) => (Face.front, 1)
  | (Face.back, 8) => (Face.front, 0)
  | l => l

set_option maxHeartbeats 1000000 in
theorem master_conj_U2 (c : Cube) :
    slotAt (c.upTurn2) (Face.up, 0) = slotAt c (Face.up, 8) ∧
    slotAt (c.upTurn2) (Face.up, 1) = slotAt c (Face.up, 7) ∧
    slotAt (c.upTurn2) (Face.up, 2) = slotAt c (Face.up, 6) ∧
    slotAt (c.upTurn2) (Face.up, 3) = slotAt c (Face.up, 5) ∧
    slotAt (c.upTurn2) (Face.up, 4) = slotAt c (Face.up, 4) ∧
    slotAt (c.upTurn2) (Face.up, 5) = slotAt c (Face.up, 3) ∧
    slotAt (c.upTurn2) (Face.up, 6) = slotAt c (Face.up, 2) ∧
    slotAt (c.upTurn2) (Face.up, 7) = slotAt c (Face.up, 1) ∧
    slotAt (c.upTurn2) (Face.up, 8) = slotAt c (Face.up, 0) ∧
    slotAt (c.upTurn2) (Face.down, 0) = slotAt c (Face.down, 0) ∧
    slotAt (c.upTurn2) (Face.down, 1) = slotAt c (Face.down, 1) ∧
    slotAt (c.upTurn2) (Face.down, 2) = slotAt c (Face.down, 2) ∧
    slotAt (c.upTurn2) (Face.down, 3) = slotAt c (Face.down, 3) ∧
    slotAt (c.upTurn2) (Face.down, 4) = slotAt c (Face.down, 4) ∧
    slotAt (c.upTurn2) (Face.down, 5) = slotAt c (Face.down, 5) ∧
    slotAt (c.upTurn2) (Face.down, 6) = slotAt c (Face.down, 6) ∧
    slotAt (c.upTurn2) (Face.down, 7) = slotAt c (Face.down, 7) ∧
    slotAt (c.upTurn2) (Face.down, 8) = slotAt c (Face.down, 8) ∧
    slotAt (c.upTurn2) (Face.left, 0) = slotAt c (Face.left, 0) ∧
    slotAt (c.upTurn2) (Face.left, 1) = slotAt c (Face.left, 1) ∧
    slotAt (c.upTurn2) (Face.left, 2) = slotAt c (Face.right, 6) ∧
    slotAt (c.upTurn2) (Face.left, 3) = slotAt c (Face.left, 3) ∧
    slotAt (c.upTurn2) (Face.left, 4) = slotAt c (Face.left, 4) ∧
    slotAt (c.upTurn2) (Face.left, 5) = slotAt c (Face.right, 3) ∧
    slotAt (c.upTurn2) (Face.left, 6) = slotAt c (Face.left, 6) ∧
    slotAt (c.upTurn2) (Face.left, 7) = slotAt c (Face.left, 7) ∧
    slotAt (c.upTurn2) (Face.left, 8) = slotAt c (Face.right, 0) ∧
    slotAt (c.upTurn2) (Face.right, 0) = slotAt c (Face.left, 8) ∧
    slotAt (c.upTurn2) (Face.right, 1) = slotAt c (Face.right, 1) ∧
    slotAt (c.upTurn2) (Face.right, 2) = slotAt c (Face.right, 2) ∧
    slotAt (c.upTurn2) (Face.right, 3) = slotAt c (Face.left, 5) ∧
    slotAt (c.upTurn2) (Face.right, 4) = slotAt c (Face.right, 4) ∧
    slotAt (c.upTurn2) (Face.right, 5) = slotAt c (Face.right, 5) ∧
    slotAt (c.upTurn2) (Face.right, 6) = slotAt c (Face.left, 2) ∧
    slotAt (c.upTurn2) (Face.right, 7) = slotAt c (Face.right, 7) ∧
    slotAt (c.upTurn2) (Face.right, 8) = slotAt c (Face.right, 8) ∧
    slotAt (c.upTurn2) (Face.front, 0) = slotAt c (Face.back, 8) ∧
    slotAt (c.upTurn2) (Face.front, 1) = slotAt c (Face.back, 7) ∧
    slotAt (c.upTurn2) (Face.front, 2) = slotAt c (Face.back, 6) ∧
    slotAt (c.upTurn2) (Face.front, 3) = slotAt c (Face.front, 3) ∧
    slotAt (c.upTurn2) (Face.front, 4) = slotAt c (Face.front, 4) ∧
    slotAt (c.upTurn2) (Face.front, 5) = slotAt c (Face.front, 5) ∧
    slotAt (c.upTurn2) (Face.front, 6) = slotAt c (Face.front, 6) ∧
    slotAt (c.upTurn2) (Face.front, 7) = slotAt c (Face.front, 7) ∧
    slotAt (c.upTurn2) (Face.front, 8) = slotAt c (Face.front, 8) ∧
    slotAt (c.upTurn2) (Face.back, 0) = slotAt c (Face.back, 0) ∧
    slotAt (c.upTurn2) (Face.back, 1) = slotAt c (Face.back, 1) ∧
    slotAt (c.upTurn2) (Face.back, 2) = slotAt c (Face.back, 2) ∧
    slotAt (c.upTurn2) (Face.back, 3) = slotAt c (Face.back, 3) ∧
    slotAt (c.upTurn2) (Face.back, 4) = slotAt c (Face.back, 4) ∧
    slotAt (c.upTurn2) (Face.back, 5) = slotAt c (Face.back, 5) ∧
    slotAt (c.upTurn2) (Face.back, 6) = slotAt c (Face.front, 2) ∧
    slotAt (c.upTurn2) (Face.back, 7) = slotAt c (Face.front, 1) ∧
    slotAt (c.upTurn2) (Face.back, 8) = slotAt c (Face.front, 0) := by
  simp only [slotAt, faceW, Cube.upTurn2, rotate_face, rotate_face_, rotate_face2,
      SHIFT2, SHIFT4, SHIFT6, SHIFT8,
      slot_lor, slot_shr2, slot_shr4, slot_shr6, slot_shr8,
      slot_shl2, slot_shl4, slot_shl6, slot_shl8,
      slot_land, slotV_M012, slotV_M036, slotV_M147, slotV_M258, slotV_M678,
      slotV_N012, slotV_N036, slotV_N147, slotV_N258, slotV_N678,
      slotV_P0, slotV_P1, slotV_P2, slotV_P3, slotV_P4, slotV_P5, slotV_P6,
      slotV_P7, slotV_P8, slotV_P05, slotV_P38, slotV_P16, slotV_P27,
      slot_and_seven, Nat.reduceAdd, Nat.reduceMul, Nat.reduceSub,
      Nat.reduceEqDiff, Nat.reduceLeDiff, Nat.reduceLT, reduceIte,
      or_true, true_or, false_or, or_false,
      Nat.and_zero, Nat.zero_and, Nat.or_zero, Nat.zero_or,
      eq_self_iff_true, and_self, and_true, true_and]

theorem master_U2 (c : Cube) (f : Face) (i : Nat) (hi : i < 9) :
    slotAt (c.upTurn2) (f, i) = slotAt c (srcU2 (f, i)) := by
  obtain ⟨h0, h1, h2, h3, h4, h5, h6, h7, h8, h9, h10, h11, h12, h13, h14, h15, h16, h17, h18, h19, h20, h21, h22, h23, h24, h25, h26, h27, h28, h29, h30, h31, h32, h33, h34, h35, h36, h37, h38, h39, h40, h41, h42, h43, h44, h45, h46, h47, h48, h49, h50, h51, h52, h53⟩ := master_conj_U2 c
  have h9 : i = 0 ∨ i = 1 ∨ i = 2 ∨ i = 3 ∨ i = 4 ∨ i = 5 ∨ i = 6 ∨ i = 7 ∨ i = 8 := by omega
  cases f
  · rcases h9 with rfl|rfl|rfl|rfl|rfl|rfl|rfl|rfl|rfl
    · exact h0
    · exact h1
    · exact h2
    · exact h3
    · exact h4
    · exact h5
    · exact h6
    · exact h7
    · exact h8
  · rcases h9 with rfl|rfl|rfl|rfl|rfl|rfl|rfl|rfl|rfl
    · exact h9
    · exact h10
    · exact h11
    · exact h12
    · exact h13
    · exact h14
    · exact h15
    · exact h16
    · exact h17
  · rcases h9 with rfl|rfl|rfl|rfl|rfl|rfl|rfl|rfl|rfl
    · exact h18
    · exact h19
    · exact h20
    · exact h21
    · exact h22
    · exact h23
    · exact h24
    · exact h25
    · exact h26
  · rcases h9 with rfl|rfl|rfl|rfl|rfl|rfl|rfl|rfl|rfl
    · exact h27
    · exact h28
    · exact h29
    · exact h30
    · exact h31
    · exact h32
    · exact h33
    · exact h34
    · exact h35
  · rcases h9 with rfl|rfl|rfl|rfl|rfl|rfl|rfl|rfl|rfl
    · exact h36
    · exact h37
    · exact h38
    · exact h39
    · exact h40
    · exact h41
    · exact h42
    · exact h43
    · exact h44
  · rcases h9 with rfl|rfl|rfl|rfl|rfl|rfl|rfl|rfl|rfl
    · exact h45
    · exact h46
    · exact h47
    · exact h48
    · exact h49
    · exact h50
    · exact h51
    · exact h52
    · exact h53

/-- Source location of each sticker after the move D. -/
def srcD : Loc → Loc
  | (Face.down, 0) => (Face.down, 6)
  | (Face.down, 1) => (Face.down, 3)
  | (Face.down, 2) => (Face.down, 0)
  | (Face.down, 3) => (Face.down, 7)
  | (Face.down, 5) => (Face.down, 1)
  | (Face.down, 6) => (Face.down, 8)
  | (Face.down, 7) => (Face.down, 5)
  | (Face.down, 8) => (Face.down, 2)
  | (Face.left, 0) => (Face.back, 2)
  | (Face.left, 3) => (Face.back, 1)
  | (Face.left, 6) => (Face.back, 0)
  | (Face.right, 2) => (Face.front, 8)
  | (Face.right, 5) => (Face.front, 7)
  | (Face.right, 8) => (Face.front, 6)
  | (Face.front, 6) => (Face.left, 0)
  | (Face.front, 7) => (Face.left, 3)
  | (Face.front, 8) => (Face.left, 6)
  | (Face.back, 0) => (Face.right, 2)
  | (Face.back, 1) => (Face.right, 5)
  | (Face.back, 2) => (Face.right, 8)
  | l => l

set_option maxHeartbeats 1000000 in
theorem master_conj_D (c : Cube) :
    slotAt (c.downTurn) (Face.up, 0) = slotAt c (Face.up, 0) ∧
    slotAt (c.downTurn) (Face.up, 1) = slotAt c (Face.up, 1) ∧
    slotAt (c.downTurn) (Face.up, 2) = slotAt c (Face.up, 2) ∧
    slotAt (c.downTurn) (Face.up, 3) = slotAt c (Face.up, 3) ∧
    slotAt (c.downTurn) (Face.up, 4) = slotAt c (Face.up, 4) ∧
    slotAt (c.downTurn) (Face.up, 5) = slotAt c (Face.up, 5) ∧
    slotAt (c.downTurn) (Face.up, 6) = slotAt c (Face.up, 6) ∧
    slotAt (c.downTurn) (Face.up, 7) = slotAt c (Face.up, 7) ∧
    slotAt (c.downTurn) (Face.up, 8) = slotAt c (Face.up, 8) ∧
    slotAt (c.downTurn) (Face.down, 0) = slotAt c (Face.down, 6) ∧
    slotAt (c.downTurn) (Face.down, 1) = slotAt c (Face.down, 3) ∧
    slotAt (c.downTurn) (Face.down, 2) = slotAt c (Face.down, 0) ∧
    slotAt (c.downTurn) (Face.down, 3) = slotAt c (Face.down, 7) ∧
    slotAt (c.downTurn) (Face.down, 4) = slotAt c (Face.down, 4) ∧
    slotAt (c.downTurn) (Face.down, 5) = slotAt c (Face.down, 1) ∧
    slotAt (c.downTurn) (Face.down, 6) = slotAt c (Face.down, 8) ∧
    slotAt (c.downTurn) (Face.down, 7) = slotAt c (Face.down, 5) ∧
    slotAt (c.downTurn) (Face.down, 8) = slotAt c (Face.down, 2) ∧
    slotAt (c.downTurn) (Face.left, 0) = slotAt c (Face.back, 2) ∧
    slotAt (c.downTurn) (Face.left, 1) = slotAt c (Face.left, 1) ∧
    slotAt (c.downTurn) (Face.left, 2) = slotAt c (Face.left, 2) ∧
    slotAt (c.downTurn) (Face.left, 3) = slotAt c (Face.back, 1) ∧
    slotAt (c.downTurn) (Face.left, 4) = slotAt c (Face.left, 4) ∧
    slotAt (c.downTurn) (Face.left, 5) = slotAt c (Face.left, 5) ∧
    slotAt (c.downTurn) (Face.left, 6) = slotAt c (Face.back, 0) ∧
    slotAt (c.downTurn) (Face.left, 7) = slotAt c (Face.left, 7) ∧
    slotAt (c.downTurn) (Face.left, 8) = slotAt c (Face.left, 8) ∧
    slotAt (c.downTurn) (Face.right, 0) = slotAt c (Face.right, 0) ∧
    slotAt (c.downTurn) (Face.right, 1) = slotAt c (Face.right, 1) ∧
    slotAt (c.downTurn) (Face.right, 2) = slotAt c (Face.front, 8) ∧
    slotAt (c.downTurn) (Face.right, 3) = slotAt c (Face.right, 3) ∧
    slotAt (c.downTurn) (Face.right, 4) = slotAt c (Face.right, 4) ∧
    slotAt (c.downTurn) (Face.right, 5) = slotAt c (Face.front, 7) ∧
    slotAt (c.downTurn) (Face.right, 6) = slotAt c (Face.right, 6) ∧
    slotAt (c.downTurn) (Face.right, 7) = slotAt c (Face.right, 7) ∧
    slotAt (c.downTurn) (Face.right, 8) = slotAt c (Face.front, 6) ∧
    slotAt (c.downTurn) (Face.front, 0) = slotAt c (Face.front, 0) ∧
    slotAt (c.downTurn) (Face.front, 1) = slotAt c (Face.front, 1) ∧
    slotAt (c.downTurn) (Face.front, 2) = slotAt c (Face.front, 2) ∧
    slotAt (c.downTurn) (Face.front, 3) = slotAt c (Face.front, 3) ∧
    slotAt (c.downTurn) (Face.front, 4) = slotAt c (Face.front, 4) ∧
    slotAt (c.downTurn) (Face.front, 5) = slotAt c (Face.front, 5) ∧
    slotAt (c.downTurn) (Face.front, 6) = slotAt c (Face.left, 0) ∧
    slotAt (c.downTurn) (Face.front, 7) = slotAt c (Face.left, 3) ∧
    slotAt (c.downTurn) (Face.front, 8) = slotAt c (Face.left, 6) ∧
    slotAt (c.downTurn) (Face.back, 0) = slotAt c (Face.right, 2) ∧
    slotAt (c.downTurn) (Face.back, 1) = slotAt c (Face.right, 5) ∧
    slotAt (c.downTurn) (Face.back, 2) = slotAt c (Face.right, 8) ∧
    slotAt (c.downTurn) (Face.back, 3) = slotAt c (Face.back, 3) ∧
    slotAt (c.downTurn) (Face.back, 4) = slotAt c (Face.back, 4) ∧
    slotAt (c.downTurn) (Face.back, 5) = slotAt c (Face.back, 5) ∧
    slotAt (c.downTurn) (Face.back, 6) = slotAt c (Face.back, 6) ∧
    slotAt (c.downTurn) (Face.back, 7) = slotAt c (Face.back, 7) ∧
    slotAt (c.downTurn) (Face.back, 8) = slotAt c (Face.back, 8) := by
  simp only [slotAt, faceW, Cube.downTurn, rotate_face, rotate_face_, rotate_face2,
      SHIFT2, SHIFT4, SHIFT6, SHIFT8,
      slot_lor, slot_shr2, slot_shr4, slot_shr6, slot_shr8,
      slot_shl2, slot_shl4, slot_shl6, slot_shl8,
      slot_land, slotV_M012, slotV_M036, slotV_M147, slotV_M258, slotV_M678,
      slotV_N012, slotV_N036, slotV_N147, slotV_N258, slotV_N678,
      slotV_P0, slotV_P1, slotV_P2, slotV_P3, slotV_P4, slotV_P5, slotV_P6,
      slotV_P7, slotV_P8, slotV_P05, slotV_P38, slotV_P16, slotV_P27,
      slot_and_seven, Nat.reduceAdd, Nat.reduceMul, Nat.reduceSub,
      Nat.reduceEqDiff, Nat.reduceLeDiff, Nat.reduceLT, reduceIte,
      or_true, true_or, false_or, or_false,
      Nat.and_zero, Nat.zero_and, Nat.or_zero, Nat.zero_or,
      eq_self_iff_true, and_self, and_true, true_and]

theorem master_D (c : Cube) (f : Face) (i : Nat) (hi : i < 9) :
    slotAt (c.downTurn) (f, i) = slotAt c (srcD (f, i)) := by
  obtain ⟨h0, h1, h2, h3, h4, h5, h6, h7, h8, h9, h10, h11, h12, h13, h14, h15, h16, h17, h18, h19, h20, h21, h22, h23, h24, h25, h26, h27, h28, h29, h30, h31, h32, h33, h34, h35, h36, h37, h38, h39, h40, h41, h42, h43, h44, h45, h46, h47, h48, h49, h50, h51, h52, h53⟩ := master_conj_D c
  have h9 : i = 0 ∨ i = 1 ∨ i = 2 ∨ i = 3 ∨ i = 4 ∨ i = 5 ∨ i = 6 ∨ i = 7 ∨ i = 8 := by omega
  cases f
  · rcases h9 with rfl|rfl|rfl|rfl|rfl|rfl|rfl|rfl|rfl
    · exact h0
    · exact h1
    · exact h2
    · exact h3
    · exact h4
    · exact h5
    · exact h6
    · exact h7
    · exact h8
  · rcases h9 with rfl|rfl|rfl|rfl|rfl|rfl|rfl|rfl|rfl
    · exact h9
    · exact h10
    · exact h11
    · exact h12
    · exact h13
    · exact h14
    · exact h15
    · exact h16
    · exact h17
  · rcases h9 with rfl|rfl|rfl|rfl|rfl|rfl|rfl|rfl|rfl
    · exact h18
    · exact h19
    · exact h20
    · exact h21
    · exact h22
    · exact h23
    · exact h24
    · exact h25
    · exact h26
  · rcases h9 with rfl|rfl|rfl|rfl|rfl|rfl|rfl|rfl|rfl
    · exact h27
    · exact h28
    · exact h29
    · exact h30
    · exact h31
    · exact h32
    · exact h33
    · exact h34
    · exact h35
  · rcases h9 with rfl|rfl|rfl|rfl|rfl|rfl|rfl|rfl|rfl
    · exact h36
    · exact h37
    · exact h38
    · exact h39
    · exact h40
    · exact h41
    · exact h42
    · exact h43
    · exact h44
  · rcases h9 with rfl|rfl|rfl|rfl|rfl|rfl|rfl|rfl|rfl
    · exact h45
    · exact h46
    · exact h47
    · exact h48
    · exact h49
    · exact h50
    · exact h51
    · exact h52
    · exact h53

/-- Source location of each sticker after the move D_. -/
def srcD_ : Loc → Loc
  | (Face.down, 0) => (Face.down, 2)
  | (Face.down, 1) => (Face.down, 5)
  | (Face.down, 2) => (Face.down, 8)
  | (Face.down, 3) => (Face.down, 1)
  | (Face.down, 5) => (Face.down, 7)
  | (Face.down, 6) => (Face.down, 0)
  | (Face.down, 7) => (Face.down, 3)
  | (Face.down, 8) => (Face.down, 6)
  | (Face.left, 0) => (Face.front, 6)
  | (Face.left, 3) => (Face.front, 7)
  | (Face.left, 6) => (Face.front, 8)
  | (Face.right, 2) => (Face.back, 0)
  | (Face.right, 5) => (Face.back, 1)
  | (Face.right, 8) => (Face.back, 2)
  | (Face.front, 6) => (Face.right, 8)
  | (Face.front, 7) => (Face.right, 5)
  | (Face.front, 8) => (Face.right, 2)
  | (Face.back, 0) => (Face.left, 6)
  | (Face.back, 1) => (Face.left, 3)
  | (Face.back, 2) => (Face.left, 0)
  | l => l

set_option maxHeartbeats 1000000 in
theorem master_conj_D_ (c : Cube) :
    slotAt (c.downTurn_) (Face.up, 0) = slotAt c (Face.up, 0) ∧
    slotAt (c.downTurn_) (Face.up, 1) = slotAt c (Face.up, 1) ∧
    slotAt (c.downTurn_) (Face.up, 2) = slotAt c (Face.up, 2) ∧
    slotAt (c.downTurn_) (Face.up, 3) = slotAt c (Face.up, 3) ∧
    slotAt (c.downTurn_) (Face.up, 4) = slotAt c (Face.up, 4) ∧
    slotAt (c.downTurn_) (Face.up, 5) = slotAt c (Face.up, 5) ∧
    slotAt (c.downTurn_) (Face.up, 6) = slotAt c (Face.up, 6) ∧
    slotAt (c.downTurn_) (Face.up, 7) = slotAt c (Face.up, 7) ∧
    slotAt (c.downTurn_) (Face.up, 8) = slotAt c (Face.up, 8) ∧
    slotAt (c.downTurn_) (Face.down, 0) = slotAt c (Face.down, 2) ∧
    slotAt (c.downTurn_) (Face.down, 1) = slotAt c (Face.down, 5) ∧
    slotAt (c.downTurn_) (Face.down, 2) = slotAt c (Face.down, 8) ∧
    slotAt (c.downTurn_) (Face.down, 3) = slotAt c (Face.down, 1) ∧
    slotAt (c.downTurn_) (Face.down, 4) = slotAt c (Face.down, 4) ∧
    slotAt (c.downTurn_) (Face.down, 5) = slotAt c (Face.down, 7) ∧
    slotAt (c.downTurn_) (Face.down, 6) = slotAt c (Face.down, 0) ∧
    slotAt (c.downTurn_) (Face.down, 7) = slotAt c (Face.down, 3) ∧
    slotAt (c.downTurn_) (Face.down, 8) = slotAt c (Face.down, 6) ∧
    slotAt (c.downTurn_) (Face.left, 0) = slotAt c (Face.front, 6) ∧
    slotAt (c.downTurn_) (Face.left, 1) = slotAt c (Face.left, 1) ∧
    slotAt (c.downTurn_) (Face.left, 2) = slotAt c (Face.left, 2) ∧
    slotAt (c.downTurn_) (Face.left, 3) = slotAt c (Face.front, 7) ∧
    slotAt (c.downTurn_) (Face.left, 4) = slotAt c (Face.left, 4) ∧
    slotAt (c.downTurn_) (Face.left, 5) = slotAt c (Face.left, 5) ∧
    slotAt (c.downTurn_) (Face.left, 6) = slotAt c (Face.front, 8) ∧
    slotAt (c.downTurn_) (Face.left, 7) = slotAt c (Face.left, 7) ∧
    slotAt (c.downTurn_) (Face.left, 8) = slotAt c (Face.left, 8) ∧
    slotAt (c.downTurn_) (Face.right, 0) = slotAt c (Face.right, 0) ∧
    slotAt (c.downTurn_) (Face.right, 1) = slotAt c (Face.right, 1) ∧
    slotAt (c.downTurn_) (Face.right, 2) = slotAt c (Face.back, 0) ∧
    slotAt (c.downTurn_) (Face.right, 3) = slotAt c (Face.right, 3) ∧
    slotAt (c.downTurn_) (Face.right, 4) = slotAt c (Face.right, 4) ∧
    slotAt (c.downTurn_) (Face.right, 5) = slotAt c (Face.back, 1) ∧
    slotAt (c.downTurn_) (Face.right, 6) = slotAt c (Face.right, 6) ∧
    slotAt (c.downTurn_) (Face.right, 7) = slotAt c (Face.right, 7) ∧
    slotAt (c.downTurn_) (Face.right, 8) = slotAt c (Face.back, 2) ∧
    slotAt (c.downTurn_) (Face.front, 0) = slotAt c (Face.front, 0) ∧
    slotAt (c.downTurn_) (Face.front, 1) = slotAt c (Face.front, 1) ∧
    slotAt (c.downTurn_) (Face.front, 2) = slotAt c (Face.front, 2) ∧
    slotAt (c.downTurn_) (Face.front, 3) = slotAt c (Face.front, 3) ∧
    slotAt (c.downTurn_) (Face.front, 4) = slotAt c (Face.front, 4) ∧
    slotAt (c.downTurn_) (Face.front, 5) = slotAt c (Face.front, 5) ∧
    slotAt (c.downTurn_) (Face.front, 6) = slotAt c (Face.right, 8) ∧
    slotAt (c.downTurn_) (Face.front, 7) = slotAt c (Face.right, 5) ∧
    slotAt (c.downTurn_) (Face.front, 8) = slotAt c (Face.right, 2) ∧
    slotAt (c.downTurn_) (Face.back, 0) = slotAt c (Face.left, 6) ∧
    slotAt (c.downTurn_) (Face.back, 1) = slotAt c (Face.left, 3) ∧
    slotAt (c.downTurn_) (Face.back, 2) = slotAt c (Face.left, 0) ∧
    slotAt (c.downTurn_) (Face.back, 3) = slotAt c (Face.back, 3) ∧
    slotAt (c.downTurn_) (Face.back, 4) = slotAt c (Face.back, 4) ∧
    slotAt (c.downTurn_) (Face.back, 5) = slotAt c (Face.back, 5) ∧
    slotAt (c.downTurn_) (Face.back, 6) = slotAt c (Face.back, 6) ∧
    slotAt (c.downTurn_) (Face.back, 7) = slotAt c (Face.back, 7) ∧
    slotAt (c.downTurn_) (Face.back, 8) = slotAt c (Face.back, 8) := by
  simp only [slotAt, faceW, Cube.downTurn_, rotate_face, rotate_face_, rotate_face2,
      SHIFT2, SHIFT4, SHIFT6, SHIFT8,
      slot_lor, slot_shr2, slot_shr4, slot_shr6, slot_shr8,
      slot_shl2, slot_shl4, slot_shl6, slot_shl8,
      slot_land, slotV_M012, slotV_M036, slotV_M147, slotV_M258, slotV_M678,
      slotV_N012, slotV_N036, slotV_N147, slotV_N258, slotV_N678,
      slotV_P0, slotV_P1, slotV_P2, slotV_P3, slotV_P4, slotV_P5, slotV_P6,
      slotV_P7, slotV_P8, slotV_P05, slotV_P38, slotV_P16, slotV_P27,
      slot_and_seven, Nat.reduceAdd, Nat.reduceMul, Nat.reduceSub,
      Nat.reduceEqDiff, Nat.reduceLeDiff, Nat.reduceLT, reduceIte,
      or_true, true_or, false_or, or_false,
      Nat.and_zero, Nat.zero_and, Nat.or_zero, Nat.zero_or,
      eq_self_iff_true, and_self, and_true, true_and]

theorem master_D_ (c : Cube) (f : Face) (i : Nat) (hi : i < 9) :
    slotAt (c.downTurn_) (f, i) = slotAt c (srcD_ (f, i)) := by
  obtain ⟨h0, h1, h2, h3, h4, h5, h6, h7, h8, h9, h10, h11, h12, h13, h14, h15, h16, h17, h18, h19, h20, h21, h22, h23, h24, h25, h26, h27, h28, h29, h30, h31, h32, h33, h34, h35, h36, h37, h38, h39, h40, h41, h42, h43, h44, h45, h46, h47, h48, h49, h50, h51, h52, h53⟩ := master_conj_D_ c
  have h9 : i = 0 ∨ i = 1 ∨ i = 2 ∨ i = 3 ∨ i = 4 ∨ i = 5 ∨ i = 6 ∨ i = 7 ∨ i = 8 := by omega
  cases f
  · rcases h9 with rfl|rfl|rfl|rfl|rfl|rfl|rfl|rfl|rfl
    · exact h0
    · exact h1
    · exact h2
    · exact h3
    · exact h4
    · exact h5
    · exact h6
    · exact h7
    · exact h8
  · rcases h9 with rfl|rfl|rfl|rfl|rfl|rfl|rfl|rfl|rfl
    · exact h9
    · exact h10
    · exact h11
    · exact h12
    · exact h13
    · exact h14
    · exact h15
    · exact h16
    · exact h17
  · rcases h9 with rfl|rfl|rfl|rfl|rfl|rfl|rfl|rfl|rfl
    · exact h18
    · exact h19
    · exact h20
    · exact h21
    · exact h22
    · exact h23
    · exact h24
    · exact h25
    · exact h26
  · rcases h9 with rfl|rfl|rfl|rfl|rfl|rfl|rfl|rfl|rfl
    · exact h27
    · exact h28
    · exact h29
    · exact h30
    · exact h31
    · exact h32
    · exact h33
    · exact h34
    · exact h35
  · rcases h9 with rfl|rfl|rfl|rfl|rfl|rfl|rfl|rfl|rfl
    · exact h36
    · exact h37
    · exact h38
    · exact h39
    · exact h40
    · exact h41
    · exact h42
    · exact h43
    · exact h44
  · rcases h9 with rfl|rfl|rfl|rfl|rfl|rfl|rfl|rfl|rfl
    · exact h45
    · exact h46
    · exact h47
    · exact h48
    · exact h49
    · exact h50
    · exact h51
    · exact h52
    · exact h53

/-- Source location of each sticker after the move D2. -/
def srcD2 : Loc → Loc
  | (Face.down, 0) => (Face.down, 8)
  | (Face.down, 1) => (Face.down, 7)
  | (Face.down, 2) => (Face.down, 6)
  | (Face.down, 3) => (Face.down, 5)
  | (Face.down, 5) => (Face.down, 3)
  | (Face.down, 6) => (Face.down, 2)
  | (Face.down, 7) => (Face.down, 1)
  | (Face.down, 8) => (Face.down, 0)
  | (Face.left, 0) => (Face.right, 8)
  | (Face.left, 3) => (Face.right, 5)
  | (Face.left, 6) => (Face.right, 2)
  | (Face.right, 2) => (Face.left, 6)
  | (Face.right, 5) => (Face.left, 3)
  | (Face.right, 8) => (Face.left, 0)
  | (Face.front, 6) => (Face.back, 2)
  | (Face.front, 7) => (Face.back, 1)
  | (Face.front, 8) => (Face.back, 0)
  | (Face.back, 0) => (Face.front, 8)
  | (Face.back, 1) => (Face.front, 7)
  | (Face.back, 2) => (Face.front, 6)
  | l => l

set_option maxHeartbeats 1000000 in
theorem master_conj_D2 (c : Cube) :
    slotAt (c.downTurn2) (Face.up, 0) = slotAt c (Face.up, 0) ∧
    slotAt (c.downTurn2) (Face.up, 1) = slotAt c (Face.up, 1) ∧
    slotAt (c.downTurn2) (Face.up, 2) = slotAt c (Face.up, 2) ∧
    slotAt (c.downTurn2) (Face.up, 3) = slotAt c (Face.up, 3) ∧
    slotAt (c.downTurn2) (Face.up, 4) = slotAt c (Face.up, 4) ∧
    slotAt (c.downTurn2) (Face.up, 5) = slotAt c (Face.up, 5) ∧
    slotAt (c.downTurn2) (Face.up, 6) = slotAt c (Face.up, 6) ∧
    slotAt (c.downTurn2) (Face.up, 7) = slotAt c (Face.up, 7) ∧
    slotAt (c.downTurn2) (Face.up, 8) = slotAt c (Face.up, 8) ∧
    slotAt (c.downTurn2) (Face.down, 0) = slotAt c (Face.down, 8) ∧
    slotAt (c.downTurn2) (Face.down, 1) = slotAt c (Face.down, 7) ∧
    slotAt (c.downTurn2) (Face.down, 2) = slotAt c (Face.down, 6) ∧
    slotAt (c.downTurn2) (Face.down, 3) = slotAt c (Face.down, 5) ∧
    slotAt (c.downTurn2) (Face.down, 4) = slotAt c (Face.down, 4) ∧
    slotAt (c.downTurn2) (Face.down, 5) = slotAt c (Face.down, 3) ∧
    slotAt (c.downTurn2) (Face.down, 6) = slotAt c (Face.down, 2) ∧
    slotAt (c.downTurn2) (Face.down, 7) = slotAt c (Face.down, 1) ∧
    slotAt (c.downTurn2) (Face.down, 8) = slotAt c (Face.down, 0) ∧
    slotAt (c.downTurn2) (Face.left, 0) = slotAt c (Face.right, 8) ∧
    slotAt (c.downTurn2) (Face.left, 1) = slotAt c (Face.left, 1) ∧
    slotAt (c.downTurn2) (Face.left, 2) = slotAt c (Face.left, 2) ∧
    slotAt (c.downTurn2) (Face.left, 3) = slotAt c (Face.right, 5) ∧
    slotAt (c.downTurn2) (Face.left, 4) = slotAt c (Face.left, 4) ∧
    slotAt (c.downTurn2) (Face.left, 5) = slotAt c (Face.left, 5) ∧
    slotAt (c.downTurn2) (Face.left, 6) = slotAt c (Face.right, 2) ∧
    slotAt (c.downTurn2) (Face.left, 7) = slotAt c (Face.left, 7) ∧
    slotAt (c.downTurn2) (Face.left, 8) = slotAt c (Face.left, 8) ∧
    slotAt (c.downTurn2) (Face.right, 0) = slotAt c (Face.right, 0) ∧
    slotAt (c.downTurn2) (Face.right, 1) = slotAt c (Face.right, 1) ∧
    slotAt (c.downTurn2) (Face.right, 2) = slotAt c (Face.left, 6) ∧
    slotAt (c.downTurn2) (Face.right, 3) = slotAt c (Face.right, 3) ∧
    slotAt (c.downTurn2) (Face.right, 4) = slotAt c (Face.right, 4) ∧
    slotAt (c.downTurn2) (Face.right, 5) = slotAt c (Face.left, 3) ∧
    slotAt (c.downTurn2) (Face.right, 6) = slotAt c (Face.right, 6) ∧
    slotAt (c.downTurn2) (Face.right, 7) = slotAt c (Face.right, 7) ∧
    slotAt (c.downTurn2) (Face.right, 8) = slotAt c (Face.left, 0) ∧
    slotAt (c.downTurn2) (Face.front, 0) = slotAt c (Face.front, 0) ∧
    slotAt (c.downTurn2) (Face.front, 1) = slotAt c (Face.front, 1) ∧
    slotAt (c.downTurn2) (Face.front, 2) = slotAt c (Face.front, 2) ∧
    slotAt (c.downTurn2) (Face.front, 3) = slotAt c (Face.front, 3) ∧
    slotAt (c.downTurn2) (Face.front, 4) = slotAt c (Face.front, 4) ∧
    slotAt (c.downTurn2) (Face.front, 5) = slotAt c (Face.front, 5) ∧
    slotAt (c.downTurn2) (Face.front, 6) = slotAt c (Face.back, 2) ∧
    slotAt (c.downTurn2) (Face.front, 7) = slotAt c (Face.back, 1) ∧
    slotAt (c.downTurn2) (Face.front, 8) = slotAt c (Face.back, 0) ∧
    slotAt (c.downTurn2) (Face.back, 0) = slotAt c (Face.front, 8) ∧
    slotAt (c.downTurn2) (Face.back, 1) = slotAt c (Face.front, 7) ∧
    slotAt (c.downTurn2) (Face.back, 2) = slotAt c (Face.front, 6) ∧
    slotAt (c.downTurn2) (Face.back, 3) = slotAt c (Face.back, 3) ∧
    slotAt (c.downTurn2) (Face.back, 4) = slotAt c (Face.back, 4) ∧
    slotAt (c.downTurn2) (Face.back, 5) = slotAt c (Face.back, 5) ∧
    slotAt (c.downTurn2) (Face.back, 6) = slotAt c (Face.back, 6) ∧
    slotAt (c.downTurn2) (Face.back, 7) = slotAt c (Face.back, 7) ∧
    slotAt (c.downTurn2) (Face.back, 8) = slotAt c (Face.back, 8) := by
  simp only [slotAt, faceW, Cube.downTurn2, rotate_face, rotate_face_, rotate_face2,
      SHIFT2, SHIFT4, SHIFT6, SHIFT8,
      slot_lor, slot_shr2, slot_shr4, slot_shr6, slot_shr8,
      slot_shl2, slot_shl4, slot_shl6, slot_shl8,
      slot_land, slotV_M012, slotV_M036, slotV_M147, slotV_M258, slotV_M678,
      slotV_N012, slotV_N036, slotV_N147, slotV_N258, slotV_N678,
      slotV_P0, slotV_P1, slotV_P2, slotV_P3, slotV_P4, slotV_P5, slotV_P6,
      slotV_P7, slotV_P8, slotV_P05, slotV_P38, slotV_P16, slotV_P27,
      slot_and_seven, Nat.reduceAdd, Nat.reduceMul, Nat.reduceSub,
      Nat.reduceEqDiff, Nat.reduceLeDiff, Nat.reduceLT, reduceIte,
      or_true, true_or, false_or, or_false,
      Nat.and_zero, Nat.zero_and, Nat.or_zero, Nat.zero_or,
      eq_self_iff_true, and_self, and_true, true_and]

theorem master_D2 (c : Cube) (f : Face) (i : Nat) (hi : i < 9) :
    slotAt (c.downTurn2) (f, i) = slotAt c (srcD2 (f, i)) := by
  obtain ⟨h0, h1, h2, h3, h4, h5, h6, h7, h8, h9, h10, h11, h12, h13, h14, h15, h16, h17, h18, h19, h20, h21, h22, h23, h24, h25, h26, h27, h28, h29, h30, h31, h32, h33, h34, h35, h36, h37, h38, h39, h40, h41, h42, h43, h44, h45, h46, h47, h48, h49, h50, h51, h52, h53⟩ := master_conj_D2 c
  have h9 : i = 0 ∨ i = 1 ∨ i = 2 ∨ i = 3 ∨ i = 4 ∨ i = 5 ∨ i = 6 ∨ i = 7 ∨ i = 8 := by omega
  cases f
  · rcases h9 with rfl|rfl|rfl|rfl|rfl|rfl|rfl|rfl|rfl
    · exact h0
    · exact h1
    · exact h2
    · exact h3
    · exact h4
    · exact h5
    · exact h6
    · exact h7
    · exact h8
  · rcases h9 with rfl|rfl|rfl|rfl|rfl|rfl|rfl|rfl|rfl
    · exact h9
    · exact h10
    · exact h11
    · exact h12
    · exact h13
    · exact h14
    · exact h15
    · exact h16
    · exact h17
  · rcases h9 with rfl|rfl|rfl|rfl|rfl|rfl|rfl|rfl|rfl
    · exact h18
    · exact h19
    · exact h20
    · exact h21
    · exact h22
    · exact h23
    · exact h24
    · exact h25
    · exact h26
  · rcases h9 with rfl|rfl|rfl|rfl|rfl|rfl|rfl|rfl|rfl
    · exact h27
    · exact h28
    · exact h29
    · exact h30
    · exact h31
    · exact h32
    · exact h33
    · exact h34
    · exact h35
  · rcases h9 with rfl|rfl|rfl|rfl|rfl|rfl|rfl|rfl|rfl
    · exact h36
    · exact h37
    · exact h38
    · exact h39
    · exact h40
    · exact h41
    · exact h42
    · exact h43
    · exact h44
  · rcases h9 with rfl|rfl|rfl|rfl|rfl|rfl|rfl|rfl|rfl
    · exact h45
    · exact h46
    · exact h47
    · exact h48
    · exact h49
    · exact h50
    · exact h51
    · exact h52
    · exact h53

/-- Slot-permutation table of every move. -/
def turnSrc : Turn → Loc → Loc
  | .R => srcR
  | .R_ => srcR_
  | .R2 => srcR2
  | .L => srcL
  | .L_ => srcL_
  | .L2 => srcL2
  | .M => srcM
  | .M_ => srcM_
  | .M2 => srcM2
  | .F => srcF
  | .F_ => srcF_
  | .F2 => srcF2
  | .B => srcB
  | .B_ => srcB_
  | .B2 => srcB2
  | .U => srcU
  | .U_ => srcU_
  | .U2 => srcU2
  | .D => srcD
  | .D_ => srcD_
  | .D2 => srcD2

/-- Every move permutes the sticker slots according to `turnSrc`:
the sticker at location `l` after the move is the sticker that was at
`turnSrc t l` before.  Holds for arbitrary face words. -/
theorem master (c : Cube) (t : Turn) (f : Face) (i : Nat) (hi : i < 9) :
    slotAt (c.turn t) (f, i) = slotAt c (turnSrc t (f, i)) := by
  cases t
  · exact master_U c f i hi
  · exact master_U_ c f i hi
  · exact master_U2 c f i hi
  · exact master_D c f i hi
  · exact master_D_ c f i hi
  · exact master_D2 c f i hi
  · exact master_L c f i hi
  · exact master_L_ c f i hi
  · exact master_L2 c f i hi
  · exact master_R c f i hi
  · exact master_R_ c f i hi
  · exact master_R2 c f i hi
  · exact master_F c f i hi
  · exact master_F_ c f i hi
  · exact master_F2 c f i hi
  · exact master_B c f i hi
  · exact master_B_ c f i hi
  · exact master_B2 c f i hi
  · exact master_M c f i hi
  · exact master_M_ c f i hi
  · exact master_M2 c f i hi

/-! ### Moves preserve well-formedness of the face words -/

theorem lt27_or {a b : Nat} (h1 : a < 2 ^ 27) (h2 : b < 2 ^ 27) : a ||| b < 2 ^ 27 :=
  Nat.or_lt_two_pow h1 h2

theorem lt27_and_left {a : Nat} (b : Nat) (h : a < 2 ^ 27) : a &&& b < 2 ^ 27 :=
  lt_of_le_of_lt Nat.and_le_left h

theorem lt27_and_right (a : Nat) {b : Nat} (h : b < 2 ^ 27) : a &&& b < 2 ^ 27 :=
  lt_of_le_of_lt Nat.and_le_right h

theorem lt27_shr (a k : Nat) {m : Nat} (h : m < 2 ^ 27) : (a &&& m) >>> k < 2 ^ 27 := by
  rw [Nat.shiftRight_eq_div_pow]
  exact lt_of_le_of_lt (le_trans (Nat.div_le_self _ _) Nat.and_le_right) h

theorem lt27_shl (a : Nat) {m k : Nat} (h : m <<< k < 2 ^ 27) : (a &&& m) <<< k < 2 ^ 27 := by
  rw [Nat.shiftLeft_eq] at h ⊢
  exact lt_of_le_of_lt (Nat.mul_le_mul_right _ Nat.and_le_right) h

theorem rotate_face_lt (f : Nat) : rotate_face f < 2 ^ 27 := by
  unfold rotate_face
  refine lt27_or (lt27_or (lt27_or (lt27_or (lt27_or (lt27_or ?_ ?_) ?_) ?_) ?_) ?_) ?_
  · exact lt27_and_right _ (by decide)
  · exact lt27_shl _ (by decide)
  · exact lt27_shl _ (by decide)
  · exact lt27_shl _ (by decide)
  · exact lt27_shr _ _ (by decide)
  · exact lt27_shr _ _ (by decide)
  · exact lt27_shr _ _ (by decide)

theorem rotate_face_lt_ (f : Nat) : rotate_face_ f < 2 ^ 27 := by
  unfold rotate_face_
  refine lt27_or (lt27_or (lt27_or (lt27_or (lt27_or (lt27_or ?_ ?_) ?_) ?_) ?_) ?_) ?_
  · exact lt27_and_right _ (by decide)
  · exact lt27_shl _ (by decide)
  · exact lt27_shl _ (by decide)
  · exact lt27_shl _ (by decide)
  · exact lt27_shr _ _ (by decide)
  · exact lt27_shr _ _ (by decide)
  · exact lt27_shr _ _ (by decide)

theorem rotate_face2_lt (f : Nat) : rotate_face2 f < 2 ^ 27 := by
  unfold rotate_face2
  refine lt27_or (lt27_or (lt27_or (lt27_or (lt27_or (lt27_or (lt27_or (lt27_or ?_ ?_) ?_) ?_) ?_) ?_) ?_) ?_) ?_
  · exact lt27_shl _ (by decide)
  · exact lt27_shl _ (by decide)
  · exact lt27_shl _ (by decide)
  · exact lt27_shl _ (by decide)
  · exact lt27_and_right _ (by decide)
  · exact lt27_shr _ _ (by decide)
  · exact lt27_shr _ _ (by decide)
  · exact lt27_shr _ _ (by decide)
  · exact lt27_shr _ _ (by decide)

/-- Every move keeps the six face words below `2 ^ 27`. -/
theorem valid_turn {s : Cube} (hs : Valid s) (t : Turn) : Valid (s.turn t) := by
  obtain ⟨h1, h2, h3, h4, h5, h6⟩ := hs
  cases t
  · exact ⟨rotate_face_lt _,
      h2,
      lt27_or (lt27_and_left _ h3) (lt27_or (lt27_or (lt27_shl _ (by decide)) (lt27_shl _ (by decide))) (lt27_shl _ (by decide))),
      lt27_or (lt27_and_left _ h4) (lt27_or (lt27_or (lt27_shr _ _ (by decide)) (lt27_shr _ _ (by decide))) (lt27_shr _ _ (by decide))),
      lt27_or (lt27_and_left _ h5) (lt27_or (lt27_or (lt27_shl _ (by decide)) (lt27_shr _ _ (by decide))) (lt27_shr _ _ (by decide))),
      lt27_or (lt27_and_left _ h6) (lt27_or (lt27_or (lt27_shr _ _ (by decide)) (lt27_shl _ (by decide))) (lt27_shl _ (by decide)))⟩
  · exact ⟨rotate_face_lt_ _,
      h2,
      lt27_or (lt27_and_left _ h3) (lt27_or (lt27_or (lt27_shl _ (by decide)) (lt27_shr _ _ (by decide))) (lt27_shr _ _ (by decide))),
      lt27_or (lt27_and_left _ h4) (lt27_or (lt27_or (lt27_shr _ _ (by decide)) (lt27_shl _ (by decide))) (lt27_shl _ (by decide))),
      lt27_or (lt27_and_left _ h5) (lt27_or (lt27_or (lt27_shr _ _ (by decide)) (lt27_shr _ _ (by decide))) (lt27_shr _ _ (by decide))),
      lt27_or (lt27_and_left _ h6) (lt27_or (lt27_or (lt27_shl _ (by decide)) (lt27_shl _ (by decide))) (lt27_shl _ (by decide)))⟩
  · exact ⟨rotate_face2_lt _,
      h2,
      lt27_or (lt27_and_left _ h3) (lt27_or (lt27_or (lt27_shl _ (by decide)) (lt27_shl _ (by decide))) (lt27_shr _ _ (by decide))),
      lt27_or (lt27_and_left _ h4) (lt27_or (lt27_or (lt27_shr _ _ (by decide)) (lt27_shr _ _ (by decide))) (lt27_shl _ (by decide))),
      lt27_or (lt27_and_left _ h5) (lt27_or (lt27_or (lt27_shr _ _ (by decide)) (lt27_shr _ _ (by decide))) (lt27_shr _ _ (by decide))),
      lt27_or (lt27_and_left _ h6) (lt27_or (lt27_or (lt27_shl _ (by decide)) (lt27_shl _ (by decide))) (lt27_shl _ (by decide)))⟩
  · exact ⟨h1,
      rotate_face_lt _,
      lt27_or (lt27_and_left _ h3) (lt27_or (lt27_or (lt27_shr _ _ (by decide)) (lt27_shl _ (by decide))) (lt27_shl _ (by decide))),
      lt27_or (lt27_and_left _ h4) (lt27_or (lt27_or (lt27_shl _ (by decide)) (lt27_shr _ _ (by decide))) (lt27_shr _ _ (by decide))),
      lt27_or (lt27_and_left _ h5) (lt27_or (lt27_or (lt27_shl _ (by decide)) (lt27_shl _ (by decide))) (lt27_shl _ (by decide))),
      lt27_or (lt27_and_left _ h6) (lt27_or (lt27_or (lt27_shr _ _ (by decide)) (lt27_shr _ _ (by decide))) (lt27_shr _ _ (by decide)))⟩
  · exact ⟨h1,
      rotate_face_lt_ _,
      lt27_or (lt27_and_left _ h3) (lt27_or (lt27_or (lt27_shr _ _ (by decide)) (lt27_shr _ _ (by decide))) (lt27_shr _ _ (by decide))),
      lt27_or (lt27_and_left _ h4) (lt27_or (lt27_or (lt27_shl _ (by decide)) (lt27_shl _ (by decide))) (lt27_shl _ (by decide))),
      lt27_or (lt27_and_left _ h5) (lt27_or (lt27_or (lt27_shr _ _ (by decide)) (lt27_shl _ (by decide))) (lt27_shl _ (by decide))),
      lt27_or (lt27_and_left _ h6) (lt27_or (lt27_or (lt27_shl _ (by decide)) (lt27_shr _ _ (by decide))) (lt27_shr _ _ (by decide)))⟩
  · exact ⟨h1,
      rotate_face2_lt _,
      lt27_or (lt27_and_left _ h3) (lt27_or (lt27_or (lt27_shr _ _ (by decide)) (lt27_shr _ _ (by decide))) (lt27_shl _ (by decide))),
      lt27_or (lt27_and_left _ h4) (lt27_or (lt27_or (lt27_shl _ (by decide)) (lt27_shl _ (by decide))) (lt27_shr _ _ (by decide))),
      lt27_or (lt27_and_left _ h5) (lt27_or (lt27_or (lt27_shl _ (by decide)) (lt27_shl _ (by decide))) (lt27_shl _ (by decide))),
      lt27_or (lt27_and_left _ h6) (lt27_or (lt27_or (lt27_shr _ _ (by decide)) (lt27_shr _ _ (by decide))) (lt27_shr _ _ (by decide)))⟩
  · exact ⟨lt27_or (lt27_and_left _ h1) (lt27_and_right _ (by decide)),
      lt27_or (lt27_and_left _ h2) (lt27_and_right _ (by decide)),
      rotate_face_lt _,
      h4,
      lt27_or (lt27_and_left _ h5) (lt27_and_right _ (by decide)),
      lt27_or (lt27_and_left _ h6) (lt27_and_right _ (by decide))⟩
  · exact ⟨lt27_or (lt27_and_left _ h1) (lt27_and_right _ (by decide)),
      lt27_or (lt27_and_left _ h2) (lt27_and_right _ (by decide)),
      rotate_face_lt_ _,
      h4,
      lt27_or (lt27_and_left _ h5) (lt27_and_right _ (by decide)),
      lt27_or (lt27_and_left _ h6) (lt27_and_right _ (by decide))⟩
  · exact ⟨lt27_or (lt27_and_left _ h1) (lt27_and_right _ (by decide)),
      lt27_or (lt27_and_left _ h2) (lt27_and_right _ (by decide)),
      rotate_face2_lt _,
      h4,
      lt27_or (lt27_and_left _ h5) (lt27_and_right _ (by decide)),
      lt27_or (lt27_and_left _ h6) (lt27_and_right _ (by decide))⟩
  · exact ⟨lt27_or (lt27_and_left _ h1) (lt27_and_right _ (by decide)),
      lt27_or (lt27_and_left _ h2) (lt27_and_right _ (by decide)),
      h3,
      rotate_face_lt _,
      lt27_or (lt27_and_left _ h5) (lt27_and_right _ (by decide)),
      lt27_or (lt27_and_left _ h6) (lt27_and_right _ (by decide))⟩
  · exact ⟨lt27_or (lt27_and_left _ h1) (lt27_and_right _ (by decide)),
      lt27_or (lt27_and_left _ h2) (lt27_and_right _ (by decide)),
      h3,
      rotate_face_lt_ _,
      lt27_or (lt27_and_left _ h5) (lt27_and_right _ (by decide)),
      lt27_or (lt27_and_left _ h6) (lt27_and_right _ (by decide))⟩
  · exact ⟨lt27_or (lt27_and_left _ h1) (lt27_and_right _ (by decide)),
      lt27_or (lt27_and_left _ h2) (lt27_and_right _ (by decide)),
      h3,
      rotate_face2_lt _,
      lt27_or (lt27_and_left _ h5) (lt27_and_right _ (by decide)),
      lt27_or (lt27_and_left _ h6) (lt27_and_right _ (by decide))⟩
  · exact ⟨lt27_or (lt27_and_left _ h1) (lt27_and_right _ (by decide)),
      lt27_or (lt27_and_left _ h2) (lt27_or (lt27_or (lt27_shr _ _ (by decide)) (lt27_shr _ _ (by decide))) (lt27_shr _ _ (by decide))),
      lt27_or (lt27_and_left _ h3) (lt27_or (lt27_or (lt27_shl _ (by decide)) (lt27_shl _ (by decide))) (lt27_shl _ (by decide))),
      lt27_or (lt27_and_left _ h4) (lt27_and_right _ (by decide)),
      rotate_face_lt _,
      h6⟩
  · exact ⟨lt27_or (lt27_and_left _ h1) (lt27_and_right _ (by decide)),
      lt27_or (lt27_and_left _ h2) (lt27_or (lt27_or (lt27_shr _ _ (by decide)) (lt27_shr _ _ (by decide))) (lt27_shr _ _ (by decide))),
      lt27_or (lt27_and_left _ h3) (lt27_and_right _ (by decide)),
      lt27_or (lt27_and_left _ h4) (lt27_or (lt27_or (lt27_shl _ (by decide)) (lt27_shl _ (by decide))) (lt27_shl _ (by decide))),
      rotate_face_lt_ _,
      h6⟩
  · exact ⟨lt27_or (lt27_and_left _ h1) (lt27_or (lt27_or (lt27_shl _ (by decide)) (lt27_shl _ (by decide))) (lt27_shl _ (by decide))),
      lt27_or (lt27_and_left _ h2) (lt27_or (lt27_or (lt27_shr _ _ (by decide)) (lt27_shr _ _ (by decide))) (lt27_shr _ _ (by decide))),
      lt27_or (lt27_and_left _ h3) (lt27_and_right _ (by decide)),
      lt27_or (lt27_and_left _ h4) (lt27_and_right _ (by decide)),
      rotate_face2_lt _,
      h6⟩
  · exact ⟨lt27_or (lt27_and_left _ h1) (lt27_and_right _ (by decide)),
      lt27_or (lt27_and_left _ h2) (lt27_or (lt27_or (lt27_shl _ (by decide)) (lt27_shl _ (by decide))) (lt27_shl _ (by decide))),
      lt27_or (lt27_and_left _ h3) (lt27_and_right _ (by decide)),
      lt27_or (lt27_and_left _ h4) (lt27_or (lt27_or (lt27_shr _ _ (by decide)) (lt27_shr _ _ (by decide))) (lt27_shr _ _ (by decide))),
      h5,
      rotate_face_lt _⟩
  · exact ⟨lt27_or (lt27_and_left _ h1) (lt27_and_right _ (by decide)),
      lt27_or (lt27_and_left _ h2) (lt27_or (lt27_or (lt27_shl _ (by decide)) (lt27_shl _ (by decide))) (lt27_shl _ (by decide))),
      lt27_or (lt27_and_left _ h3) (lt27_or (lt27_or (lt27_shr _ _ (by decide)) (lt27_shr _ _ (by decide))) (lt27_shr _ _ (by decide))),
      lt27_or (lt27_and_left _ h4) (lt27_and_right _ (by decide)),
      h5,
      rotate_face_lt_ _⟩
  · exact ⟨lt27_or (lt27_and_left _ h1) (lt27_or (lt27_or (lt27_shr _ _ (by decide)) (lt27_shr _ _ (by decide))) (lt27_shr _ _ (by decide))),
      lt27_or (lt27_and_left _ h2) (lt27_or (lt27_or (lt27_shl _ (by decide)) (lt27_shl _ (by decide))) (lt27_shl _ (by decide))),
      lt27_or (lt27_and_left _ h3) (lt27_and_right _ (by decide)),
      lt27_or (lt27_and_left _ h4) (lt27_and_right _ (by decide)),
      h5,
      rotate_face2_lt _⟩
  · exact ⟨lt27_or (lt27_and_left _ h1) (lt27_and_right _ (by decide)),
      lt27_or (lt27_and_left _ h2) (lt27_and_right _ (by decide)),
      h3,
      h4,
      lt27_or (lt27_and_left _ h5) (lt27_and_right _ (by decide)),
      lt27_or (lt27_and_left _ h6) (lt27_and_right _ (by decide))⟩
  · exact ⟨lt27_or (lt27_and_left _ h1) (lt27_and_right _ (by decide)),
      lt27_or (lt27_and_left _ h2) (lt27_and_right _ (by decide)),
      h3,
      h4,
      lt27_or (lt27_and_left _ h5) (lt27_and_right _ (by decide)),
      lt27_or (lt27_and_left _ h6) (lt27_and_right _ (by decide))⟩
  · exact ⟨lt27_or (lt27_and_left _ h1) (lt27_and_right _ (by decide)),
      lt27_or (lt27_and_left _ h2) (lt27_and_right _ (by decide)),
      h3,
      h4,
      lt27_or (lt27_and_left _ h5) (lt27_and_right _ (by decide)),
      lt27_or (lt27_and_left _ h6) (lt27_and_right _ (by decide))⟩

/-! ## Encoding of moves: class and variant extraction -/

/-- What `Turn.val t >>> 2` actually yields per axis: 0, 1, 2, 4, 8, 16, 32
for U, D, L, R, F, B, M (a power-of-two code, not the indices 0..6). -/
def axisCode : Turn → Nat
  | .U | .U_ | .U2 => 0
  | .D | .D_ | .D2 => 1
  | .L | .L_ | .L2 => 2
  | .R | .R_ | .R2 => 4
  | .F | .F_ | .F2 => 8
  | .B | .B_ | .B2 => 16
  | .M | .M_ | .M2 => 32

/-- Two moves turn the same axis exactly when the xor of their tags is at
most `0b11` (shared lemma behind the pruning rule). -/
theorem xor_le_three_iff_same_axis (t u : Turn) :
    Turn.val t ^^^ Turn.val u ≤ 0b11 ↔ Turn.axisIdx t = Turn.axisIdx u := by
  revert t u
  decide

/-- C5 counterexample: for the move R the tag shifted right by 2 is 4, not
the class index 3 that the claim asserts. -/
theorem C5_counterexample :
    ¬ (Turn.val Turn.R >>> 2 = Turn.axisIdx Turn.R) := by decide

/-- C5 (amended): the low two bits of a move tag give the variant
(0 cw, 1 ccw, 2 half), and the tag shifted right by 2 yields the
power-of-two axis code 0,1,2,4,8,16,32 for U,D,L,R,F,B,M — a value that
determines the axis class but does not equal the indices 0..6 (it differs
for R, F, B, M). -/
theorem C5_theorem :
    ∀ t : Turn, Turn.val t >>> 2 = axisCode t ∧
      Turn.val t &&& 0b11 = Turn.variantIdx t ∧
      ∀ u : Turn, (Turn.val t >>> 2 = Turn.val u >>> 2 ↔
        Turn.axisIdx t = Turn.axisIdx u) := by
  decide

/-- C6: the xor test of the pruning rule is exact: `t xor u ≤ 0b11` holds
iff `t` and `u` turn the same axis, so the successor test `t xor u > 0b11`
admits exactly the moves whose axis differs from the previous move's. -/
theorem C6_theorem :
    ∀ t u : Turn, (Turn.val t ^^^ Turn.val u ≤ 0b11 ↔
        Turn.axisIdx t = Turn.axisIdx u) ∧
      (Turn.val t ^^^ Turn.val u > 0b11 ↔
        Turn.axisIdx t ≠ Turn.axisIdx u) := by
  decide

/-! ## Centers under moves (claim C2) -/

theorem turnSrc_fixes_center_of_face_move :
    ∀ t : Turn, Turn.axisIdx t ≠ 6 → ∀ f : Face, turnSrc t (f, 4) = (f, 4) := by
  decide

theorem turnSrc_center_to_center :
    ∀ t : Turn, ∀ f : Face, (turnSrc t (f, 4)).2 = 4 := by
  decide

/-- C2 counterexample: the move M does change a center: on the solved
state, slot 4 of the up face changes (yellow becomes blue, the back
center). -/
theorem C2_counterexample :
    ¬ (slot ((Cube.solved_state.turn Turn.M).up) 4 = slot Cube.solved_state.up 4) := by
  decide

/-- C2 (amended): every move whose axis is not the middle slice (the 18
face moves) leaves slot 4 of every face unchanged; the M, M', M2 moves
still leave the left and right centers unchanged, and every center of the
turned cube is some center of the original cube (centers map to centers). -/
theorem C2_theorem :
    (∀ (s : Cube) (t : Turn), Turn.axisIdx t ≠ 6 → ∀ f : Face,
      slot (faceW (s.turn t) f) 4 = slot (faceW s f) 4) ∧
    (∀ (s : Cube) (t : Turn), Turn.axisIdx t = 6 →
      slot ((s.turn t).left) 4 = slot s.left 4 ∧
      slot ((s.turn t).right) 4 = slot s.right 4) ∧
    (∀ (s : Cube) (t : Turn) (f : Face), ∃ g : Face,
      slot (faceW (s.turn t) f) 4 = slot (faceW s g) 4) := by
  refine ⟨?_, ?_, ?_⟩
  · intro s t ht f
    have h := master s t f 4 (by norm_num)
    rw [slotAt] at h
    rw [h, turnSrc_fixes_center_of_face_move t ht f]
    rfl
  · intro s t ht
    constructor
    · have h := master s t Face.left 4 (by norm_num)
      rw [slotAt] at h
      have hfix : turnSrc t (Face.left, 4) = (Face.left, 4) := by
        revert ht; cases t <;> decide
      rw [show slot ((s.turn t).left) 4 = slot (faceW (s.turn t) Face.left) 4 from rfl,
        h, hfix]
      rfl
    · have h := master s t Face.right 4 (by norm_num)
      rw [slotAt] at h
      have hfix : turnSrc t (Face.right, 4) = (Face.right, 4) := by
        revert ht; cases t <;> decide
      rw [show slot ((s.turn t).right) 4 = slot (faceW (s.turn t) Face.right) 4 from rfl,
        h, hfix]
      rfl
  · intro s t f
    refine ⟨(turnSrc t (f, 4)).1, ?_⟩
    have h := master s t f 4 (by norm_num)
    rw [slotAt] at h
    rw [h]
    have h4 := turnSrc_center_to_center t f
    show slot (faceW s (turnSrc t (f, 4)).1) (turnSrc t (f, 4)).2 =
      slot (faceW s (turnSrc t (f, 4)).1) 4
    rw [h4]

/-- Witness for C2's amended theorem at a concrete input. -/
theorem C2_theorem_witness :
    Turn.axisIdx Turn.U ≠ 6 ∧
    slot (faceW (Cube.solved_state.turn Turn.U) Face.up) 4 =
      slot (faceW Cube.solved_state Face.up) 4 :=
  ⟨by decide, C2_theorem.1 Cube.solved_state Turn.U (by decide) Face.up⟩

/-! ## Move algebra (claim C3) -/

theorem turnSrc_snd_lt : ∀ (t : Turn) (f : Face) (i : Nat), i < 9 →
    (turnSrc t (f, i)).2 < 9 := by
  decide

/-- Two successive moves whose slot tables compose to the identity cancel
on every well-formed state. -/
theorem turn_turn_eq_self {s : Cube} (hs : Valid s) (t u : Turn)
    (h : ∀ (f : Face) (i : Nat), i < 9 → turnSrc t (turnSrc u (f, i)) = (f, i)) :
    (s.turn t).turn u = s := by
  refine cube_eq_of_slotAt (valid_turn (valid_turn hs t) u) hs ?_
  intro f i hi
  rcases hu : turnSrc u (f, i) with ⟨f', i'⟩
  have hi' : i' < 9 := by
    have hl := turnSrc_snd_lt u f i hi
    rw [hu] at hl
    exact hl
  rw [master _ u f i hi, hu, master s t f' i' hi']
  have hc := h f i hi
  rw [hu] at hc
  rw [hc]

/-- Two successive moves whose slot tables compose to a third move's table
equal that move on every well-formed state. -/
theorem turn_turn_eq_turn {s : Cube} (hs : Valid s) (t u v : Turn)
    (h : ∀ (f : Face) (i : Nat), i < 9 →
      turnSrc t (turnSrc u (f, i)) = turnSrc v (f, i)) :
    (s.turn t).turn u = s.turn v := by
  refine cube_eq_of_slotAt (valid_turn (valid_turn hs t) u) (valid_turn hs v) ?_
  intro f i hi
  rcases hu : turnSrc u (f, i) with ⟨f', i'⟩
  have hi' : i' < 9 := by
    have hl := turnSrc_snd_lt u f i hi
    rw [hu] at hl
    exact hl
  rw [master _ u f i hi, hu, master s t f' i' hi', master s v f i hi]
  have hc := h f i hi
  rw [hu] at hc
  rw [hc]

/-- C3: for each of the seven axes X, the quarter turn and its inverse
cancel in both orders, the half turn is an involution, and two quarter
turns equal the half turn — for every well-formed cube state. -/
theorem C3_theorem (s : Cube) (hs : Valid s) :
    ((s.turn Turn.U).turn Turn.U_ = s ∧ (s.turn Turn.U_).turn Turn.U = s ∧
     (s.turn Turn.U2).turn Turn.U2 = s ∧ (s.turn Turn.U).turn Turn.U = s.turn Turn.U2) ∧
    ((s.turn Turn.D).turn Turn.D_ = s ∧ (s.turn Turn.D_).turn Turn.D = s ∧
     (s.turn Turn.D2).turn Turn.D2 = s ∧ (s.turn Turn.D).turn Turn.D = s.turn Turn.D2) ∧
    ((s.turn Turn.L).turn Turn.L_ = s ∧ (s.turn Turn.L_).turn Turn.L = s ∧
     (s.turn Turn.L2).turn Turn.L2 = s ∧ (s.turn Turn.L).turn Turn.L = s.turn Turn.L2) ∧
    ((s.turn Turn.R).turn Turn.R_ = s ∧ (s.turn Turn.R_).turn Turn.R = s ∧
     (s.turn Turn.R2).turn Turn.R2 = s ∧ (s.turn Turn.R).turn Turn.R = s.turn Turn.R2) ∧
    ((s.turn Turn.F).turn Turn.F_ = s ∧ (s.turn Turn.F_).turn Turn.F = s ∧
     (s.turn Turn.F2).turn Turn.F2 = s ∧ (s.turn Turn.F).turn Turn.F = s.turn Turn.F2) ∧
    ((s.turn Turn.B).turn Turn.B_ = s ∧ (s.turn Turn.B_).turn Turn.B = s ∧
     (s.turn Turn.B2).turn Turn.B2 = s ∧ (s.turn Turn.B).turn Turn.B = s.turn Turn.B2) ∧
    ((s.turn Turn.M).turn Turn.M_ = s ∧ (s.turn Turn.M_).turn Turn.M = s ∧
     (s.turn Turn.M2).turn Turn.M2 = s ∧ (s.turn Turn.M).turn Turn.M = s.turn Turn.M2) := by
  refine ⟨⟨?_, ?_, ?_, ?_⟩, ⟨?_, ?_, ?_, ?_⟩, ⟨?_, ?_, ?_, ?_⟩, ⟨?_, ?_, ?_, ?_⟩,
    ⟨?_, ?_, ?_, ?_⟩, ⟨?_, ?_, ?_, ?_⟩, ⟨?_, ?_, ?_, ?_⟩⟩
  · exact turn_turn_eq_self hs _ _ (by decide)
  · exact turn_turn_eq_self hs _ _ (by decide)
  · exact turn_turn_eq_self hs _ _ (by decide)
  · exact turn_turn_eq_turn hs _ _ _ (by decide)
  · exact turn_turn_eq_self hs _ _ (by decide)
  · exact turn_turn_eq_self hs _ _ (by decide)
  · exact turn_turn_eq_self hs _ _ (by decide)
  · exact turn_turn_eq_turn hs _ _ _ (by decide)
  · exact turn_turn_eq_self hs _ _ (by decide)
  · exact turn_turn_eq_self hs _ _ (by decide)
  · exact turn_turn_eq_self hs _ _ (by decide)
  · exact turn_turn_eq_turn hs _ _ _ (by decide)
  · exact turn_turn_eq_self hs _ _ (by decide)
  · exact turn_turn_eq_self hs _ _ (by decide)
  · exact turn_turn_eq_self hs _ _ (by decide)
  · exact turn_turn_eq_turn hs _ _ _ (by decide)
  · exact turn_turn_eq_self hs _ _ (by decide)
  · exact turn_turn_eq_self hs _ _ (by decide)
  · exact turn_turn_eq_self hs _ _ (by decide)
  · exact turn_turn_eq_turn hs _ _ _ (by decide)
  · exact turn_turn_eq_self hs _ _ (by decide)
  · exact turn_turn_eq_self hs _ _ (by decide)
  · exact turn_turn_eq_self hs _ _ (by decide)
  · exact turn_turn_eq_turn hs _ _ _ (by decide)
  · exact turn_turn_eq_self hs _ _ (by decide)
  · exact turn_turn_eq_self hs _ _ (by decide)
  · exact turn_turn_eq_self hs _ _ (by decide)
  · exact turn_turn_eq_turn hs _ _ _ (by decide)

/-- Witness for C3 at the solved state. -/
theorem C3_theorem_witness :
    Valid Cube.solved_state ∧
    (Cube.solved_state.turn Turn.U).turn Turn.U_ = Cube.solved_state :=
  ⟨by decide, (C3_theorem Cube.solved_state (by decide)).1.1⟩

/-! ## Pattern match characterization (claim C4) -/

theorem slot_zero (i : Nat) : slot 0 i = 0 := by
  simp [slot]

theorem slotV_seven_shl (k i : Nat) : slot (7 <<< (3 * k)) i = if i = k then 7 else 0 := by
  rw [slot_as_div_mod, Nat.shiftLeft_eq,
    show (2 : Nat) ^ (3 * k) = 8 ^ k from by rw [Nat.pow_mul]]
  rcases lt_trichotomy i k with h | h | h
  · rw [if_neg (by omega)]
    obtain ⟨m, hm⟩ : ∃ m, k - i = m + 1 := ⟨k - i - 1, by omega⟩
    have hk : (8 : Nat) ^ k = 8 ^ i * (8 ^ m * 8) := by
      rw [← Nat.pow_succ, ← Nat.pow_add]
      congr 1
      omega
    have harr : 7 * (8 : Nat) ^ k = 7 * 8 ^ m * 8 * 8 ^ i := by
      rw [hk]; ring
    rw [harr, Nat.mul_div_cancel _ (Nat.pos_pow_of_pos i (by norm_num)), Nat.mul_mod_left]
  · subst h
    rw [if_pos rfl, Nat.mul_div_cancel _ (Nat.pos_pow_of_pos i (by norm_num))]
  · rw [if_neg (by omega)]
    have hlt : 7 * 8 ^ k < 8 ^ i := by
      calc 7 * 8 ^ k < 8 * 8 ^ k := by
            have := Nat.pos_pow_of_pos k (show 0 < 8 by norm_num)
            omega
        _ = 8 ^ (k + 1) := by rw [Nat.pow_succ, Nat.mul_comm]
        _ ≤ 8 ^ i := Nat.pow_le_pow_right (by norm_num) (by omega)
    rw [Nat.div_eq_of_lt hlt, Nat.zero_mod]

theorem shl7_lt {k : Nat} (hk : k < 9) : 7 <<< (3 * k) < 2 ^ 27 := by
  rw [Nat.shiftLeft_eq]
  calc 7 * 2 ^ (3 * k) ≤ 7 * 2 ^ 24 := by
        have h2 : (2 : Nat) ^ (3 * k) ≤ 2 ^ 24 := Nat.pow_le_pow_right (by norm_num) (by omega)
        exact Nat.mul_le_mul_left _ h2
    _ < 2 ^ 27 := by norm_num

theorem slot_and_piece (x k i : Nat) :
    slot (x &&& (7 <<< (3 * k))) i = if i = k then slot x i else 0 := by
  rw [slot_land, slotV_seven_shl]
  split_ifs
  · rw [slot_and_seven]
  · rw [Nat.and_zero]

theorem and_piece_eq_zero_iff (x k : Nat) (hk : k < 9) :
    x &&& (7 <<< (3 * k)) = 0 ↔ slot x k = 0 := by
  constructor
  · intro h
    have := slot_and_piece x k k
    rw [h, if_pos rfl, slot_zero] at this
    exact this.symm
  · intro h
    refine face_ext (lt27_and_right _ (shl7_lt hk)) (by norm_num) ?_
    intro i hi
    rw [slot_and_piece, slot_zero]
    split_ifs with hik
    · subst hik; exact h
    · rfl

theorem and_piece_eq_iff (x y k : Nat) (hk : k < 9) :
    x &&& (7 <<< (3 * k)) = y &&& (7 <<< (3 * k)) ↔ slot x k = slot y k := by
  constructor
  · intro h
    have hx := slot_and_piece x k k
    have hy := slot_and_piece y k k
    rw [if_pos rfl] at hx hy
    rw [← hx, ← hy, h]
  · intro h
    refine face_ext (lt27_and_right _ (shl7_lt hk)) (lt27_and_right _ (shl7_lt hk)) ?_
    intro i hi
    rw [slot_and_piece, slot_and_piece]
    split_ifs with hik
    · subst hik; exact h
    · rfl

/-- `matches_face` holds exactly when each pattern slot is wildcard (0) or
equals the face slot. -/
theorem matches_face_iff (face pat : Nat) :
    Cube.matches_face face pat = true ↔
      ∀ i, i < 9 → (slot pat i = 0 ∨ slot pat i = slot face i) := by
  unfold Cube.matches_face
  rw [show PIECE0 = 7 <<< (3 * 0) from rfl, show PIECE1 = 7 <<< (3 * 1) from rfl,
    show PIECE2 = 7 <<< (3 * 2) from rfl, show PIECE3 = 7 <<< (3 * 3) from rfl,
    show PIECE4 = 7 <<< (3 * 4) from rfl, show PIECE5 = 7 <<< (3 * 5) from rfl,
    show PIECE6 = 7 <<< (3 * 6) from rfl, show PIECE7 = 7 <<< (3 * 7) from rfl,
    show PIECE8 = 7 <<< (3 * 8) from rfl]
  simp only [Bool.and_eq_true, Bool.or_eq_true, beq_iff_eq]
  rw [and_piece_eq_zero_iff _ 0 (by norm_num), and_piece_eq_iff _ _ 0 (by norm_num),
    and_piece_eq_zero_iff _ 1 (by norm_num), and_piece_eq_iff _ _ 1 (by norm_num),
    and_piece_eq_zero_iff _ 2 (by norm_num), and_piece_eq_iff _ _ 2 (by norm_num),
    and_piece_eq_zero_iff _ 3 (by norm_num), and_piece_eq_iff _ _ 3 (by norm_num),
    and_piece_eq_zero_iff _ 4 (by norm_num), and_piece_eq_iff _ _ 4 (by norm_num),
    and_piece_eq_zero_iff _ 5 (by norm_num), and_piece_eq_iff _ _ 5 (by norm_num),
    and_piece_eq_zero_iff _ 6 (by norm_num), and_piece_eq_iff _ _ 6 (by norm_num),
    and_piece_eq_zero_iff _ 7 (by norm_num), and_piece_eq_iff _ _ 7 (by norm_num),
    and_piece_eq_zero_iff _ 8 (by norm_num), and_piece_eq_iff _ _ 8 (by norm_num)]
  constructor
  · intro h i hi
    obtain ⟨⟨⟨⟨⟨⟨⟨⟨c0, c1⟩, c2⟩, c3⟩, c4⟩, c5⟩, c6⟩, c7⟩, c8⟩ := h
    have h9 : i = 0 ∨ i = 1 ∨ i = 2 ∨ i = 3 ∨ i = 4 ∨ i = 5 ∨ i = 6 ∨ i = 7 ∨ i = 8 := by
      omega
    rcases h9 with rfl|rfl|rfl|rfl|rfl|rfl|rfl|rfl|rfl
    · exact c0
    · exact c1
    · exact c2
    · exact c3
    · exact c4
    · exact c5
    · exact c6
    · exact c7
    · exact c8
  · intro h
    exact ⟨⟨⟨⟨⟨⟨⟨⟨h 0 (by norm_num), h 1 (by norm_num)⟩, h 2 (by norm_num)⟩,
      h 3 (by norm_num)⟩, h 4 (by norm_num)⟩, h 5 (by norm_num)⟩,
      h 6 (by norm_num)⟩, h 7 (by norm_num)⟩, h 8 (by norm_num)⟩

theorem and_eq_right_of_slots {x y : Nat} (hy : y < 2 ^ 27)
    (h : ∀ i, i < 9 → slot y i = 0 ∨ slot y i = slot x i) : x &&& y = y := by
  refine face_ext (lt27_and_right _ hy) hy ?_
  intro i hi
  rw [slot_land]
  rcases h i hi with h0 | he
  · rw [h0, Nat.and_zero]
  · rw [he, Nat.and_self]

/-- The all-wildcard pattern cube (every sticker `Grey = 0`). -/
def allWildcard : Cube := ⟨0, 0, 0, 0, 0, 0⟩

/-- C4: for well-formed state and pattern, `matches` returns true exactly
when every pattern slot is the wildcard code 0 or equals the state's slot;
in particular every state matches the all-wildcard pattern and every state
matches itself. -/
theorem C4_theorem (s p : Cube) (_hs : Valid s) (hp : Valid p) :
    (Cube.matches s p = true ↔ ∀ (f : Face) (i : Nat), i < 9 →
      (slot (faceW p f) i = 0 ∨ slot (faceW p f) i = slot (faceW s f) i)) ∧
    Cube.matches s allWildcard = true ∧
    Cube.matches s s = true := by
  obtain ⟨hp1, hp2, hp3, hp4, hp5, hp6⟩ := hp
  refine ⟨?_, ?_, ?_⟩
  · unfold Cube.matches
    simp only [Bool.and_eq_true, beq_iff_eq]
    constructor
    · rintro ⟨⟨⟨⟨⟨⟨⟨⟨⟨⟨⟨w1, w2⟩, w3⟩, w4⟩, w5⟩, w6⟩, m1⟩, m2⟩, m3⟩, m4⟩, m5⟩, m6⟩ f i hi
      cases f
      · exact (matches_face_iff _ _).mp m1 i hi
      · exact (matches_face_iff _ _).mp m2 i hi
      · exact (matches_face_iff _ _).mp m3 i hi
      · exact (matches_face_iff _ _).mp m4 i hi
      · exact (matches_face_iff _ _).mp m5 i hi
      · exact (matches_face_iff _ _).mp m6 i hi
    · intro h
      exact ⟨⟨⟨⟨⟨⟨⟨⟨⟨⟨⟨and_eq_right_of_slots hp1 (h Face.up),
        and_eq_right_of_slots hp2 (h Face.down)⟩,
        and_eq_right_of_slots hp3 (h Face.left)⟩,
        and_eq_right_of_slots hp4 (h Face.right)⟩,
        and_eq_right_of_slots hp5 (h Face.front)⟩,
        and_eq_right_of_slots hp6 (h Face.back)⟩,
        (matches_face_iff _ _).mpr (h Face.up)⟩,
        (matches_face_iff _ _).mpr (h Face.down)⟩,
        (matches_face_iff _ _).mpr (h Face.left)⟩,
        (matches_face_iff _ _).mpr (h Face.right)⟩,
        (matches_face_iff _ _).mpr (h Face.front)⟩,
        (matches_face_iff _ _).mpr (h Face.back)⟩
  · simp [Cube.matches, Cube.matches_face, allWildcard, Nat.and_zero, Nat.zero_and]
  · simp [Cube.matches, Cube.matches_face, Nat.and_self]

/-- Witness for C4 at concrete cubes. -/
theorem C4_theorem_witness :
    Cube.matches Cube.solved_state allWildcard = true ∧
    Cube.matches Cube.solved_state Cube.solved_state = true :=
  ⟨(C4_theorem Cube.solved_state Cube.solved_state (by decide) (by decide)).2.1,
   (C4_theorem Cube.solved_state Cube.solved_state (by decide) (by decide)).2.2⟩

/-! ## Color inventory characterization (claims C7, C10) -/

def cornerLocs : List Loc :=
  [(Face.up, 0), (Face.up, 2), (Face.up, 6), (Face.up, 8),
   (Face.down, 0), (Face.down, 2), (Face.down, 6), (Face.down, 8),
   (Face.left, 0), (Face.left, 2), (Face.left, 6), (Face.left, 8),
   (Face.right, 0), (Face.right, 2), (Face.right, 6), (Face.right, 8),
   (Face.front, 0), (Face.front, 2), (Face.front, 6), (Face.front, 8),
   (Face.back, 0), (Face.back, 2), (Face.back, 6), (Face.back, 8)]

def edgeLocs : List Loc :=
  [(Face.up, 1), (Face.up, 3), (Face.up, 4), (Face.up, 5), (Face.up, 7),
   (Face.down, 1), (Face.down, 3), (Face.down, 4), (Face.down, 5), (Face.down, 7),
   (Face.left, 1), (Face.left, 3), (Face.left, 4), (Face.left, 5), (Face.left, 7),
   (Face.right, 1), (Face.right, 3), (Face.right, 4), (Face.right, 5), (Face.right, 7),
   (Face.front, 1), (Face.front, 3), (Face.front, 4), (Face.front, 5), (Face.front, 7),
   (Face.back, 1), (Face.back, 3), (Face.back, 4), (Face.back, 5), (Face.back, 7)]

def ind (x v : Nat) : Nat := if x = v then 1 else 0

def countLocs (s : Cube) (ls : List Loc) (v : Nat) : Nat :=
  (ls.map fun l => ind (slotAt s l) v).sum

theorem bump_apply (cnt : Nat → Nat) (col j : Nat) :
    bump cnt col j = cnt j + ind col (j + 1) := by
  unfold bump ind
  rcases Nat.eq_zero_or_pos col with h | h
  · subst h
    simp
  · rw [if_pos h]
    show (if j = col - 1 then cnt j + 1 else cnt j) = cnt j + if col = j + 1 then 1 else 0
    split_ifs <;> omega

theorem colors_fst_apply (s : Cube) (j : Nat) :
    (Cube.colors s).1 j = countLocs s cornerLocs (j + 1) := by
  simp [Cube.colors, Cube.faces, Cube.colors_in_face, addCounts, countLocs, cornerLocs,
    List.foldl, bump_apply, slotAt, faceW, slot]
  ring

theorem colors_snd_apply (s : Cube) (j : Nat) :
    (Cube.colors s).2 j = countLocs s edgeLocs (j + 1) := by
  simp [Cube.colors, Cube.faces, Cube.colors_in_face, addCounts, countLocs, edgeLocs,
    List.foldl, bump_apply, slotAt, faceW, slot]
  ring

theorem cornerLocs_snd_lt : ∀ l ∈ cornerLocs, l.2 < 9 := by decide

theorem edgeLocs_snd_lt : ∀ l ∈ edgeLocs, l.2 < 9 := by decide

theorem countLocs_turn (s : Cube) (t : Turn) (ls : List Loc) (v : Nat)
    (h : ∀ l ∈ ls, l.2 < 9) :
    countLocs (s.turn t) ls v = countLocs s (ls.map (turnSrc t)) v := by
  unfold countLocs
  rw [List.map_map]
  congr 1
  apply List.map_congr_left
  intro l hl
  rcases l with ⟨f, i⟩
  show ind (slotAt (s.turn t) (f, i)) v = ind (slotAt s (turnSrc t (f, i))) v
  rw [master s t f i (h _ hl)]

theorem countLocs_perm (s : Cube) {l1 l2 : List Loc} (v : Nat) (h : l1.Perm l2) :
    countLocs s l1 v = countLocs s l2 v := by
  unfold countLocs
  exact List.Perm.sum_eq (h.map _)

theorem cornerLocs_turn_perm : ∀ t : Turn, (cornerLocs.map (turnSrc t)).Perm cornerLocs := by
  decide

theorem edgeLocs_turn_perm : ∀ t : Turn, (edgeLocs.map (turnSrc t)).Perm edgeLocs := by
  decide

/-- C10: the full color inventory — the per-color corner-count array and
the per-color edge-count array of `Cube::colors` — is invariant under
every one of the 21 moves.  (The proof needs no color-validity beyond the
word-level well-formedness the claim assumes: every move permutes corner
stickers among corner slots and edge stickers among edge slots.) -/
theorem C10_theorem (s : Cube) (_hs : Valid s) (t : Turn) :
    Cube.colors (s.turn t) = Cube.colors s := by
  have h1 : (Cube.colors (s.turn t)).1 = (Cube.colors s).1 := by
    funext j
    rw [colors_fst_apply, colors_fst_apply,
      countLocs_turn s t cornerLocs (j + 1) cornerLocs_snd_lt,
      countLocs_perm s (j + 1) (cornerLocs_turn_perm t)]
  have h2 : (Cube.colors (s.turn t)).2 = (Cube.colors s).2 := by
    funext j
    rw [colors_snd_apply, colors_snd_apply,
      countLocs_turn s t edgeLocs (j + 1) edgeLocs_snd_lt,
      countLocs_perm s (j + 1) (edgeLocs_turn_perm t)]
  exact Prod.ext h1 h2

/-- Witness for C10 at the solved state and the move U. -/
theorem C10_theorem_witness :
    Valid Cube.solved_state ∧
    Cube.colors (Cube.solved_state.turn Turn.U) = Cube.colors Cube.solved_state :=
  ⟨by decide, C10_theorem Cube.solved_state (by decide) Turn.U⟩

/-- C7: `missing_colors` returns exactly the real (non-wildcard) colors
whose corner count (slots 0,2,6,8 over all six faces) or edge count
(slots 1,3,4,5,7, center included) in the state is strictly below the
pattern's; the wildcard never appears. -/
theorem C7_theorem (s p : Cube) (_hs : Valid s) (_hp : Valid p) (c : Color) :
    (c ∈ Cube.missing_colors s p ↔ c ≠ Color.Grey ∧
      (countLocs s cornerLocs c.val < countLocs p cornerLocs c.val ∨
       countLocs s edgeLocs c.val < countLocs p edgeLocs c.val)) ∧
    Color.Grey ∉ Cube.missing_colors s p := by
  constructor
  · cases c <;>
      simp [Cube.missing_colors, realColors, List.mem_filter, Color.val,
        colors_fst_apply, colors_snd_apply]
  · simp [Cube.missing_colors, realColors, List.mem_filter]

/-- Witness for C7 at concrete cubes. -/
theorem C7_theorem_witness :
    Color.White ∈ Cube.missing_colors allWildcard Cube.solved_state ↔
    Color.White ≠ Color.Grey ∧
      (countLocs allWildcard cornerLocs (Color.val Color.White) <
         countLocs Cube.solved_state cornerLocs (Color.val Color.White) ∨
       countLocs allWildcard edgeLocs (Color.val Color.White) <
         countLocs Cube.solved_state edgeLocs (Color.val Color.White)) :=
  (C7_theorem allWildcard Cube.solved_state (by decide) (by decide) Color.White).1

/-! ## Search engine: emission spec (claims C1, C8, C9) -/

/-- Apply a sequence of moves in order. -/
def applyTurns (s : Cube) (ms : List Turn) : Cube := ms.foldl Cube.turn s

/-- The pruning chain condition of `search_helper`: the first move's tag
xor `last` exceeds `0b11`, and so on down the sequence. -/
def chainFrom (last : Nat) : List Turn → Prop
  | [] => True
  | t :: ts => Turn.val t ^^^ last > 0b11 ∧ chainFrom (Turn.val t) ts

instance instDecChainFrom : ∀ (last : Nat) (ms : List Turn), Decidable (chainFrom last ms)
  | _, [] => .isTrue trivial
  | _last, t :: ts =>
    have : Decidable (chainFrom (Turn.val t) ts) := instDecChainFrom _ ts
    inferInstanceAs (Decidable (_ ∧ _))

/-- Specification of what one worker emits below a node: all pruned
continuations of length `f` from a cube whose last move had tag `last`
that end in a state matching the pattern. -/
def extsGo (p : Cube) (A : List Turn) : Cube → Nat → Nat → List (List Turn)
  | cube, _, 0 => if cube.matches p then [[]] else []
  | cube, last, f + 1 =>
    A.flatMap fun t =>
      if Turn.val t ^^^ last > 0b11 then
        (extsGo p A (cube.turn t) (Turn.val t) f).map (t :: ·)
      else []

theorem take_succ_set {hist : List Turn} {depth : Nat} (t : Turn)
    (h : depth < hist.length) :
    (hist.set depth t).take (depth + 1) = hist.take depth ++ [t] := by
  rw [List.set_eq_take_append_cons_drop, if_pos h, List.take_append_eq_append_take,
    List.take_of_length_le (by rw [List.length_take]; omega)]
  congr 1
  have hl : (hist.take depth).length = depth := by rw [List.length_take]; omega
  rw [hl, Nat.add_sub_cancel_left]
  rfl

theorem loopGo_chan_none (last : Nat) (deep : Turn → Option Nat → Res)
    (hdeep : ∀ t, (deep t none).2.1 = none) :
    ∀ todo, (loopGo last deep todo none).2.1 = none := by
  intro todo
  induction todo with
  | nil => rfl
  | cons a as ihA =>
    simp only [loopGo]
    split_ifs with hg
    · simp only [hdeep a]
      exact ihA
    · exact ihA

/-- The channel stays `none` through any run of `go`. -/
theorem go_chan_none (p : Cube) (A : List Turn) :
    ∀ (f : Nat) (cube : Cube) (last depth max_depth : Nat) (hist : List Turn),
      (go p A f cube last depth max_depth hist none).2.1 = none := by
  intro f
  induction f with
  | zero => intro cube last depth max_depth hist; rfl
  | succ f ih =>
    intro cube last depth max_depth hist
    show (go p A (f + 1) cube last depth max_depth hist none).2.1 = none
    simp only [go]
    split_ifs with h1 h2
    · rfl
    · rfl
    · exact loopGo_chan_none last _ (fun t => ih _ _ _ _ _) A

theorem loopGo_none_emit (last : Nat) (deep : Turn → Option Nat → Res)
    (F : Turn → List SearchResult)
    (hd : ∀ t, (deep t none).1 = F t ∧ (deep t none).2.1 = none) :
    ∀ todo, (loopGo last deep todo none).1 =
      todo.flatMap fun t => if Turn.val t ^^^ last > 0b11 then F t else [] := by
  intro todo
  induction todo with
  | nil => rfl
  | cons a as ihA =>
    simp only [loopGo, List.flatMap_cons]
    split_ifs with hg
    · simp only [(hd a).2, (hd a).1, ihA]
    · simpa using ihA

/-- What `go` emits with a never-failing channel: exactly the pruned
matching continuations, each prefixed with the path so far. -/
theorem go_emit (p : Cube) (A : List Turn) :
    ∀ (f : Nat) (cube : Cube) (last depth max_depth : Nat) (hist : List Turn),
      depth + f = max_depth → hist.length = max_depth + 1 →
      (go p A (f + 1) cube last depth max_depth hist none).1 =
        (extsGo p A cube last f).map
          (fun ms => SearchResult.Algorithm (hist.take depth ++ ms)) := by
  intro f
  induction f with
  | zero =>
    intro cube last depth max_depth hist hdm hl
    have hde : depth = max_depth := by omega
    subst hde
    simp only [go, extsGo]
    rw [if_neg (by omega)]
    cases hm : cube.matches p with
    | false =>
      rw [if_neg (by simp [hm])]
      refine (loopGo_none_emit last _ (fun _ => ([] : List SearchResult))
        (fun t => ⟨rfl, rfl⟩) A).trans ?_
      simp [hm]
    | true =>
      rw [if_pos (by simp [hm])]
      simp [hm, send]
  | succ f ih =>
    intro cube last depth max_depth hist hdm hl
    have hne : depth ≠ max_depth := by omega
    simp only [go]
    rw [if_neg (by omega), if_neg (by simp [hne])]
    refine (loopGo_none_emit last _
      (fun t => (extsGo p A (cube.turn t) (Turn.val t) f).map
        (fun ms => SearchResult.Algorithm ((hist.set depth t).take (depth + 1) ++ ms)))
      (fun t => ⟨ih (cube.turn t) (Turn.val t) (depth + 1) max_depth (hist.set depth t)
          (by omega) (by simpa using hl),
        go_chan_none p A (f + 1) (cube.turn t) (Turn.val t) (depth + 1) max_depth
          (hist.set depth t)⟩) A).trans ?_
    simp only [extsGo, List.map_flatMap]
    refine congrArg A.flatMap (funext fun t => ?_)
    split_ifs with hg
    · rw [take_succ_set t (by omega)]
      simp [List.map_map, Function.comp]
    · rfl

/-- Membership in the emission spec: exactly the pruned matching
sequences of the right length over the allowed moves. -/
theorem exts_mem (p : Cube) (A : List Turn) :
    ∀ (f : Nat) (cube : Cube) (last : Nat) (ms : List Turn),
      ms ∈ extsGo p A cube last f ↔
        (ms.length = f ∧ (∀ m ∈ ms, m ∈ A) ∧ chainFrom last ms ∧
          Cube.matches (applyTurns cube ms) p = true) := by
  intro f
  induction f with
  | zero =>
    intro cube last ms
    simp only [extsGo]
    constructor
    · intro h
      split_ifs at h with hm
      · rw [List.mem_singleton] at h
        subst h
        refine ⟨rfl, fun m hm' => absurd hm' (List.not_mem_nil m), trivial, ?_⟩
        rw [show applyTurns cube [] = cube from rfl]
        exact hm
      · cases h
    · rintro ⟨h1, _, _, h4⟩
      rw [List.length_eq_zero] at h1
      subst h1
      rw [show applyTurns cube [] = cube from rfl] at h4
      rw [if_pos h4]
      exact List.mem_singleton.mpr rfl
  | succ f ih =>
    intro cube last ms
    simp only [extsGo, List.mem_flatMap]
    constructor
    · rintro ⟨t, htA, hms⟩
      split_ifs at hms with hg
      · rw [List.mem_map] at hms
        obtain ⟨ms', hms', rfl⟩ := hms
        obtain ⟨hl, hA, hc, hmt⟩ := (ih _ _ _).mp hms'
        refine ⟨by simp [hl], ?_, ⟨hg, hc⟩, hmt⟩
        intro m hm
        rcases List.mem_cons.mp hm with rfl | hm'
        · exact htA
        · exact hA m hm'
      · cases hms
    · rintro ⟨hl, hA, hc, hmt⟩
      cases ms with
      | nil => cases hl
      | cons t ms' =>
        obtain ⟨hg, hc'⟩ := hc
        refine ⟨t, hA t (List.mem_cons_self t ms'), ?_⟩
        rw [if_pos hg, List.mem_map]
        refine ⟨ms', ?_, rfl⟩
        exact (ih _ _ _).mpr ⟨by simpa using hl, fun m hm => hA m (List.mem_cons_of_mem t hm),
          hc', hmt⟩

/-- With a duplicate-free allowed-move list, the emission spec has no
duplicate sequences. -/
theorem exts_nodup (p : Cube) (A : List Turn) (hA : A.Nodup) :
    ∀ (f : Nat) (cube : Cube) (last : Nat), (extsGo p A cube last f).Nodup := by
  intro f
  induction f with
  | zero =>
    intro cube last
    simp only [extsGo]
    split_ifs <;> simp
  | succ f ih =>
    intro cube last
    simp only [extsGo]
    rw [List.nodup_flatMap]
    constructor
    · intro t _
      split_ifs
      · exact (ih _ _).map fun x y h => by simpa using h
      · exact List.nodup_nil
    · refine hA.imp ?_
      intro t u hne x hx1 hx2
      simp only [] at hx1 hx2
      split_ifs at hx1 hx2 with h1 h2
      · obtain ⟨m1, _, rfl⟩ := List.mem_map.mp hx1
        obtain ⟨m2, _, he⟩ := List.mem_map.mp hx2
        injection he with he1 _
        exact hne he1.symm
      · cases hx2
      · cases hx1
      · cases hx1

theorem count_beq_bridge (ms : List Turn) (l : List (List Turn)) :
    @List.count (List Turn) List.instBEq ms l =
      @List.count (List Turn) (@instBEqOfDecidableEq _ inferInstance) ms l := by
  unfold List.count
  apply List.countP_congr
  intro x _
  simp [beq_iff_eq]

theorem exts_count (p : Cube) (A : List Turn) (hA : A.Nodup)
    (f : Nat) (cube : Cube) (last : Nat) (ms : List Turn) :
    (extsGo p A cube last f).count ms =
      if ms.length = f ∧ (∀ m ∈ ms, m ∈ A) ∧ chainFrom last ms ∧
         Cube.matches (applyTurns cube ms) p = true then 1 else 0 := by
  by_cases h : ms.length = f ∧ (∀ m ∈ ms, m ∈ A) ∧ chainFrom last ms ∧
      Cube.matches (applyTurns cube ms) p = true
  · rw [if_pos h, count_beq_bridge]
    exact List.count_eq_one_of_mem (exts_nodup p A hA f cube last)
      ((exts_mem p A f cube last ms).mpr h)
  · rw [if_neg h]
    exact List.count_eq_zero_of_not_mem fun hmem =>
      h ((exts_mem p A f cube last ms).mp hmem)

theorem xor_255 : ∀ t : Turn, Turn.val t ^^^ 255 > 0b11 := by decide

/-- The round at depth `d` is the depth marker followed by exactly the
pruned matching sequences of length `d` (the sentinel tag 255 collides
with no move tag, so the root moves are unconstrained). -/
theorem searchRound_eq (S p : Cube) (A : List Turn) (d : Nat) (hd : 1 ≤ d) :
    searchRound S p A d =
      SearchResult.Depth d :: (extsGo p A S 255 d).map SearchResult.Algorithm := by
  obtain ⟨f, rfl⟩ : ∃ f, d = f + 1 := ⟨d - 1, by omega⟩
  unfold searchRound
  congr 1
  show (A.flatMap fun t => (search_helper (S.turn t) (Turn.val t) 1 (f + 1) p
      (List.replicate (f + 1 + 1) t) A none).1) = _
  simp only [extsGo, List.map_flatMap]
  refine congrArg A.flatMap (funext fun t => ?_)
  rw [if_pos (xor_255 t)]
  unfold search_helper
  rw [show f + 1 + 1 - 1 = f + 1 from by omega]
  rw [go_emit p A f (S.turn t) (Turn.val t) 1 (f + 1) _ (by omega) (by simp)]
  rw [List.map_map]
  refine List.map_congr_left fun ms _ => ?_
  simp [List.take_replicate]

theorem chainFrom_iff_chain' (u : Turn) (ms : List Turn) :
    chainFrom (Turn.val u) ms ↔
      List.Chain' (fun a b => Turn.val a ^^^ Turn.val b > 0b11) (u :: ms) := by
  induction ms generalizing u with
  | nil => simp [chainFrom]
  | cons t ts ih =>
    simp only [chainFrom, List.chain'_cons]
    rw [← ih t]
    exact and_congr (by rw [Nat.xor_comm]) Iff.rfl

theorem chainFrom_255_iff (ms : List Turn) :
    chainFrom 255 ms ↔
      List.Chain' (fun a b => Turn.val a ^^^ Turn.val b > 0b11) ms := by
  cases ms with
  | nil => simp [chainFrom]
  | cons t ts =>
    show (Turn.val t ^^^ 255 > 0b11) ∧ chainFrom (Turn.val t) ts ↔ _
    rw [chainFrom_iff_chain' t ts]
    simp [xor_255 t]

theorem chain'_xor_iff_axis (ms : List Turn) :
    List.Chain' (fun a b => Turn.val a ^^^ Turn.val b > 0b11) ms ↔
      List.Chain' (fun a b => Turn.axisIdx a ≠ Turn.axisIdx b) ms := by
  constructor
  · refine fun h => h.imp ?_
    intro a b hab hax
    have hx := (xor_le_three_iff_same_axis a b).mpr hax
    omega
  · refine fun h => h.imp ?_
    intro a b hab
    by_contra hx
    exact hab ((xor_le_three_iff_same_axis a b).mp (by omega))

/-- C1: during the round at depth `d`, the multiset of algorithms emitted
(assuming every send succeeds) contains each move sequence of length `d`
over the allowed moves with no two consecutive moves on the same axis
whose application to the start matches the pattern exactly once, and
nothing else. -/
theorem C1_theorem (S P : Cube) (A : List Turn) (hA : A.Nodup) (d : Nat)
    (hd : 1 ≤ d) (ms : List Turn) :
    (searchRound S P A d).count (SearchResult.Algorithm ms) =
      if ms.length = d ∧ (∀ m ∈ ms, m ∈ A) ∧
         List.Chain' (fun a b => Turn.axisIdx a ≠ Turn.axisIdx b) ms ∧
         Cube.matches (applyTurns S ms) P = true then 1 else 0 := by
  rw [searchRound_eq S P A d hd,
    List.count_cons_of_ne (by simp),
    List.count_map_of_injective _ SearchResult.Algorithm
      (fun a b h => by injection h) ms,
    ← count_beq_bridge, exts_count P A hA d S 255 ms]
  refine if_congr (and_congr Iff.rfl (and_congr Iff.rfl (and_congr ?_ Iff.rfl))) rfl rfl
  rw [chainFrom_255_iff, chain'_xor_iff_axis]

/-- Witness for C1: solving `R` applied to the solved cube at depth 1 with
the single allowed move R' emits exactly the algorithm `[R']` once. -/
theorem C1_theorem_witness :
    ([Turn.R_] : List Turn).Nodup ∧ 1 ≤ 1 ∧
    (searchRound (Cube.solved_state.turn Turn.R) Cube.solved_state [Turn.R_] 1).count
        (SearchResult.Algorithm [Turn.R_]) =
      if ([Turn.R_] : List Turn).length = 1 ∧ (∀ m ∈ ([Turn.R_] : List Turn), m ∈ ([Turn.R_] : List Turn)) ∧
         List.Chain' (fun a b => Turn.axisIdx a ≠ Turn.axisIdx b) [Turn.R_] ∧
         Cube.matches (applyTurns (Cube.solved_state.turn Turn.R) [Turn.R_]) Cube.solved_state = true
      then 1 else 0 :=
  ⟨by decide, le_refl 1,
   C1_theorem (Cube.solved_state.turn Turn.R) Cube.solved_state [Turn.R_]
     (by decide) 1 (le_refl 1) [Turn.R_]⟩

/-! ## Stream ordering (claim C8) -/

theorem round_mem_alg {S p : Cube} {A : List Turn} {d : Nat} (hd : 1 ≤ d)
    {ms : List Turn} (h : SearchResult.Algorithm ms ∈ searchRound S p A d) :
    ms.length = d := by
  rw [searchRound_eq S p A d hd] at h
  rcases List.mem_cons.mp h with he | hm
  · cases he
  · obtain ⟨ms', hms', he⟩ := List.mem_map.mp hm
    injection he with he'
    subst he'
    exact ((exts_mem p A d S 255 ms').mp hms').1

theorem round_count_depth {S p : Cube} {A : List Turn} {d : Nat} (hd : 1 ≤ d)
    (e : Nat) :
    (searchRound S p A d).count (SearchResult.Depth e) = if e = d then 1 else 0 := by
  rw [searchRound_eq S p A d hd, List.count_cons]
  have h0 : ((extsGo p A S 255 d).map SearchResult.Algorithm).count
      (SearchResult.Depth e) = 0 := by
    refine List.count_eq_zero_of_not_mem fun hm => ?_
    obtain ⟨ms', _, he⟩ := List.mem_map.mp hm
    cases he
  rw [h0]
  by_cases he : e = d
  · subst he
    simp
  · simp [he]
    omega

theorem searchTo_mem_alg {S p : Cube} {A : List Turn} :
    ∀ (n : Nat) (ms : List Turn),
      SearchResult.Algorithm ms ∈ searchTo S p A n →
      1 ≤ ms.length ∧ ms.length ≤ n := by
  intro n
  induction n with
  | zero => intro ms h; cases h
  | succ n ih =>
    intro ms h
    rw [searchTo, List.mem_append] at h
    rcases h with h | h
    · have := ih ms h
      omega
    · have := round_mem_alg (by omega) h
      omega

theorem searchTo_mem_depth {S p : Cube} {A : List Turn} :
    ∀ (n : Nat) (e : Nat),
      SearchResult.Depth e ∈ searchTo S p A n → 1 ≤ e ∧ e ≤ n := by
  intro n
  induction n with
  | zero => intro e h; cases h
  | succ n ih =>
    intro e h
    rw [searchTo, List.mem_append] at h
    rcases h with h | h
    · have := ih e h
      omega
    · have hc := round_count_depth (S := S) (p := p) (A := A) (by omega : 1 ≤ n + 1) e
      by_cases he : e = n + 1
      · omega
      · rw [if_neg he] at hc
        rw [← List.count_pos_iff] at h
        omega

theorem searchTo_split {S p : Cube} {A : List Turn} :
    ∀ (n d : Nat), 1 ≤ d → d ≤ n →
      ∃ l2, searchTo S p A n =
        searchTo S p A (d - 1) ++ SearchResult.Depth d :: l2 := by
  intro n
  induction n with
  | zero => intro d h1 h2; omega
  | succ n ih =>
    intro d h1 h2
    by_cases hd : d = n + 1
    · subst hd
      refine ⟨(extsGo p A S 255 (n + 1)).map SearchResult.Algorithm, ?_⟩
      rw [searchTo, searchRound_eq S p A (n + 1) (by omega), Nat.add_sub_cancel]
    · obtain ⟨l2, hl2⟩ := ih d h1 (by omega)
      refine ⟨l2 ++ searchRound S p A (n + 1), ?_⟩
      rw [searchTo, hl2]
      simp [List.append_assoc]

theorem searchTo_count_depth {S p : Cube} {A : List Turn} :
    ∀ (n d : Nat), (searchTo S p A n).count (SearchResult.Depth d) =
      if 1 ≤ d ∧ d ≤ n then 1 else 0 := by
  intro n
  induction n with
  | zero =>
    intro d
    simp only [searchTo, List.count_nil]
    split_ifs <;> omega
  | succ n ih =>
    intro d
    rw [searchTo, List.count_append, ih d, round_count_depth (by omega) d]
    split_ifs <;> omega

theorem searchTo_head {S p : Cube} {A : List Turn} :
    ∀ n : Nat, 1 ≤ n →
      (searchTo S p A n).head? = some (SearchResult.Depth 1) := by
  intro n
  induction n with
  | zero => omega
  | succ n ih =>
    intro _
    by_cases hn : 1 ≤ n
    · rw [searchTo, List.head?_append, ih hn]
      rfl
    · have hn0 : n = 0 := by omega
      subst hn0
      rw [searchTo, searchRound_eq S p A 1 (by omega)]
      rfl

/-- C8: in the stream prefix after `n` rounds, the first message is
`Depth 1`; no empty algorithm is ever sent; each marker `Depth d` appears
exactly once, preceded only by algorithms shorter than `d` and by no
marker `Depth e` with `e ≥ d` (so `Depth d` precedes every algorithm of
length `d` and precedes `Depth (d+1)`). -/
theorem C8_theorem (S p : Cube) (A : List Turn) (n : Nat) :
    (1 ≤ n → (searchTo S p A n).head? = some (SearchResult.Depth 1)) ∧
    (∀ ms, SearchResult.Algorithm ms ∈ searchTo S p A n → 1 ≤ ms.length) ∧
    (∀ d, 1 ≤ d → d ≤ n →
      ∃ l1 l2, searchTo S p A n = l1 ++ SearchResult.Depth d :: l2 ∧
        (∀ ms, SearchResult.Algorithm ms ∈ l1 → ms.length < d) ∧
        (∀ e, d ≤ e → SearchResult.Depth e ∉ l1)) ∧
    (∀ d, (searchTo S p A n).count (SearchResult.Depth d) =
      if 1 ≤ d ∧ d ≤ n then 1 else 0) := by
  refine ⟨searchTo_head n, ?_, ?_, searchTo_count_depth n⟩
  · intro ms h
    exact (searchTo_mem_alg n ms h).1
  · intro d h1 h2
    obtain ⟨l2, hl2⟩ := searchTo_split n d h1 h2
    refine ⟨searchTo S p A (d - 1), l2, hl2, ?_, ?_⟩
    · intro ms hm
      have := searchTo_mem_alg (d - 1) ms hm
      omega
    · intro e he hm
      have := searchTo_mem_depth (d - 1) e hm
      omega

/-- Witness for C8 at a concrete input. -/
theorem C8_theorem_witness :
    (searchTo Cube.solved_state Cube.solved_state [Turn.R] 1).head? =
      some (SearchResult.Depth 1) :=
  (C8_theorem Cube.solved_state Cube.solved_state [Turn.R] 1).1 (le_refl 1)

/-! ## Behavior on a closed or closing channel (claim C9) -/

theorem loopGo_chan (last : Nat) (deep : Turn → Option Nat → Res)
    (hnone : ∀ t, (deep t none).2.1 = none)
    (hinv : ∀ t k, (deep t (some k)).1 = (deep t none).1.take k ∧
      (deep t (some k)).2.1 = some (k - (deep t none).1.length) ∧
      (deep t (some k)).2.2 = (deep t none).2.2) :
    ∀ (todo : List Turn) (k : Nat),
      (loopGo last deep todo (some k)).1 = (loopGo last deep todo none).1.take k ∧
      (loopGo last deep todo (some k)).2.1 =
        some (k - (loopGo last deep todo none).1.length) ∧
      (loopGo last deep todo (some k)).2.2 = (loopGo last deep todo none).2.2 := by
  intro todo
  induction todo with
  | nil =>
    intro k
    exact ⟨by simp [loopGo], by simp [loopGo], rfl⟩
  | cons a as ih =>
    intro k
    simp only [loopGo]
    split_ifs with hg
    · rw [(hinv a k).1, (hinv a k).2.1, (hinv a k).2.2, hnone a]
      obtain ⟨ih1, ih2, ih3⟩ := ih (k - (deep a none).1.length)
      rw [ih1, ih2, ih3]
      refine ⟨?_, ?_, rfl⟩
      · rw [List.take_append_eq_append_take]
      · rw [List.length_append]
        congr 1
        omega
    · exact ih k

theorem go_chan (p : Cube) (A : List Turn) :
    ∀ (f : Nat) (cube : Cube) (last depth max_depth : Nat) (hist : List Turn)
      (k : Nat),
      (go p A f cube last depth max_depth hist (some k)).1 =
        (go p A f cube last depth max_depth hist none).1.take k ∧
      (go p A f cube last depth max_depth hist (some k)).2.1 =
        some (k - (go p A f cube last depth max_depth hist none).1.length) ∧
      (go p A f cube last depth max_depth hist (some k)).2.2 =
        (go p A f cube last depth max_depth hist none).2.2 := by
  intro f
  induction f with
  | zero =>
    intro cube last depth max_depth hist k
    exact ⟨by simp [go], by simp [go], rfl⟩
  | succ f ih =>
    intro cube last depth max_depth hist k
    simp only [go]
    split_ifs with h1 h2
    · exact ⟨by simp, by simp, rfl⟩
    · cases k with
      | zero => exact ⟨by simp [send], by simp [send], by simp [send]⟩
      | succ k => exact ⟨by simp [send], by simp [send], by simp [send]⟩
    · exact loopGo_chan last _
        (fun t => go_chan_none p A f (cube.turn t) (Turn.val t) (depth + 1) max_depth
          (hist.set depth t))
        (fun t k' => ih (cube.turn t) (Turn.val t) (depth + 1) max_depth
          (hist.set depth t) k') A k

/-- C9 counterexample: with the receiver already dropped (every send
fails), the worker exploring below U at depth 2 with allowed moves
U, R, F and the all-wildcard pattern attempts two sends: the first
attempt fails, yet the worker still explores the rest of its subtree and
attempts another send — it does not stop after observing the failure. -/
theorem C9_counterexample :
    (search_helper (Cube.solved_state.turn Turn.U) (Turn.val Turn.U) 1 2 allWildcard
        (List.replicate 3 Turn.U) [Turn.U, Turn.R, Turn.F] (some 0)).1 = [] ∧
    (search_helper (Cube.solved_state.turn Turn.U) (Turn.val Turn.U) 1 2 allWildcard
        (List.replicate 3 Turn.U) [Turn.U, Turn.R, Turn.F] (some 0)).2.2 = 2 ∧
    ¬ ((search_helper (Cube.solved_state.turn Turn.U) (Turn.val Turn.U) 1 2 allWildcard
        (List.replicate 3 Turn.U) [Turn.U, Turn.R, Turn.F] (some 0)).2.2 ≤ 1) := by
  refine ⟨?_, ?_, ?_⟩ <;> decide

/-- C9 (amended): a failed send makes only the current `search_helper`
invocation return (emitting nothing); the enclosing DFS recursion keeps
exploring and attempting sends.  Precisely: with a channel that accepts
`k` more sends, the worker emits exactly the first `k` of the results it
would emit on an open channel, makes exactly the same number of send
attempts, and leaves the channel with `k` minus the number of successes. -/
theorem C9_theorem (cube : Cube) (last depth max_depth : Nat) (p : Cube)
    (hist A : List Turn) (k : Nat) :
    (search_helper cube last depth max_depth p hist A (some k)).1 =
      (search_helper cube last depth max_depth p hist A none).1.take k ∧
    (search_helper cube last depth max_depth p hist A (some k)).2.1 =
      some (k - (search_helper cube last depth max_depth p hist A none).1.length) ∧
    (search_helper cube last depth max_depth p hist A (some k)).2.2 =
      (search_helper cube last depth max_depth p hist A none).2.2 :=
  go_chan p A (max_depth + 1 - depth) cube last depth max_depth hist k
